import Mathlib

/-!
# Raytracer: vectors, plastic BSDF, point light, packet traversal, bitmap

A shallow embedding of parts of the renderer's core:

* `Core/Math/Vector4ImplNaive.h`      (four-component vectors),
* `Core/Math/VectorBool4ImplSSE.h`    (four-lane boolean registers),
* `Core/Material/BSDF/BSDF.h`         (event types, `CosEpsilon`, the two contexts),
* `Core/Material/BSDF/PlasticBSDF.cpp` (`Sample`, `Evaluate`),
* `RaytracerLib/Scene/Light/PointLight.cpp` (`Illuminate`, `TestRayHit`,
  `GetRadiance`, `IsDelta`),
* `Core/Traversal/TraversalContext.cpp` (`StoreIntersection`),
* `Core/Utils/Bitmap.cpp`             (`BitsPerPixel`, `GetDataSize`, `Init`,
  `Copy`, `GetPixel`, `GetPixelBlock`).

## Numbers

The code computes with `float`.  The definitions of the vector operations, the
plastic BSDF and the point light use only the operations of a number type `K`
(`+`, `-`, `*`, `/`, `<`, the literals), so they can be evaluated on any type
that has them.  Two number types are used:

* In the general theorems `K` is an arbitrary linear ordered field (for instance
  the rationals, on which every definition below can be evaluated): arithmetic is
  exact, there is no rounding, no NaN and no infinity.  Division is the total
  division of the field, so `x / 0 = 0`; a theorem whose content depends on a
  quotient states the sign of the divisor as the code computes it, or says what
  happens when the divisor is zero.
* The type `Single` keeps the two ends of the `float` range that exact arithmetic
  loses: a result too small for a `float` is 0, a result too large is an infinity,
  a division by zero gives an infinity or NaN.  It is used to evaluate the code
  where a squared length underflows or a probability is `0 / 0`.

Machine integers are natural numbers or integers with the wrap-around written
out: `% 2 ^ 32`, `% 2 ^ 64`, and `toInt32` for the signed reading of 32 bits.
The conversion of a `float` to `int32` (in `ToBGR`) drops the fraction; it needs
a floor function on `K`, and it gives `-2^31`, as the conversion instruction of
the SSE target does, when the integer does not fit 32 bits.

## State

The random generator the sampling context refers to is an explicit state of type
`R`; drawing a number returns the number and the next state.  Output parameters
written through a reference are fields of the returned context; an optional output
pointer is an `Option` (`none` is the null pointer, `some v` a pointer to a cell
that holds `v`).
-/

namespace rt

namespace math

/-- The class `Vector4`: four `float` components `x, y, z, w`. -/
structure Vector4 (K : Type) where
  x : K
  y : K
  z : K
  w : K
deriving DecidableEq

section Vector4Ops

variable {K : Type} [OfNat K 0] [One K] [Add K] [Sub K] [Mul K] [Neg K] [Div K]
  [LT K] [LE K] [NatCast K] [IntCast K] [DecidableEq K]
  [DecidableRel (fun a b : K => a < b)] [DecidableRel (fun a b : K => a ≤ b)]

/-- `Vector4::Zero()`. -/
def Vector4.Zero : Vector4 K :=
  { x := 0, y := 0, z := 0, w := 0 }

/-- `Vector4::operator - () const`. -/
def Vector4.neg (a : Vector4 K) : Vector4 K :=
  { x := -a.x, y := -a.y, z := -a.z, w := -a.w }

/-- `Vector4::operator - (const Vector4& b) const`. -/
def Vector4.sub (a b : Vector4 K) : Vector4 K :=
  { x := a.x - b.x, y := a.y - b.y, z := a.z - b.z, w := a.w - b.w }

/-- `Vector4::operator /= (float b)`: every component is divided by `b`. -/
def Vector4.divScalar (a : Vector4 K) (b : K) : Vector4 K :=
  { x := a.x / b, y := a.y / b, z := a.z / b, w := a.w / b }

/-- `Vector4::Dot3`. -/
def Vector4.Dot3 (a b : Vector4 K) : K :=
  a.x * b.x + a.y * b.y + a.z * b.z

/-- `Vector4::SqrLength3`. -/
def Vector4.SqrLength3 (a : Vector4 K) : K :=
  Vector4.Dot3 a a

/-- `Vector4::Vector4(const float scalar)`: the scalar in every component. -/
def Vector4.ofScalar (scalar : K) : Vector4 K :=
  { x := scalar, y := scalar, z := scalar, w := scalar }

/-- `Vector4::operator + (const Vector4& b) const`. -/
def Vector4.add (a b : Vector4 K) : Vector4 K :=
  { x := a.x + b.x, y := a.y + b.y, z := a.z + b.z, w := a.w + b.w }

/-- `Vector4::operator * (const Vector4& b) const`. -/
def Vector4.mul (a b : Vector4 K) : Vector4 K :=
  { x := a.x * b.x, y := a.y * b.y, z := a.z * b.z, w := a.w * b.w }

/-- `Vector4::Dot2`. -/
def Vector4.Dot2 (a b : Vector4 K) : K :=
  a.x * b.x + a.y * b.y

/-- `Vector4::Dot4`. -/
def Vector4.Dot4 (a b : Vector4 K) : K :=
  a.x * b.x + a.y * b.y + a.z * b.z + a.w * b.w

/-- `Vector4::Dot2V`. -/
def Vector4.Dot2V (a b : Vector4 K) : Vector4 K :=
  Vector4.ofScalar (Vector4.Dot2 a b)

/-- `Vector4::Dot3V`. -/
def Vector4.Dot3V (a b : Vector4 K) : Vector4 K :=
  Vector4.ofScalar (Vector4.Dot3 a b)

/-- `Vector4::Dot4V`. -/
def Vector4.Dot4V (a b : Vector4 K) : Vector4 K :=
  Vector4.ofScalar (Vector4.Dot4 a b)

/-- `Vector4::MulAndAdd`. -/
def Vector4.MulAndAdd (a b c : Vector4 K) : Vector4 K :=
  (a.mul b).add c

/-- `Vector4::MulAndSub`. -/
def Vector4.MulAndSub (a b c : Vector4 K) : Vector4 K :=
  (a.mul b).sub c

/-- `Vector4::NegMulAndAdd`. -/
def Vector4.NegMulAndAdd (a b c : Vector4 K) : Vector4 K :=
  ((a.mul b).neg).add c

/-- `Vector4::NegMulAndSub`. -/
def Vector4.NegMulAndSub (a b c : Vector4 K) : Vector4 K :=
  ((a.mul b).neg).sub c

/-- `Vector4::operator * (float b) const`. -/
def Vector4.mulScalar (a : Vector4 K) (b : K) : Vector4 K :=
  { x := a.x * b, y := a.y * b, z := a.z * b, w := a.w * b }

/-- `Vector4::FromInteger(int32 x)`: the integer, converted, in every component. -/
def Vector4.FromInteger (x : Int) : Vector4 K :=
  Vector4.ofScalar (x : K)

/-- `Vector4::FromIntegers(int32 x, int32 y, int32 z, int32 w)`. -/
def Vector4.FromIntegers (x y z w : Int) : Vector4 K :=
  { x := (x : K), y := (y : K), z := (z : K), w := (w : K) }

/-- The component `f[i]` of a vector, `i` in `0..3`. -/
def Vector4.get (v : Vector4 K) (i : Fin 4) : K :=
  match i with
  | 0 => v.x
  | 1 => v.y
  | 2 => v.z
  | 3 => v.w

/-- `Vector4::Swizzle<ix, iy, iz, iw>()`. -/
def Vector4.Swizzle (v : Vector4 K) (ix iy iz iw : Fin 4) : Vector4 K :=
  { x := v.get ix, y := v.get iy, z := v.get iz, w := v.get iw }

/-- `Vector4::SplatX()` (declared in `Vector4.h`): the x component in every lane. -/
def Vector4.SplatX (v : Vector4 K) : Vector4 K :=
  Vector4.ofScalar v.x

/-- `Vector4::SplatY()`. -/
def Vector4.SplatY (v : Vector4 K) : Vector4 K :=
  Vector4.ofScalar v.y

/-- `Vector4::SplatZ()`. -/
def Vector4.SplatZ (v : Vector4 K) : Vector4 K :=
  Vector4.ofScalar v.z

/-- `Vector4::SplatW()`. -/
def Vector4.SplatW (v : Vector4 K) : Vector4 K :=
  Vector4.ofScalar v.w

/-- `v & Vector4::MakeMask<maskX, maskY, maskZ, maskW>()`, on values: the bitwise
AND with a lane of ones keeps the component, the AND with a lane of zeros gives
`+0.0f`. -/
def Vector4.andMask (v : Vector4 K) (maskX maskY maskZ maskW : Bool) : Vector4 K :=
  { x := if maskX then v.x else 0,
    y := if maskY then v.y else 0,
    z := if maskZ then v.z else 0,
    w := if maskW then v.w else 0 }

/-- Modelled from the spec: the constant `VECTOR_Z` (declared in `Math/Vector4.h`),
the unit normal of the local shading frame, "+Z = normal". -/
def VECTOR_Z : Vector4 K :=
  { x := 0, y := 0, z := 1, w := 0 }

end Vector4Ops

/-- The class `VectorBool4` of `VectorBool4ImplSSE.h`: one SSE register of four
32-bit lanes, each lane held as the `uint32` value of its bits. -/
structure VectorBool4 where
  x : Nat
  y : Nat
  z : Nat
  w : Nat
deriving DecidableEq

/-- Lane `index` of the register. -/
def VectorBool4.lane (v : VectorBool4) (index : Fin 4) : Nat :=
  match index with
  | 0 => v.x
  | 1 => v.y
  | 2 => v.z
  | 3 => v.w

/-- `VectorBool4::VectorBool4(bool x, bool y, bool z, bool w)`: a lane is
`0xFFFFFFFF` where the argument is true and 0 where it is false. -/
def VectorBool4.ofBools (x y z w : Bool) : VectorBool4 :=
  { x := if x then 0xFFFFFFFF else 0,
    y := if y then 0xFFFFFFFF else 0,
    z := if z then 0xFFFFFFFF else 0,
    w := if w then 0xFFFFFFFF else 0 }

/-- `VectorBool4::VectorBool4(int x, int y, int z, int w)`. -/
def VectorBool4.ofInts (x y z w : Int) : VectorBool4 :=
  { x := if x > 0 then 0xFFFFFFFF else 0,
    y := if y > 0 then 0xFFFFFFFF else 0,
    z := if z > 0 then 0xFFFFFFFF else 0,
    w := if w > 0 then 0xFFFFFFFF else 0 }

/-- `VectorBool4::Get<index>()`: `_mm_extract_ps(v, index) != 0`. -/
def VectorBool4.Get (v : VectorBool4) (index : Fin 4) : Bool :=
  decide (v.lane index ≠ 0)

/-- The intrinsic `_mm_movemask_ps`: bit `k` of the result is the sign bit (bit 31)
of lane `k`. -/
def VectorBool4.movemask (v : VectorBool4) : Nat :=
  ((v.x >>> 31) &&& 1) ||| (((v.y >>> 31) &&& 1) <<< 1) |||
    (((v.z >>> 31) &&& 1) <<< 2) ||| (((v.w >>> 31) &&& 1) <<< 3)

/-- `VectorBool4::GetMask`. -/
def VectorBool4.GetMask (v : VectorBool4) : Nat :=
  v.movemask

/-- `VectorBool4::All`. -/
def VectorBool4.All (v : VectorBool4) : Bool :=
  decide (v.movemask = 0xF)

/-- `VectorBool4::None`. -/
def VectorBool4.None (v : VectorBool4) : Bool :=
  decide (v.movemask = 0)

/-- `VectorBool4::Any`. -/
def VectorBool4.Any (v : VectorBool4) : Bool :=
  decide (v.movemask ≠ 0)

/-- `VectorBool4::operator &`: `_mm_and_ps`, lane by lane. -/
def VectorBool4.and (a b : VectorBool4) : VectorBool4 :=
  { x := a.x &&& b.x, y := a.y &&& b.y, z := a.z &&& b.z, w := a.w &&& b.w }

/-- `VectorBool4::operator |`: `_mm_or_ps`, lane by lane. -/
def VectorBool4.or (a b : VectorBool4) : VectorBool4 :=
  { x := a.x ||| b.x, y := a.y ||| b.y, z := a.z ||| b.z, w := a.w ||| b.w }

/-- `VectorBool4::operator ^`: `_mm_xor_ps`, lane by lane. -/
def VectorBool4.xor (a b : VectorBool4) : VectorBool4 :=
  { x := a.x ^^^ b.x, y := a.y ^^^ b.y, z := a.z ^^^ b.z, w := a.w ^^^ b.w }

/-- The intrinsic `_mm_unpacklo_ps(a, b)`: the two low lanes of `a` and of `b`,
interleaved. -/
def _mm_unpacklo_ps (a b : VectorBool4) : VectorBool4 :=
  { x := a.x, y := b.x, z := a.y, w := b.y }

/-- The intrinsic `_mm_unpackhi_ps(a, b)`: the two high lanes of `a` and of `b`,
interleaved. -/
def _mm_unpackhi_ps (a b : VectorBool4) : VectorBool4 :=
  { x := a.z, y := b.z, z := a.w, w := b.w }

/-- The intrinsic `_mm_movelh_ps(a, b)`: the low half of `a`, then the low half of
`b`. -/
def _mm_movelh_ps (a b : VectorBool4) : VectorBool4 :=
  { x := a.x, y := a.y, z := b.x, w := b.y }

/-- The intrinsic `_mm_movehl_ps(a, b)`: the high half of `b`, then the high half of
`a`. -/
def _mm_movehl_ps (a b : VectorBool4) : VectorBool4 :=
  { x := b.z, y := b.w, z := a.z, w := a.w }

/-- The intrinsic `_mm_moveldup_ps(a)`: the even lanes, each twice. -/
def _mm_moveldup_ps (a : VectorBool4) : VectorBool4 :=
  { x := a.x, y := a.x, z := a.z, w := a.z }

/-- The intrinsic `_mm_movehdup_ps(a)`: the odd lanes, each twice. -/
def _mm_movehdup_ps (a : VectorBool4) : VectorBool4 :=
  { x := a.y, y := a.y, z := a.w, w := a.w }

/-- The macro `_MM_SHUFFLE(fp3, fp2, fp1, fp0)`: the 8-bit immediate of a shuffle. -/
def _MM_SHUFFLE (fp3 fp2 fp1 fp0 : Nat) : Nat :=
  (fp3 <<< 6) ||| (fp2 <<< 4) ||| (fp1 <<< 2) ||| fp0

/-- The lane of a register picked by a 2-bit field of a shuffle immediate. -/
def VectorBool4.pick (v : VectorBool4) (field : Nat) : Nat :=
  match field with
  | 0 => v.x
  | 1 => v.y
  | 2 => v.z
  | _ => v.w

/-- The intrinsic `_mm_shuffle_ps(a, b, imm8)`: lanes 0 and 1 are the lanes of `a`
picked by bits 0-1 and 2-3 of `imm8`, lanes 2 and 3 the lanes of `b` picked by
bits 4-5 and 6-7. -/
def _mm_shuffle_ps (a b : VectorBool4) (imm8 : Nat) : VectorBool4 :=
  { x := a.pick (imm8 &&& 3), y := a.pick ((imm8 >>> 2) &&& 3),
    z := b.pick ((imm8 >>> 4) &&& 3), w := b.pick ((imm8 >>> 6) &&& 3) }

/-- `VectorBool4::Swizzle<ix, iy, iz, iw>()`: six index patterns have an
instruction of their own, every other pattern takes the general shuffle. -/
def VectorBool4.Swizzle (v : VectorBool4) (ix iy iz iw : Fin 4) : VectorBool4 :=
  if ix = 0 ∧ iy = 0 ∧ iz = 1 ∧ iw = 1 then
    _mm_unpacklo_ps v v
  else if ix = 2 ∧ iy = 2 ∧ iz = 3 ∧ iw = 3 then
    _mm_unpackhi_ps v v
  else if ix = 0 ∧ iy = 1 ∧ iz = 0 ∧ iw = 1 then
    _mm_movelh_ps v v
  else if ix = 2 ∧ iy = 3 ∧ iz = 2 ∧ iw = 3 then
    _mm_movehl_ps v v
  else if ix = 0 ∧ iy = 0 ∧ iz = 2 ∧ iw = 2 then
    _mm_moveldup_ps v
  else if ix = 1 ∧ iy = 1 ∧ iz = 3 ∧ iw = 3 then
    _mm_movehdup_ps v
  else
    _mm_shuffle_ps v v (_MM_SHUFFLE iw iz iy ix)

/-- The swizzle as the specification words it: lane `j` of the result is lane
`i_j` of the input. -/
def VectorBool4.SwizzleSpec (v : VectorBool4) (ix iy iz iw : Fin 4) : VectorBool4 :=
  { x := v.lane ix, y := v.lane iy, z := v.lane iz, w := v.lane iw }

section Vector4Compare

variable {K : Type} [OfNat K 0] [One K] [Add K] [Sub K] [Mul K] [Neg K] [Div K]
  [LT K] [LE K] [NatCast K] [IntCast K] [DecidableEq K]
  [DecidableRel (fun a b : K => a < b)] [DecidableRel (fun a b : K => a ≤ b)]

/-- `Vector4::operator == (const Vector4& b) const`. -/
def Vector4.eq (a b : Vector4 K) : VectorBool4 :=
  VectorBool4.ofBools (decide (a.x = b.x)) (decide (a.y = b.y)) (decide (a.z = b.z))
    (decide (a.w = b.w))

/-- `Vector4::operator != (const Vector4& b) const`. -/
def Vector4.ne (a b : Vector4 K) : VectorBool4 :=
  VectorBool4.ofBools (decide (a.x ≠ b.x)) (decide (a.y ≠ b.y)) (decide (a.z ≠ b.z))
    (decide (a.w ≠ b.w))

/-- `Vector4::operator < (const Vector4& b) const`. -/
def Vector4.lt (a b : Vector4 K) : VectorBool4 :=
  VectorBool4.ofBools (decide (a.x < b.x)) (decide (a.y < b.y)) (decide (a.z < b.z))
    (decide (a.w < b.w))

/-- `Vector4::operator <= (const Vector4& b) const`. -/
def Vector4.le (a b : Vector4 K) : VectorBool4 :=
  VectorBool4.ofBools (decide (a.x ≤ b.x)) (decide (a.y ≤ b.y)) (decide (a.z ≤ b.z))
    (decide (a.w ≤ b.w))

/-- `Vector4::operator > (const Vector4& b) const`. -/
def Vector4.gt (a b : Vector4 K) : VectorBool4 :=
  VectorBool4.ofBools (decide (a.x > b.x)) (decide (a.y > b.y)) (decide (a.z > b.z))
    (decide (a.w > b.w))

/-- `Vector4::operator >= (const Vector4& b) const`. -/
def Vector4.ge (a b : Vector4 K) : VectorBool4 :=
  VectorBool4.ofBools (decide (a.x ≥ b.x)) (decide (a.y ≥ b.y)) (decide (a.z ≥ b.z))
    (decide (a.w ≥ b.w))

/-- The element `f[i]` for a run-time index: `none` when the index is outside the
array of four floats. -/
def Vector4.at? (v : Vector4 K) (i : Nat) : Option K :=
  match i with
  | 0 => some v.x
  | 1 => some v.y
  | 2 => some v.z
  | 3 => some v.w
  | _ => none

/-- `Vector4::Swizzle(uint32 ix, uint32 iy, uint32 iz, uint32 iw) const`, the
run-time form: no result when an index is outside `0..3`. -/
def Vector4.SwizzleRuntime (v : Vector4 K) (ix iy iz iw : Nat) : Option (Vector4 K) := do
  let x ← v.at? ix
  let y ← v.at? iy
  let z ← v.at? iz
  let w ← v.at? iw
  pure { x := x, y := y, z := z, w := w }

/-- `Vector4::ChangeSign<flipX, flipY, flipZ, flipW>()`; the template arguments are
`uint32` values. -/
def Vector4.ChangeSign (v : Vector4 K) (flipX flipY flipZ flipW : Nat) : Vector4 K :=
  if ¬ (flipX ≠ 0 ∨ flipY ≠ 0 ∨ flipZ ≠ 0 ∨ flipW ≠ 0) then
    v
  else
    { x := if flipX > 0 then -v.x else v.x,
      y := if flipY > 0 then -v.y else v.y,
      z := if flipZ > 0 then -v.z else v.z,
      w := if flipW > 0 then -v.w else v.w }

/-- `Vector4::ChangeSign(const VectorBool4& flip) const`. -/
def Vector4.ChangeSignMask (v : Vector4 K) (flip : VectorBool4) : Vector4 K :=
  { x := if flip.Get 0 then -v.x else v.x,
    y := if flip.Get 1 then -v.y else v.y,
    z := if flip.Get 2 then -v.z else v.z,
    w := if flip.Get 3 then -v.w else v.w }

/-- `Vector4::operator /= (const Vector4& b)`: component by component. -/
def Vector4.div (a b : Vector4 K) : Vector4 K :=
  { x := a.x / b.x, y := a.y / b.y, z := a.z / b.z, w := a.w / b.w }

end Vector4Compare

/-- The value of the low 32 bits of an integer, read as a signed `int32`. -/
def toInt32 (n : Int) : Int :=
  (n + 2 ^ 31) % 2 ^ 32 - 2 ^ 31

/-- The value of the low 32 bits of an integer, read as a `uint32`: the cast
`(Uint32)n`. -/
def toUint32 (n : Int) : Int :=
  n % 2 ^ 32

/-- The class `VectorInt4` (declared in `Math/VectorInt4.h`): four `int32` lanes. -/
structure VectorInt4 where
  x : Int
  y : Int
  z : Int
  w : Int
deriving DecidableEq

/-- The lane `i[k]` of an integer vector. -/
def VectorInt4.get (v : VectorInt4) (i : Fin 4) : Int :=
  match i with
  | 0 => v.x
  | 1 => v.y
  | 2 => v.z
  | 3 => v.w

/-- `VectorInt4::Swizzle<ix, iy, iz, iw>()`. -/
def VectorInt4.Swizzle (v : VectorInt4) (ix iy iz iw : Fin 4) : VectorInt4 :=
  { x := v.get ix, y := v.get iy, z := v.get iz, w := v.get iw }

/-- `VectorInt4::operator * (int32)`: lane by lane, keeping the low 32 bits. -/
def VectorInt4.mulScalar (v : VectorInt4) (b : Int) : VectorInt4 :=
  { x := toInt32 (v.x * b), y := toInt32 (v.y * b), z := toInt32 (v.z * b),
    w := toInt32 (v.w * b) }

/-- `VectorInt4::operator +`: lane by lane, keeping the low 32 bits. -/
def VectorInt4.add (a b : VectorInt4) : VectorInt4 :=
  { x := toInt32 (a.x + b.x), y := toInt32 (a.y + b.y), z := toInt32 (a.z + b.z),
    w := toInt32 (a.w + b.w) }

/-- `VectorInt4::operator << (int32)`: lane by lane, keeping the low 32 bits. -/
def VectorInt4.shl (v : VectorInt4) (b : Nat) : VectorInt4 :=
  { x := toInt32 (v.x * 2 ^ b), y := toInt32 (v.y * 2 ^ b), z := toInt32 (v.z * 2 ^ b),
    w := toInt32 (v.w * 2 ^ b) }

section Vector4Pack

variable {K : Type} [LinearOrderedField K] [FloorRing K]

/-- Modelled from the spec: the constant `VECTOR_255`, 255 in every component. -/
def VECTOR_255 : Vector4 K :=
  Vector4.ofScalar 255

/-- Modelled from the spec: `math::Clamp(x, min, max)` on `int32` values, the value
brought into the interval from `min` to `max`. -/
def Clamp (x lower upper : Int) : Int :=
  max lower (min x upper)

/-- The integer a `float` converts to: the value with its fraction dropped, that
is, rounded toward zero. -/
def truncate (value : K) : Int :=
  if 0 ≤ value then Int.floor value else Int.ceil value

/-- The conversion `static_cast<int32>(value)` of a `float`, as the conversion
instruction of the SSE target (`cvttss2si`) performs it: the truncated value when
that is an `int32`, and the value `-2^31` when it is not.  (The C++ standard leaves
the second case undefined.) -/
def castInt32 (value : K) : Int :=
  if -2 ^ 31 ≤ truncate value ∧ truncate value < 2 ^ 31 then
    truncate value
  else
    -2 ^ 31

/-- `Vector4::ToBGR`. -/
def Vector4.ToBGR (v : Vector4 K) : Nat :=
  let scaled := v.mul VECTOR_255
  let ret : Nat := (toUint32 (Clamp (castInt32 scaled.z) 0 255)).toNat
  let ret : Nat := ret ||| (toUint32 (toInt32 (Clamp (castInt32 scaled.y) 0 255 * 2 ^ 8))).toNat
  let ret : Nat := ret ||| (toUint32 (toInt32 (Clamp (castInt32 scaled.x) 0 255 * 2 ^ 16))).toNat
  ret

end Vector4Pack

end math

open math

/-- Modelled from the spec: the class `Color` (declared in `Color/Color.h`),
carried as an RGB triple. -/
structure Color (K : Type) where
  r : K
  g : K
  b : K
deriving DecidableEq

section ColorOps

variable {K : Type} [OfNat K 0] [Mul K] [Max K]

/-- Modelled from the spec: `Color::Zero()`, the black colour. -/
def Color.Zero : Color K :=
  { r := 0, g := 0, b := 0 }

/-- Modelled from the spec: the constructor `Color(float)`, the same value in
every channel. -/
def Color.ofScalar (v : K) : Color K :=
  { r := v, g := v, b := v }

/-- Modelled from the spec: `Color::operator * (float)`, channel by channel. -/
def Color.mulScalar (c : Color K) (s : K) : Color K :=
  { r := c.r * s, g := c.g * s, b := c.b * s }

/-- Modelled from the spec: `Color::Max()`, the largest channel. -/
def Color.Max (c : Color K) : K :=
  max (max c.r c.g) c.b

end ColorOps

namespace BSDF

/-- The enumeration `BSDF::EventType : Uint8`, a set of bit flags. -/
abbrev EventType := Nat

/-- `NullEvent = 0`. -/
def NullEvent : EventType := 0

/-- `DiffuseReflectionEvent = 1 << 0`. -/
def DiffuseReflectionEvent : EventType := 1 <<< 0

/-- `DiffuseTransmissionEvent = 1 << 1`. -/
def DiffuseTransmissionEvent : EventType := 1 <<< 1

/-- `GlossyReflectionEvent = 1 << 2`. -/
def GlossyReflectionEvent : EventType := 1 <<< 2

/-- `GlossyRefractionEvent = 1 << 3`. -/
def GlossyRefractionEvent : EventType := 1 <<< 3

/-- `SpecularReflectionEvent = 1 << 4`. -/
def SpecularReflectionEvent : EventType := 1 <<< 4

/-- `SpecularRefractionEvent = 1 << 5`. -/
def SpecularRefractionEvent : EventType := 1 <<< 5

/-- `DiffuseEvent = DiffuseReflectionEvent | DiffuseTransmissionEvent`. -/
def DiffuseEvent : EventType := DiffuseReflectionEvent ||| DiffuseTransmissionEvent

/-- `GlossyEvent = GlossyReflectionEvent | GlossyRefractionEvent`. -/
def GlossyEvent : EventType := GlossyReflectionEvent ||| GlossyRefractionEvent

/-- `SpecularEvent = SpecularReflectionEvent | SpecularRefractionEvent`. -/
def SpecularEvent : EventType := SpecularReflectionEvent ||| SpecularRefractionEvent

/-- `ReflectiveEvent = DiffuseReflectionEvent | GlossyReflectionEvent |
SpecularReflectionEvent`. -/
def ReflectiveEvent : EventType :=
  DiffuseReflectionEvent ||| GlossyReflectionEvent ||| SpecularReflectionEvent

/-- `TransmissiveEvent = SpecularRefractionEvent | GlossyRefractionEvent |
DiffuseTransmissionEvent`. -/
def TransmissiveEvent : EventType :=
  SpecularRefractionEvent ||| GlossyRefractionEvent ||| DiffuseTransmissionEvent

/-- `AnyEvent = ReflectiveEvent | TransmissiveEvent`. -/
def AnyEvent : EventType := ReflectiveEvent ||| TransmissiveEvent

/-- The six basic flags, in the order of the enumeration. -/
def basicEvents : List EventType :=
  [DiffuseReflectionEvent, DiffuseTransmissionEvent, GlossyReflectionEvent,
    GlossyRefractionEvent, SpecularReflectionEvent, SpecularRefractionEvent]

/-- `BSDF::CosEpsilon = 1.0e-5f`. -/
def CosEpsilon {K : Type} [One K] [NatCast K] [Div K] : K := 1 / 100000

/-- The part of `SampledMaterialParameters` (declared with `Material`) that the
plastic BSDF reads. -/
structure SampledMaterialParameters (K : Type) where
  baseColor : Color K
  IoR : K

/-- `BSDF::SamplingContext`.  The references `material` and `wavelength`, which
the plastic BSDF never touches, are left out; `randomGenerator` is the state of
the generator the context refers to. -/
structure SamplingContext (K R : Type) where
  materialParam : SampledMaterialParameters K
  outgoingDir : Vector4 K
  randomGenerator : R
  outColor : Color K
  outIncomingDir : Vector4 K
  outPdf : K
  outEventType : EventType

/-- A context as the caller builds it: the outputs hold their default member
initialisers (`Color::Zero()`, `Vector4::Zero()`, `0.0f`, `NullEvent`). -/
def SamplingContext.fresh {K R : Type} [OfNat K 0]
    (mp : SampledMaterialParameters K) (wo : Vector4 K) (rng : R) : SamplingContext K R :=
  { materialParam := mp, outgoingDir := wo, randomGenerator := rng,
    outColor := Color.Zero, outIncomingDir := Vector4.Zero, outPdf := 0,
    outEventType := NullEvent }

/-- `BSDF::EvaluationContext`, without the references `material` and `wavelength`. -/
structure EvaluationContext (K : Type) where
  materialParam : SampledMaterialParameters K
  outgoingDir : Vector4 K
  incomingDir : Vector4 K

end BSDF

open BSDF

/-- What `PlasticBSDF.cpp` takes from the headers `Math/Utils.h`, `Math/Random.h`
and `Math/Vector4.h`, kept abstract here: the Fresnel reflectance, the
mirror reflection, the constant `1/pi` and the two draws of the random generator,
each returning the drawn value and the generator's next state. -/
structure Externals (K R : Type) where
  FresnelDielectric : K → K → K
  Reflect3 : Vector4 K → Vector4 K → Vector4 K
  RT_INV_PI : K
  GetFloat : R → K × R
  GetHemishpereCos : R → Vector4 K × R

namespace PlasticBSDF

variable {K R : Type} [OfNat K 0] [One K] [Add K] [Sub K] [Mul K] [Neg K] [Div K]
  [LT K] [LE K] [NatCast K] [IntCast K] [DecidableEq K]
  [DecidableRel (fun a b : K => a < b)] [DecidableRel (fun a b : K => a ≤ b)] [Max K]

/-- `PlasticBSDF::Sample`.  Returns the boolean result and the context after the
call. -/
def Sample (e : Externals K R) (ctx : SamplingContext K R) : Bool × SamplingContext K R :=
  let NdotV := ctx.outgoingDir.z
  if NdotV < CosEpsilon then
    (false, ctx)
  else
    let ior := ctx.materialParam.IoR
    let Fi := e.FresnelDielectric NdotV ior
    let specularWeight := Fi
    let diffuseWeight := (1 - Fi) * ctx.materialParam.baseColor.Max
    let specularProbability := specularWeight / (specularWeight + diffuseWeight)
    let diffuseProbability := 1 - specularProbability
    let draw := e.GetFloat ctx.randomGenerator
    if draw.1 < specularProbability then
      (true, { ctx with
        randomGenerator := draw.2
        outColor := Color.ofScalar (Fi / specularProbability)
        outIncomingDir := (e.Reflect3 ctx.outgoingDir VECTOR_Z).neg
        outPdf := specularProbability
        outEventType := SpecularReflectionEvent })
    else
      let dir := e.GetHemishpereCos draw.2
      let NdotL := dir.1.z
      let Fo := e.FresnelDielectric NdotL ior
      (true, { ctx with
        randomGenerator := dir.2
        outIncomingDir := dir.1
        outPdf := dir.1.z * e.RT_INV_PI * diffuseProbability
        outColor := ctx.materialParam.baseColor.mulScalar
          ((1 - Fi) * (1 - Fo) / diffuseProbability)
        outEventType := DiffuseReflectionEvent })

/-- `PlasticBSDF::Evaluate`.  `outDirectPdfW` is the optional output pointer; the
result is the returned colour and the pointer's cell after the call. -/
def Evaluate (e : Externals K R) (ctx : EvaluationContext K) (outDirectPdfW : Option K) :
    Color K × Option K :=
  let NdotV := ctx.outgoingDir.z
  let NdotL := -ctx.incomingDir.z
  if NdotV < CosEpsilon ∨ NdotL < CosEpsilon then
    (Color.Zero, outDirectPdfW)
  else
    let ior := ctx.materialParam.IoR
    let Fi := e.FresnelDielectric NdotV ior
    let Fo := e.FresnelDielectric NdotL ior
    let specularWeight := Fi
    let diffuseWeight := (1 - Fi) * ctx.materialParam.baseColor.Max
    let specularProbability := specularWeight / (specularWeight + diffuseWeight)
    let diffuseProbability := 1 - specularProbability
    let pdfCell := match outDirectPdfW with
      | none => none
      | some _ => some (NdotL * e.RT_INV_PI * diffuseProbability)
    (ctx.materialParam.baseColor.mulScalar
      (NdotL * e.RT_INV_PI * (1 - Fi) * (1 - Fo)), pdfCell)

/-- The branch probability as the specification words it:
`Fi / (Fi + (1 - Fi) * max(baseColor))`. -/
def specularProbabilitySpec (Fi maxBaseColor : K) : K :=
  Fi / (Fi + (1 - Fi) * maxBaseColor)

/-- The divisors of the probability computations that `PlasticBSDF::Sample`
executes, in program order: the divisor of `specularProbability`
(`specularWeight + diffuseWeight`), then the divisor of the weight in the branch
taken (`specularProbability` in the specular branch, `diffuseProbability` in the
diffuse one).  The early return divides by nothing.  The quotient `eta = 1 / ior`,
whose value `Sample` never uses, is not a probability and is not listed. -/
def SamplePdfDivisors (e : Externals K R) (ctx : SamplingContext K R) : List K :=
  let NdotV := ctx.outgoingDir.z
  if NdotV < CosEpsilon then
    []
  else
    let ior := ctx.materialParam.IoR
    let Fi := e.FresnelDielectric NdotV ior
    let specularWeight := Fi
    let diffuseWeight := (1 - Fi) * ctx.materialParam.baseColor.Max
    let specularProbability := specularWeight / (specularWeight + diffuseWeight)
    let diffuseProbability := 1 - specularProbability
    let draw := e.GetFloat ctx.randomGenerator
    if draw.1 < specularProbability then
      [specularWeight + diffuseWeight, specularProbability]
    else
      [specularWeight + diffuseWeight, diffuseProbability]

end PlasticBSDF

/-- Modelled from the spec: the macro `RT_FATAL` (defined with the logger), which
signals a programming error.  It is fatal: the function that reaches it does not
go on to return a value.  (The specification calls the error fatal in a debug
build and leaves a release build undefined; only the fatal behaviour is
modelled.) -/
def RT_FATAL (message : String) : Except String Unit :=
  Except.error message

/-- The part of `ShadingData` (declared in `Rendering/ShadingData.h`) that the point
light reads: the world-space position of the shaded point. -/
structure ShadingData (K : Type) where
  position : Vector4 K

/-- `ILight::IlluminateParam` (declared in `Light.h`), as
`PointLight::Illuminate` uses it: the inputs `shadingData` and
`context.wavelength`, and the three outputs. -/
structure IlluminateParam (K W : Type) where
  shadingData : ShadingData K
  wavelength : W
  outDirectionToLight : Vector4 K
  outDistance : K
  outDirectPdfW : K

/-- The class `PointLight`: the light's `position` and its RGB `color` (a value of
a type `C` that `Color::SampleRGB` converts). -/
structure PointLight (K C : Type) where
  position : Vector4 K
  color : C

namespace PointLight

variable {K W C : Type} [OfNat K 0] [One K] [Add K] [Sub K] [Mul K] [Neg K] [Div K]
  [LT K] [LE K] [NatCast K] [IntCast K] [DecidableEq K]
  [DecidableRel (fun a b : K => a < b)] [DecidableRel (fun a b : K => a ≤ b)]

/-- `PointLight::Illuminate`.  `sqrt` stands for `std::sqrt` and `SampleRGB` for
`Color::SampleRGB`, both kept abstract.  Returns the emitted
colour and the parameter block after the call. -/
def Illuminate (sqrt : K → K) (SampleRGB : W → C → Color K) (self : PointLight K C)
    (param : IlluminateParam K W) : Color K × IlluminateParam K W :=
  let dir0 := self.position.sub param.shadingData.position
  let sqrDistance := dir0.SqrLength3
  let outDistance := sqrt sqrDistance
  (SampleRGB param.wavelength self.color,
    { param with
      outDirectPdfW := sqrDistance
      outDistance := outDistance
      outDirectionToLight := dir0.divScalar outDistance })

/-- The part of `math::Ray` that matters here: origin and direction. -/
structure Ray (K : Type) where
  origin : Vector4 K
  dir : Vector4 K

/-- `PointLight::TestRayHit`.  Returns the boolean result and the value of the
reference parameter `outDistance` after the call. -/
def TestRayHit (_self : PointLight K C) (_ray : Ray K) (outDistance : K) : Bool × K :=
  (false, outDistance)

/-- `PointLight::GetRadiance`.  `context` is the rendering context, `outDirectPdfA`
the optional output pointer, `ColorDefault` the value of a default-constructed
`Color`.  A normal return carries the colour and the pointer's cell. -/
def GetRadiance {X : Type} (_self : PointLight K C) (ColorDefault : Color K) (_context : X)
    (_rayDirection _hitPoint : Vector4 K) (outDirectPdfA : Option K) :
    Except String (Color K × Option K) := do
  RT_FATAL ("Cannot hit point light")
  return (ColorDefault, outDirectPdfA)

/-- `PointLight::IsFinite`. -/
def IsFinite (_self : PointLight K C) : Bool :=
  true

/-- `PointLight::IsDelta`. -/
def IsDelta (_self : PointLight K C) : Bool :=
  true

end PointLight

/-! ## Packet traversal: `Core/Traversal/TraversalContext.cpp` -/

/-- `HitPoint`: the distance, the two surface coordinates and the packed 64-bit
object identifier. -/
structure HitPoint (K : Type) where
  distance : K
  u : K
  v : K
  combinedObjectId : Nat

namespace math

/-- The eight lanes of a `Vector8`. -/
abbrev Vector8 (K : Type) := Fin 8 → K

/-- The eight lanes of a `VectorBool8`. -/
abbrev VectorBool8 := Fin 8 → Bool

/-- `VectorBool8::GetMask`: the lanes combined into an 8-bit mask, lane `k` in bit
`k` (as `VectorBool4::GetMask` does with four lanes). -/
def VectorBool8.GetMask (m : VectorBool8) : Nat :=
  (m 0).toNat + 2 * (m 1).toNat + 4 * (m 2).toNat + 8 * (m 3).toNat +
    16 * (m 4).toNat + 32 * (m 5).toNat + 64 * (m 6).toNat + 128 * (m 7).toNat

/-- `Vector8::Select(a, b, sel)`: lane by lane, `b` where `sel` is set and `a`
elsewhere (as `Vector4::Select` does with four lanes). -/
def Vector8.Select {K : Type} (a b : Vector8 K) (sel : VectorBool8) : Vector8 K :=
  fun k => if sel k then b k else a k

end math

/-- The part of `RayGroup` that `StoreIntersection` uses: the eight maximum
distances and the eight offsets (`uint32`) of the rays in the hit-point buffer. -/
structure RayGroup (K : Type) where
  maxDistances : Vector8 K
  rayOffsets : Fin 8 → Nat

namespace PacketTraversalContext

variable {K : Type}

/-- One turn of the loop of `StoreIntersection`, for the lane `k`: when bit `k` of
`intMask` is set, the four fields of the hit point at `rayOffsets[k]` are
written. -/
def storeLane (rayGroup : RayGroup K) (t u v : Vector8 K) (intMask combinedObjectId : Nat)
    (hitPoints : Nat → HitPoint K) (k : Fin 8) : Nat → HitPoint K :=
  if (intMask >>> k.val) &&& 1 ≠ 0 then
    Function.update hitPoints (rayGroup.rayOffsets k)
      { hitPoints (rayGroup.rayOffsets k) with
        distance := t k
        u := u k
        v := v k
        combinedObjectId := combinedObjectId }
  else
    hitPoints

/-- `PacketTraversalContext::StoreIntersection`.  `hitPoints` is the buffer
`context.hitPoints`, indexed by ray offset; the result is the ray group and the
buffer after the call.  `objectID` and `subObjectID` are `uint32` values; the
shift is a 64-bit shift. -/
def StoreIntersection (hitPoints : Nat → HitPoint K) (rayGroup : RayGroup K)
    (t u v : Vector8 K) (mask : VectorBool8) (objectID subObjectID : Nat) :
    RayGroup K × (Nat → HitPoint K) :=
  let intMask := mask.GetMask
  let combinedObjectId := objectID ||| ((subObjectID <<< 32) % 2 ^ 64)
  if intMask ≠ 0 then
    ({ rayGroup with maxDistances := Vector8.Select rayGroup.maxDistances t mask },
      (List.finRange 8).foldl (storeLane rayGroup t u v intMask combinedObjectId) hitPoints)
  else
    (rayGroup, hitPoints)

end PacketTraversalContext

/-! ## Bitmap: `Core/Utils/Bitmap.cpp`

Memory is a map from byte addresses, counted from the start of a buffer, to
bytes.  An address may be negative or beyond the buffer: the map says what is
found there.  A pointer into a bitmap's buffer is its byte address; the typed
reads the code makes through `reinterpret_cast` (16-bit integers, halves, floats)
and the loads of `Vector4.h` take the memory and a byte address.  `size_t` has 64
bits.  Log messages are not modelled. -/

/-- A buffer: the byte found at each address. -/
abbrev Mem := Int → Nat

/-- `memcpy(dst, src, n)`: the first `n` bytes of `dst` are replaced by those of
`src`. -/
def memcpy (dst src : Mem) (n : Nat) : Mem :=
  fun a => if 0 ≤ a ∧ a < n then src a else dst a

/-- `Bitmap::Format`, the enumerators that `BitsPerPixel` lists. -/
inductive Bitmap.Format where
  | Unknown
  | R8_UNorm
  | R8G8_UNorm
  | B8G8R8_UNorm
  | B8G8R8A8_UNorm
  | R16_UNorm
  | R16G16_UNorm
  | R16G16B16A16_UNorm
  | R32_Float
  | R32G32B32_Float
  | R32G32B32A32_Float
  | R16_Half
  | R16G16_Half
  | R16G16B16_Half
  | R16G16B16A16_Half
  | BC1
  | BC4
  | BC5
deriving DecidableEq

/-- The class `Bitmap`: the buffer (`none` is the null pointer), the 16-bit width
and height, the integer and float sizes, the format and the linear-space flag. -/
structure Bitmap (K : Type) where
  mData : Option Mem
  mWidth : Nat
  mHeight : Nat
  mSize : VectorInt4
  mFloatSize : Vector4 K
  mFormat : Bitmap.Format
  mLinearSpace : Bool

/-- What `Bitmap.cpp` takes from the allocator: `AlignedMalloc(size, alignment)`
returns a new buffer or the null pointer; `RT_CACHE_LINE_SIZE` is the alignment. -/
structure Allocator where
  RT_CACHE_LINE_SIZE : Nat
  AlignedMalloc : Nat → Nat → Option Mem

/-- What `Bitmap::GetPixel` and `Bitmap::GetPixelBlock` take from `Vector4.h`,
`Half.h` and `BlockCompression.h`, kept abstract: the typed reads at a byte
address, the conversion of a half, the vector loads at a byte address, and the
block decoders `DecodeBCn(data, x, y, width)`. -/
structure PixelLoaders (K : Type) where
  readUint16 : Mem → Int → Nat
  readFloat : Mem → Int → K
  readHalf : Mem → Int → Nat
  ConvertHalfToFloat : Nat → K
  Load_2xUint8_Norm : Mem → Int → Vector4 K
  LoadBGR_UNorm : Mem → Int → Vector4 K
  Load_4xUint8 : Mem → Int → Vector4 K
  Load_2xUint16_Norm : Mem → Int → Vector4 K
  Load_4xUint16 : Mem → Int → Vector4 K
  FromHalves : Mem → Int → Vector4 K
  DecodeBC1 : Mem → Int → Int → Int → Vector4 K
  DecodeBC4 : Mem → Int → Int → Int → Vector4 K
  DecodeBC5 : Mem → Int → Int → Int → Vector4 K

namespace Bitmap

variable {K : Type} [LinearOrderedField K]

/-- `Bitmap::BitsPerPixel`. -/
def BitsPerPixel (format : Format) : Nat :=
  match format with
  | Format.Unknown => 0
  | Format.R8_UNorm => 8 * 1
  | Format.R8G8_UNorm => 8 * 1 * 2
  | Format.B8G8R8_UNorm => 8 * 1 * 3
  | Format.B8G8R8A8_UNorm => 8 * 1 * 4
  | Format.R16_UNorm => 8 * 2
  | Format.R16G16_UNorm => 8 * 2 * 2
  | Format.R16G16B16A16_UNorm => 8 * 2 * 4
  | Format.R32_Float => 8 * 4
  | Format.R32G32B32_Float => 8 * 4 * 3
  | Format.R32G32B32A32_Float => 8 * 4 * 4
  | Format.R16_Half => 8 * 2 * 1
  | Format.R16G16_Half => 8 * 2 * 2
  | Format.R16G16B16_Half => 8 * 2 * 3
  | Format.R16G16B16A16_Half => 8 * 2 * 4
  | Format.BC1 => 4
  | Format.BC4 => 4
  | Format.BC5 => 8

/-- `std::numeric_limits<size_t>::max()`. -/
def sizeMax : Nat := 2 ^ 64 - 1

/-- `Bitmap::GetDataSize`.  `width` and `height` are `Uint32` values; the products
are 64-bit products. -/
def GetDataSize (width height : Nat) (format : Format) : Nat :=
  let dataSize := ((width * height) % 2 ^ 64 * BitsPerPixel format) % 2 ^ 64 / 8
  if dataSize ≥ sizeMax then
    sizeMax
  else
    dataSize

/-- `Bitmap::Release`. -/
def Release (self : Bitmap K) : Bitmap K :=
  { self with mData := none, mWidth := 0, mHeight := 0, mFormat := Format.Unknown }

/-- `Bitmap::Init`.  `data` is the optional source (`none` is the null pointer).
Returns the boolean result and the bitmap after the call. -/
def Init (alloc : Allocator) (self : Bitmap K) (width height : Nat) (format : Format)
    (data : Option Mem) (linearSpace : Bool) : Bool × Bitmap K :=
  let dataSize := GetDataSize width height format
  if dataSize = 0 then
    (false, self)
  else if dataSize = sizeMax then
    (false, self)
  else
    let released := Release self
    let marigin := alloc.RT_CACHE_LINE_SIZE
    match alloc.AlignedMalloc ((dataSize + marigin) % 2 ^ 64) alloc.RT_CACHE_LINE_SIZE with
    | none => (false, released)
    | some buffer =>
      let filled :=
        match data with
        | some source => memcpy buffer source dataSize
        | none => buffer
      let size : VectorInt4 :=
        { x := toInt32 width, y := toInt32 height, z := toInt32 width, w := toInt32 height }
      (true, { released with
        mData := some filled
        mWidth := width % 2 ^ 16
        mHeight := height % 2 ^ 16
        mSize := size
        mFloatSize := Vector4.FromIntegers size.x size.y size.z size.w
        mFormat := format
        mLinearSpace := linearSpace })

/-- `Vector4(const float* src)`: four consecutive floats. -/
def loadFloat4 (L : PixelLoaders K) (data : Mem) (address : Int) : Vector4 K :=
  { x := L.readFloat data address, y := L.readFloat data (address + 4),
    z := L.readFloat data (address + 8), w := L.readFloat data (address + 12) }

/-- The last step of `GetPixel` and `GetPixelBlock`: `color *= color` unless the
bitmap is in linear space or linear space is forced. -/
def toLinear (mLinearSpace forceLinearSpace : Bool) (color : Vector4 K) : Vector4 K :=
  if !mLinearSpace && !forceLinearSpace then color.mul color else color

/-- `Bitmap::GetPixel`.  `x` and `y` are `Uint32` values.  The unsupported format
ends in `RT_FATAL`; a null `mData` cannot be read and is reported as an error
too. -/
def GetPixel (L : PixelLoaders K) (self : Bitmap K) (x y : Nat) (forceLinearSpace : Bool) :
    Except String (Vector4 K) :=
  match self.mData with
  | none => Except.error ("null data")
  | some mData => do
    let offset : Int := ((self.mWidth * y + x) % 2 ^ 32 : Nat)
    let color ← (match self.mFormat with
      | Format.R8_UNorm =>
        let value : Int := (mData offset % 256 : Nat)
        pure ((Vector4.FromInteger (toInt32 value)).mulScalar (1 / 255))
      | Format.R8G8_UNorm =>
        pure (L.Load_2xUint8_Norm mData (toUint32 (2 * offset)))
      | Format.B8G8R8_UNorm =>
        pure (L.LoadBGR_UNorm mData (toUint32 (3 * offset)))
      | Format.B8G8R8A8_UNorm =>
        pure (((L.Load_4xUint8 mData (toUint32 (4 * offset))).Swizzle 2 1 0 3).mulScalar
          (1 / 255))
      | Format.R16_UNorm =>
        let value : Int := (L.readUint16 mData (2 * offset) : Nat)
        pure ((Vector4.FromInteger (toInt32 value)).mulScalar (1 / 65535))
      | Format.R16G16_UNorm =>
        pure (L.Load_2xUint16_Norm mData (2 * toUint32 (2 * offset)))
      | Format.R16G16B16A16_UNorm =>
        pure ((L.Load_4xUint16 mData (2 * toUint32 (4 * offset))).mulScalar (1 / 65535))
      | Format.R32_Float =>
        pure (Vector4.ofScalar (L.readFloat mData (4 * offset)))
      | Format.R32G32B32_Float =>
        pure ((loadFloat4 L mData (4 * toUint32 (3 * offset))).andMask true true true false)
      | Format.R32G32B32A32_Float =>
        pure (loadFloat4 L mData (16 * offset))
      | Format.R16_Half =>
        pure (Vector4.ofScalar (L.ConvertHalfToFloat (L.readHalf mData (2 * offset))))
      | Format.R16G16_Half =>
        pure ((L.FromHalves mData (2 * toUint32 (2 * offset))).andMask true true false false)
      | Format.R16G16B16_Half =>
        pure ((L.FromHalves mData (2 * toUint32 (3 * offset))).andMask true true true false)
      | Format.R16G16B16A16_Half =>
        pure (L.FromHalves mData (2 * toUint32 (4 * offset)))
      | Format.BC1 => pure (L.DecodeBC1 mData x y self.mWidth)
      | Format.BC4 => pure (L.DecodeBC4 mData x y self.mWidth)
      | Format.BC5 => pure (L.DecodeBC5 mData x y self.mWidth)
      | Format.Unknown => do
        RT_FATAL ("Unsupported bitmap format")
        pure Vector4.Zero : Except String (Vector4 K))
    return toLinear self.mLinearSpace forceLinearSpace color

/-- The four colours `outColors[0..3]` that `GetPixelBlock` writes. -/
structure PixelBlock (K : Type) where
  c0 : Vector4 K
  c1 : Vector4 K
  c2 : Vector4 K
  c3 : Vector4 K

/-- The same load at the four addresses that the lanes of `offsets`, cast to
`Uint32` and scaled by the element size, stand for. -/
def loadBlock (load : Int → Vector4 K) (elementSize : Int) (offsets : VectorInt4) :
    PixelBlock K :=
  { c0 := load (elementSize * toUint32 offsets.x),
    c1 := load (elementSize * toUint32 offsets.y),
    c2 := load (elementSize * toUint32 offsets.z),
    c3 := load (elementSize * toUint32 offsets.w) }

/-- `Bitmap::GetPixelBlock`.  `coords` holds `(x0, y0, x1, y1)`.  The unsupported
format ends in `RT_FATAL`; a null `mData` is reported as an error. -/
def GetPixelBlock (L : PixelLoaders K) (self : Bitmap K) (coords : VectorInt4)
    (forceLinearSpace : Bool) : Except String (PixelBlock K) :=
  match self.mData with
  | none => Except.error ("null data")
  | some mData => do
    let offsets : VectorInt4 :=
      ((coords.Swizzle 1 1 3 3).mulScalar (self.mWidth : Int)).add (coords.Swizzle 0 2 0 2)
    let color ← (match self.mFormat with
      | Format.R8_UNorm =>
        let value0 : Int := (mData (toUint32 offsets.x) % 256 : Nat)
        let value1 : Int := (mData (toUint32 offsets.y) % 256 : Nat)
        let value2 : Int := (mData (toUint32 offsets.z) % 256 : Nat)
        let value3 : Int := (mData (toUint32 offsets.w) % 256 : Nat)
        let values : Vector4 K :=
          (Vector4.FromIntegers (toInt32 value0) (toInt32 value1) (toInt32 value2)
            (toInt32 value3)).mulScalar (1 / 255)
        pure { c0 := values.SplatX, c1 := values.SplatY, c2 := values.SplatZ,
               c3 := values.SplatW }
      | Format.R8G8_UNorm =>
        pure (loadBlock (L.Load_2xUint8_Norm mData) 1 (offsets.shl 1))
      | Format.B8G8R8_UNorm =>
        pure (loadBlock (L.LoadBGR_UNorm mData) 1 (offsets.add (offsets.shl 1)))
      | Format.B8G8R8A8_UNorm =>
        pure (loadBlock
          (fun a => ((L.Load_4xUint8 mData a).Swizzle 2 1 0 3).mulScalar (1 / 255)) 1
          (offsets.shl 2))
      | Format.R16_UNorm =>
        let value0 : Int := (L.readUint16 mData (2 * toUint32 offsets.x) : Nat)
        let value1 : Int := (L.readUint16 mData (2 * toUint32 offsets.y) : Nat)
        let value2 : Int := (L.readUint16 mData (2 * toUint32 offsets.z) : Nat)
        let value3 : Int := (L.readUint16 mData (2 * toUint32 offsets.w) : Nat)
        let values : Vector4 K :=
          (Vector4.FromIntegers (toInt32 value0) (toInt32 value1) (toInt32 value2)
            (toInt32 value3)).mulScalar (1 / 65535)
        pure { c0 := values.SplatX, c1 := values.SplatY, c2 := values.SplatZ,
               c3 := values.SplatW }
      | Format.R16G16_UNorm =>
        pure (loadBlock (L.Load_2xUint16_Norm mData) 2 (offsets.shl 1))
      | Format.R16G16B16A16_UNorm =>
        pure (loadBlock (fun a => (L.Load_4xUint16 mData a).mulScalar (1 / 65535)) 2
          (offsets.shl 2))
      | Format.R32_Float =>
        pure (loadBlock (fun a => Vector4.ofScalar (L.readFloat mData a)) 4 offsets)
      | Format.R32G32B32_Float =>
        pure (loadBlock (fun a => (loadFloat4 L mData a).andMask true true true false) 4
          (offsets.add (offsets.shl 1)))
      | Format.R32G32B32A32_Float =>
        pure { c0 := loadFloat4 L mData (16 * offsets.x),
               c1 := loadFloat4 L mData (16 * offsets.y),
               c2 := loadFloat4 L mData (16 * offsets.z),
               c3 := loadFloat4 L mData (16 * offsets.w) }
      | Format.R16_Half =>
        pure (loadBlock
          (fun a => Vector4.ofScalar (L.ConvertHalfToFloat (L.readHalf mData a))) 2 offsets)
      | Format.R16G16_Half =>
        pure (loadBlock (fun a => (L.FromHalves mData a).andMask true true false false) 2
          (offsets.shl 1))
      | Format.R16G16B16_Half =>
        pure (loadBlock (fun a => (L.FromHalves mData a).andMask true true true false) 2
          (offsets.add (offsets.shl 1)))
      | Format.R16G16B16A16_Half =>
        pure (loadBlock (L.FromHalves mData) 2 (offsets.shl 2))
      | Format.BC1 =>
        pure { c0 := L.DecodeBC1 mData (toUint32 coords.x) (toUint32 coords.y) self.mWidth,
               c1 := L.DecodeBC1 mData (toUint32 coords.z) (toUint32 coords.y) self.mWidth,
               c2 := L.DecodeBC1 mData (toUint32 coords.x) (toUint32 coords.w) self.mWidth,
               c3 := L.DecodeBC1 mData (toUint32 coords.z) (toUint32 coords.w) self.mWidth }
      | Format.BC4 =>
        pure { c0 := L.DecodeBC4 mData (toUint32 coords.x) (toUint32 coords.y) self.mWidth,
               c1 := L.DecodeBC4 mData (toUint32 coords.z) (toUint32 coords.y) self.mWidth,
               c2 := L.DecodeBC4 mData (toUint32 coords.x) (toUint32 coords.w) self.mWidth,
               c3 := L.DecodeBC4 mData (toUint32 coords.z) (toUint32 coords.w) self.mWidth }
      | Format.BC5 =>
        pure { c0 := L.DecodeBC5 mData (toUint32 coords.x) (toUint32 coords.y) self.mWidth,
               c1 := L.DecodeBC5 mData (toUint32 coords.z) (toUint32 coords.y) self.mWidth,
               c2 := L.DecodeBC5 mData (toUint32 coords.x) (toUint32 coords.w) self.mWidth,
               c3 := L.DecodeBC5 mData (toUint32 coords.z) (toUint32 coords.w) self.mWidth }
      | Format.Unknown => do
        RT_FATAL ("Unsupported bitmap format")
        pure { c0 := Vector4.Zero, c1 := Vector4.Zero, c2 := Vector4.Zero,
               c3 := Vector4.Zero } : Except String (PixelBlock K))
    return { c0 := toLinear self.mLinearSpace forceLinearSpace color.c0,
             c1 := toLinear self.mLinearSpace forceLinearSpace color.c1,
             c2 := toLinear self.mLinearSpace forceLinearSpace color.c2,
             c3 := toLinear self.mLinearSpace forceLinearSpace color.c3 }

/-- The `memcpy(target.GetData(), source.GetData(), n)` of `Bitmap::Copy`, on
buffers that may be null (`GetData` returns `mData`): a copy of no bytes touches
nothing, a copy of `n > 0` bytes needs both buffers. -/
def memcpyData (dst src : Option Mem) (n : Nat) : Except String (Option Mem) :=
  if n = 0 then
    pure dst
  else
    match dst, src with
    | some d, some s => pure (some (memcpy d s n))
    | _, _ => Except.error ("null data")

/-- `Bitmap::Copy`: the returned flag and the target afterwards. -/
def Copy (target source : Bitmap K) : Except String (Bool × Bitmap K) :=
  if target.mWidth ≠ source.mWidth ∨ target.mHeight ≠ source.mHeight then
    pure (false, target)
  else if target.mFormat ≠ source.mFormat then
    pure (false, target)
  else do
    let data ← memcpyData target.mData source.mData
      (GetDataSize target.mWidth target.mHeight target.mFormat)
    pure (true, { target with mData := data })

/-- The byte address that `Bitmap::GetPixel` hands to the read or load of pixel
`(x, y)`, for the formats read at an address (the block-compressed formats are
decoded from the coordinates, `Unknown` is fatal). -/
def GetPixelAddress (self : Bitmap K) (x y : Nat) : Option Int :=
  let offset : Int := ((self.mWidth * y + x) % 2 ^ 32 : Nat)
  match self.mFormat with
  | Format.R8_UNorm => some offset
  | Format.R8G8_UNorm => some (toUint32 (2 * offset))
  | Format.B8G8R8_UNorm => some (toUint32 (3 * offset))
  | Format.B8G8R8A8_UNorm => some (toUint32 (4 * offset))
  | Format.R16_UNorm => some (2 * offset)
  | Format.R16G16_UNorm => some (2 * toUint32 (2 * offset))
  | Format.R16G16B16A16_UNorm => some (2 * toUint32 (4 * offset))
  | Format.R32_Float => some (4 * offset)
  | Format.R32G32B32_Float => some (4 * toUint32 (3 * offset))
  | Format.R32G32B32A32_Float => some (16 * offset)
  | Format.R16_Half => some (2 * offset)
  | Format.R16G16_Half => some (2 * toUint32 (2 * offset))
  | Format.R16G16B16_Half => some (2 * toUint32 (3 * offset))
  | Format.R16G16B16A16_Half => some (2 * toUint32 (4 * offset))
  | Format.BC1 => none
  | Format.BC4 => none
  | Format.BC5 => none
  | Format.Unknown => none

/-- The read or load that `Bitmap::GetPixel` makes at a byte address, for each
format read at an address. -/
def LoadPixel (L : PixelLoaders K) (format : Format) (mData : Mem) (address : Int) :
    Vector4 K :=
  match format with
  | Format.R8_UNorm =>
    let value : Int := (mData address % 256 : Nat)
    (Vector4.FromInteger (toInt32 value)).mulScalar (1 / 255)
  | Format.R8G8_UNorm => L.Load_2xUint8_Norm mData address
  | Format.B8G8R8_UNorm => L.LoadBGR_UNorm mData address
  | Format.B8G8R8A8_UNorm =>
    ((L.Load_4xUint8 mData address).Swizzle 2 1 0 3).mulScalar (1 / 255)
  | Format.R16_UNorm =>
    let value : Int := (L.readUint16 mData address : Nat)
    (Vector4.FromInteger (toInt32 value)).mulScalar (1 / 65535)
  | Format.R16G16_UNorm => L.Load_2xUint16_Norm mData address
  | Format.R16G16B16A16_UNorm => (L.Load_4xUint16 mData address).mulScalar (1 / 65535)
  | Format.R32_Float => Vector4.ofScalar (L.readFloat mData address)
  | Format.R32G32B32_Float => (loadFloat4 L mData address).andMask true true true false
  | Format.R32G32B32A32_Float => loadFloat4 L mData address
  | Format.R16_Half => Vector4.ofScalar (L.ConvertHalfToFloat (L.readHalf mData address))
  | Format.R16G16_Half => (L.FromHalves mData address).andMask true true false false
  | Format.R16G16B16_Half => (L.FromHalves mData address).andMask true true true false
  | Format.R16G16B16A16_Half => L.FromHalves mData address
  | _ => Vector4.Zero

end Bitmap

/-! ## Single precision at its ends

The vector operations and `PointLight::Illuminate` use only the operations of the
number type, so they can also be run on the type `Single` below.  It keeps what
exact arithmetic loses at the two ends of the `float` range: a result too small
for a `float` becomes 0, a result too large becomes an infinity, and a division by
zero gives an infinity or NaN.  Between the two ends a result is kept exact (no
rounding), and zero carries no sign. -/

/-- A `float` value: a finite number, an infinity (`negative` tells its sign), or
NaN. -/
inductive Single where
  | finite (value : ℚ)
  | infinite (negative : Bool)
  | nan
deriving DecidableEq

namespace Single

/-- The `float` a result with exact value `q` is stored as: 0 when the magnitude is
at most `2^-150`, half of the smallest positive `float` `2^-149`; an infinity when
the magnitude reaches `2^128`; otherwise `q` itself. -/
def round (q : ℚ) : Single :=
  if |q| ≤ 1 / 2 ^ 150 then
    finite 0
  else if 2 ^ 128 ≤ |q| then
    infinite (decide (q < 0))
  else
    finite q

/-- The sum of two `float` values. -/
def add : Single → Single → Single
  | finite a, finite b => round (a + b)
  | finite _, infinite s => infinite s
  | infinite s, finite _ => infinite s
  | infinite s, infinite t => if s = t then infinite s else nan
  | _, _ => nan

/-- The negation of a `float` value. -/
def neg : Single → Single
  | finite a => finite (-a)
  | infinite s => infinite (!s)
  | nan => nan

/-- The difference of two `float` values. -/
def sub (a b : Single) : Single :=
  add a (neg b)

/-- The product of two `float` values. -/
def mul : Single → Single → Single
  | finite a, finite b => round (a * b)
  | finite a, infinite s => if a = 0 then nan else infinite (xor (decide (a < 0)) s)
  | infinite s, finite b => if b = 0 then nan else infinite (xor s (decide (b < 0)))
  | infinite s, infinite t => infinite (xor s t)
  | _, _ => nan

/-- The quotient of two `float` values: a non-zero number divided by zero is an
infinity, zero divided by zero is NaN. -/
def div : Single → Single → Single
  | finite a, finite b =>
    if b = 0 then
      if a = 0 then nan else infinite (decide (a < 0))
    else
      round (a / b)
  | finite _, infinite _ => finite 0
  | infinite s, finite b => infinite (xor s (decide (b < 0)))
  | _, _ => nan

/-- The comparison `a < b` of two `float` values; it is false when one is NaN. -/
def lt : Single → Single → Prop
  | finite a, finite b => a < b
  | finite _, infinite s => s = false
  | infinite s, finite _ => s = true
  | infinite s, infinite t => s = true ∧ t = false
  | _, _ => False

/-- The comparison `a <= b` of two `float` values; it is false when one is NaN. -/
def le : Single → Single → Prop
  | finite a, finite b => a ≤ b
  | finite _, infinite s => s = false
  | infinite s, finite _ => s = true
  | infinite s, infinite t => s = true ∨ t = false
  | _, _ => False

instance instOfNatZero : OfNat Single 0 := ⟨finite 0⟩

instance instOne : One Single := ⟨finite 1⟩

instance instAdd : Add Single := ⟨add⟩

instance instNeg : Neg Single := ⟨neg⟩

instance instSub : Sub Single := ⟨sub⟩

instance instMul : Mul Single := ⟨mul⟩

instance instDiv : Div Single := ⟨div⟩

instance instLT : LT Single := ⟨lt⟩

instance instLE : LE Single := ⟨le⟩

/-- The conversion of a natural number to `float`. -/
instance instNatCast : NatCast Single := ⟨fun n => round n⟩

/-- The comparison `a < b` can be computed. -/
instance decidableLT : DecidableRel (fun a b : Single => a < b) := fun a b =>
  match a, b with
  | finite x, finite y => inferInstanceAs (Decidable (x < y))
  | finite _, infinite s => inferInstanceAs (Decidable (s = false))
  | infinite s, finite _ => inferInstanceAs (Decidable (s = true))
  | infinite s, infinite t => inferInstanceAs (Decidable (s = true ∧ t = false))
  | finite _, nan => inferInstanceAs (Decidable False)
  | infinite _, nan => inferInstanceAs (Decidable False)
  | nan, _ => inferInstanceAs (Decidable False)

/-- The larger of two `float` values, as `std::max` computes it:
`(a < b) ? b : a`. -/
instance instMax : Max Single := ⟨fun a b => if a < b then b else a⟩

end Single

/-! ## Concrete inputs over the rationals -/

namespace Examples

/-- A scripted environment over the rationals: the Fresnel reflectance is the
constant `F`, the generator's state counts the draws made so far, `GetFloat`
yields `u` and `GetHemishpereCos` yields `wi`. -/
def scripted (F u : ℚ) (wi : Vector4 ℚ) : Externals ℚ ℕ :=
  { FresnelDielectric := fun _ _ => F
    Reflect3 := fun i _ => { x := i.x, y := i.y, z := -i.z, w := i.w }
    RT_INV_PI := 7 / 22
    GetFloat := fun n => (u, n + 1)
    GetHemishpereCos := fun n => (wi, n + 1) }

/-- A second scripted environment: the generator's state is a counter `n`, and
`GetFloat` in state `n` yields `n / 4`; the Fresnel reflectance is the constant `F`
and `GetHemishpereCos` yields `wi`. -/
def stepping (F : ℚ) (wi : Vector4 ℚ) : Externals ℚ ℕ :=
  { FresnelDielectric := fun _ _ => F
    Reflect3 := fun i _ => { x := i.x, y := i.y, z := -i.z, w := i.w }
    RT_INV_PI := 7 / 22
    GetFloat := fun n => ((n : ℚ) / 4, n + 1)
    GetHemishpereCos := fun n => (wi, n + 1) }

/-- A square root that is exact on the two squares the examples ask for. -/
def exactRoot (q : ℚ) : ℚ :=
  if q = 25 then 5 else if q = 9 then 3 else 0

/-- A point light at `(4, 5, 1)`; its colour is carried as a `Color` already. -/
def lamp : PointLight ℚ (Color ℚ) :=
  { position := { x := 4, y := 5, z := 1, w := 0 },
    color := { r := 1, g := 1, b := 1 } }

/-- A request to illuminate the point `(1, 1, 1)`, outputs not yet written. -/
def request : IlluminateParam ℚ Unit :=
  { shadingData := { position := { x := 1, y := 1, z := 1, w := 0 } },
    wavelength := (),
    outDirectionToLight := { x := 0, y := 0, z := 0, w := 0 },
    outDistance := 0,
    outDirectPdfW := 0 }

/-- A hit-point buffer in which no ray has hit anything yet. -/
def noHits : Nat → HitPoint ℚ :=
  fun _ => { distance := 1000, u := 0, v := 0, combinedObjectId := 0 }

/-- A ray group whose ray in lane `k` owns the hit point number `10 + k`. -/
def group : RayGroup ℚ :=
  { maxDistances := fun _ => 1000, rayOffsets := fun k => 10 + k.val }

/-- A ray group in which the lanes 2 and 5 share the hit point number 12. -/
def sharedGroup : RayGroup ℚ :=
  { maxDistances := fun _ => 1000,
    rayOffsets := fun k => if k = 5 then 12 else 10 + k.val }

/-- A lane mask with the lanes 2 and 5 set. -/
def lanesTwoFive : VectorBool8 :=
  fun k => decide (k = 2 ∨ k = 5)

/-- Distances that tell the lanes apart: lane `k` reports `k + 1`. -/
def laneDistances : Vector8 ℚ :=
  fun k => (k.val : ℚ) + 1

/-- A lane mask with lane 2 alone set. -/
def laneTwo : VectorBool8 :=
  fun k => decide (k = 2)

/-- An allocator that always succeeds and hands out zeroed buffers. -/
def zeroAllocator : Allocator :=
  { RT_CACHE_LINE_SIZE := 64, AlignedMalloc := fun _ _ => some (fun _ => 0) }

/-- A 2 x 2 bitmap of one-byte pixels holding 10, 20, 30, 40, not in linear space. -/
def smallBitmap : Bitmap ℚ :=
  { mData := some (fun a => if a = 0 then 10 else if a = 1 then 20 else if a = 2 then 30
      else if a = 3 then 40 else 0),
    mWidth := 2, mHeight := 2,
    mSize := { x := 2, y := 2, z := 2, w := 2 },
    mFloatSize := { x := 2, y := 2, z := 2, w := 2 },
    mFormat := Bitmap.Format.R8_UNorm,
    mLinearSpace := false }

/-- A bitmap of 65535 x 32770 pixels of four floats each.  Its buffer holds zeros;
the memory in front of the buffer (negative addresses) holds ones. -/
def hugeBitmap : Bitmap ℚ :=
  { mData := some (fun a => if a < 0 then 1 else 0),
    mWidth := 65535, mHeight := 32770,
    mSize := { x := 65535, y := 32770, z := 65535, w := 32770 },
    mFloatSize := { x := 65535, y := 32770, z := 65535, w := 32770 },
    mFormat := Bitmap.Format.R32G32B32A32_Float,
    mLinearSpace := true }

/-- Loaders over the rationals: a float is read as the byte at its address, a 16-bit
integer and a half likewise, and every vector load returns four consecutive
bytes. -/
def byteLoaders : PixelLoaders ℚ :=
  { readUint16 := fun m a => m a
    readFloat := fun m a => (m a : ℚ)
    readHalf := fun m a => m a
    ConvertHalfToFloat := fun h => (h : ℚ)
    Load_2xUint8_Norm := fun m a => { x := m a, y := m (a + 1), z := 0, w := 0 }
    LoadBGR_UNorm := fun m a => { x := m (a + 2), y := m (a + 1), z := m a, w := 0 }
    Load_4xUint8 := fun m a => { x := m a, y := m (a + 1), z := m (a + 2), w := m (a + 3) }
    Load_2xUint16_Norm := fun m a => { x := m a, y := m (a + 2), z := 0, w := 0 }
    Load_4xUint16 := fun m a => { x := m a, y := m (a + 2), z := m (a + 4), w := m (a + 6) }
    FromHalves := fun m a => { x := m a, y := m (a + 2), z := m (a + 4), w := m (a + 6) }
    DecodeBC1 := fun _ _ _ _ => { x := 0, y := 0, z := 0, w := 0 }
    DecodeBC4 := fun _ _ _ _ => { x := 0, y := 0, z := 0, w := 0 }
    DecodeBC5 := fun _ _ _ _ => { x := 0, y := 0, z := 0, w := 0 } }

/-- A request to illuminate the very point where the lamp is. -/
def requestAtLamp : IlluminateParam ℚ Unit :=
  { shadingData := { position := { x := 4, y := 5, z := 1, w := 0 } },
    wavelength := (),
    outDirectionToLight := { x := 0, y := 0, z := 0, w := 0 },
    outDistance := 0,
    outDirectPdfW := 0 }

/-- A second 2 x 2 bitmap of one-byte pixels, holding 1, 2, 3, 4 and 9 in every byte
after them, in linear space. -/
def otherBitmap : Bitmap ℚ :=
  { mData := some (fun a => if a = 0 then 1 else if a = 1 then 2 else if a = 2 then 3
      else if a = 3 then 4 else 9),
    mWidth := 2, mHeight := 2,
    mSize := { x := 2, y := 2, z := 2, w := 2 },
    mFloatSize := { x := 2, y := 2, z := 2, w := 2 },
    mFormat := Bitmap.Format.R8_UNorm,
    mLinearSpace := true }

/-- A colour whose red component, ten million, is far above 1. -/
def overbright : Vector4 ℚ :=
  { x := 10000000, y := 0, z := 0, w := 0 }

/-- A colour with red one half, green one quarter, blue 2 and `w` 99. -/
def halfTone : Vector4 ℚ :=
  { x := 1 / 2, y := 1 / 4, z := 2, w := 99 }

/-- A square root on `Single` that is right at the values it meets here: it
returns 0 at 0, 1 at 1, and an infinity or NaN as it is. -/
def rootSingle (s : Single) : Single :=
  s

/-- The vector `(2^-80, 0, 0, 0)` in single precision; `2^-80` is a `float`. -/
def faint : Vector4 Single :=
  { x := Single.finite (1 / 2 ^ 80), y := 0, z := 0, w := 0 }

/-- A point light at `(2^-80, 0, 0)`, in single precision. -/
def nearLamp : PointLight Single (Color Single) :=
  { position := faint, color := { r := 1, g := 1, b := 1 } }

/-- A request to illuminate the origin, in single precision, outputs not yet
written. -/
def requestAtOrigin : IlluminateParam Single Unit :=
  { shadingData := { position := { x := 0, y := 0, z := 0, w := 0 } },
    wavelength := (),
    outDirectionToLight := { x := 0, y := 0, z := 0, w := 0 },
    outDistance := 0,
    outDirectPdfW := 0 }

/-- The direction along the surface normal. -/
def up : Vector4 ℚ :=
  { x := 0, y := 0, z := 1, w := 0 }

/-- The direction against the surface normal. -/
def down : Vector4 ℚ :=
  { x := 0, y := 0, z := -1, w := 0 }

/-- A direction in the tangent plane. -/
def sideways : Vector4 ℚ :=
  { x := 1, y := 0, z := 0, w := 0 }

/-- A mid-grey plastic with the given index of refraction. -/
def grey (ior : ℚ) : SampledMaterialParameters ℚ :=
  { baseColor := { r := 1 / 2, g := 1 / 2, b := 1 / 2 }, IoR := ior }

/-- A black plastic. -/
def black : SampledMaterialParameters ℚ :=
  { baseColor := { r := 0, g := 0, b := 0 }, IoR := 1 }

end Examples

/-! ## Theorems -/

namespace PlasticBSDF

variable {K R : Type} [LinearOrderedField K]

/-- The early return of `Sample`: nothing is written, nothing is drawn. -/
theorem Sample_of_grazing (e : Externals K R) (ctx : SamplingContext K R)
    (h : ctx.outgoingDir.z < CosEpsilon) : Sample e ctx = (false, ctx) := by
  simp only [Sample, if_pos h]

/-- The specular branch of `Sample`, written out. -/
theorem Sample_of_specular (e : Externals K R) (ctx : SamplingContext K R)
    (h : ¬ ctx.outgoingDir.z < CosEpsilon)
    (hu : (e.GetFloat ctx.randomGenerator).1 <
      specularProbabilitySpec (e.FresnelDielectric ctx.outgoingDir.z ctx.materialParam.IoR)
        ctx.materialParam.baseColor.Max) :
    Sample e ctx = (true, { ctx with
      randomGenerator := (e.GetFloat ctx.randomGenerator).2
      outColor := Color.ofScalar
        (e.FresnelDielectric ctx.outgoingDir.z ctx.materialParam.IoR /
          specularProbabilitySpec (e.FresnelDielectric ctx.outgoingDir.z ctx.materialParam.IoR)
            ctx.materialParam.baseColor.Max)
      outIncomingDir := (e.Reflect3 ctx.outgoingDir VECTOR_Z).neg
      outPdf := specularProbabilitySpec
        (e.FresnelDielectric ctx.outgoingDir.z ctx.materialParam.IoR)
        ctx.materialParam.baseColor.Max
      outEventType := SpecularReflectionEvent }) := by
  unfold specularProbabilitySpec at hu ⊢
  simp only [Sample, if_neg h, if_pos hu]

/-- The diffuse branch of `Sample`, written out. -/
theorem Sample_of_diffuse (e : Externals K R) (ctx : SamplingContext K R)
    (h : ¬ ctx.outgoingDir.z < CosEpsilon)
    (hu : ¬ (e.GetFloat ctx.randomGenerator).1 <
      specularProbabilitySpec (e.FresnelDielectric ctx.outgoingDir.z ctx.materialParam.IoR)
        ctx.materialParam.baseColor.Max) :
    Sample e ctx = (true, { ctx with
      randomGenerator := (e.GetHemishpereCos (e.GetFloat ctx.randomGenerator).2).2
      outIncomingDir := (e.GetHemishpereCos (e.GetFloat ctx.randomGenerator).2).1
      outPdf := (e.GetHemishpereCos (e.GetFloat ctx.randomGenerator).2).1.z * e.RT_INV_PI *
        (1 - specularProbabilitySpec
          (e.FresnelDielectric ctx.outgoingDir.z ctx.materialParam.IoR)
          ctx.materialParam.baseColor.Max)
      outColor := ctx.materialParam.baseColor.mulScalar
        ((1 - e.FresnelDielectric ctx.outgoingDir.z ctx.materialParam.IoR) *
          (1 - e.FresnelDielectric (e.GetHemishpereCos (e.GetFloat ctx.randomGenerator).2).1.z
            ctx.materialParam.IoR) /
          (1 - specularProbabilitySpec
            (e.FresnelDielectric ctx.outgoingDir.z ctx.materialParam.IoR)
            ctx.materialParam.baseColor.Max))
      outEventType := DiffuseReflectionEvent }) := by
  unfold specularProbabilitySpec at hu ⊢
  simp only [Sample, if_neg h, if_neg hu]

/-- The result of `Sample` in terms of the grazing test alone. -/
theorem Sample_result_of_test (e : Externals K R) (ctx : SamplingContext K R) :
    (ctx.outgoingDir.z < CosEpsilon → (Sample e ctx).1 = false) ∧
    (¬ ctx.outgoingDir.z < CosEpsilon → (Sample e ctx).1 = true) := by
  constructor
  · intro h
    rw [Sample_of_grazing e ctx h]
  · intro h
    by_cases hu : (e.GetFloat ctx.randomGenerator).1 <
        specularProbabilitySpec (e.FresnelDielectric ctx.outgoingDir.z ctx.materialParam.IoR)
          ctx.materialParam.baseColor.Max
    · rw [Sample_of_specular e ctx h hu]
    · rw [Sample_of_diffuse e ctx h hu]

/-- The shared denominator of the two branch probabilities is positive as soon as
the reflectance lies in `[0,1]`, the largest channel is not negative and one of
the two is positive. -/
theorem shared_denominator_pos (Fi m : K) (hFi0 : 0 ≤ Fi) (hFi1 : Fi ≤ 1) (hm : 0 ≤ m)
    (hpos : 0 < Fi ∨ 0 < m) : 0 < Fi + (1 - Fi) * m := by
  have h1 : 0 ≤ (1 - Fi) * m := mul_nonneg (sub_nonneg.mpr hFi1) hm
  rcases hpos with hF | hM
  · linarith
  · rcases eq_or_lt_of_le hFi0 with h0 | h0
    · rw [← h0]
      simpa using hM
    · linarith

/-- Which event `Sample` reports, for a direction that passes the grazing test. -/
theorem Sample_event_of_draw (e : Externals K R) (ctx : SamplingContext K R)
    (h : ¬ ctx.outgoingDir.z < CosEpsilon) :
    ((Sample e ctx).2.outEventType = SpecularReflectionEvent ↔
      (e.GetFloat ctx.randomGenerator).1 <
        specularProbabilitySpec (e.FresnelDielectric ctx.outgoingDir.z ctx.materialParam.IoR)
          ctx.materialParam.baseColor.Max) ∧
    ((Sample e ctx).2.outEventType = DiffuseReflectionEvent ↔
      ¬ (e.GetFloat ctx.randomGenerator).1 <
        specularProbabilitySpec (e.FresnelDielectric ctx.outgoingDir.z ctx.materialParam.IoR)
          ctx.materialParam.baseColor.Max) := by
  by_cases hu : (e.GetFloat ctx.randomGenerator).1 <
      specularProbabilitySpec (e.FresnelDielectric ctx.outgoingDir.z ctx.materialParam.IoR)
        ctx.materialParam.baseColor.Max
  · rw [Sample_of_specular e ctx h hu]
    simp [hu, SpecularReflectionEvent, DiffuseReflectionEvent]
  · rw [Sample_of_diffuse e ctx h hu]
    simp [hu, SpecularReflectionEvent, DiffuseReflectionEvent]

/-- The early return of `Evaluate`: the zero colour, and the PDF cell untouched. -/
theorem Evaluate_of_grazing (e : Externals K R) (ctx : EvaluationContext K) (cell : Option K)
    (h : ctx.outgoingDir.z < CosEpsilon ∨ -ctx.incomingDir.z < CosEpsilon) :
    Evaluate e ctx cell = (Color.Zero, cell) := by
  simp only [Evaluate, if_pos h]

/-- The main path of `Evaluate`, written out, for a non-null PDF pointer. -/
theorem Evaluate_of_facing (e : Externals K R) (ctx : EvaluationContext K) (p0 : K)
    (h : ¬ (ctx.outgoingDir.z < CosEpsilon ∨ -ctx.incomingDir.z < CosEpsilon)) :
    Evaluate e ctx (some p0) =
      (ctx.materialParam.baseColor.mulScalar
        (-ctx.incomingDir.z * e.RT_INV_PI *
          (1 - e.FresnelDielectric ctx.outgoingDir.z ctx.materialParam.IoR) *
          (1 - e.FresnelDielectric (-ctx.incomingDir.z) ctx.materialParam.IoR)),
       some (-ctx.incomingDir.z * e.RT_INV_PI *
        (1 - specularProbabilitySpec
          (e.FresnelDielectric ctx.outgoingDir.z ctx.materialParam.IoR)
          ctx.materialParam.baseColor.Max))) := by
  unfold specularProbabilitySpec
  simp only [Evaluate, if_neg h]

/-- `CosEpsilon` is a positive number. -/
theorem CosEpsilon_pos : (0 : K) < CosEpsilon := by
  unfold CosEpsilon
  positivity

/-- The specular branch contributes `Fi` to the mean weight: probability times
weight is `Fi`, also when the probability is 0 (then `Fi` is 0). -/
theorem specular_contribution (Fi m : K) (hFi0 : 0 ≤ Fi) (hFi1 : Fi ≤ 1) (hm : 0 ≤ m) :
    specularProbabilitySpec Fi m * (Fi / specularProbabilitySpec Fi m) = Fi := by
  by_cases hp : specularProbabilitySpec Fi m = 0
  · have hFi : Fi = 0 := by
      unfold specularProbabilitySpec at hp
      rcases div_eq_zero_iff.mp hp with h | h
      · exact h
      · have h1 : 0 ≤ (1 - Fi) * m := mul_nonneg (sub_nonneg.mpr hFi1) hm
        linarith
    rw [hp, hFi]
    simp
  · exact mul_div_cancel₀ Fi hp

/-- The diffuse branch contributes `c * (1 - Fi) * (1 - Fo)` to the mean weight of
a channel `c` between 0 and the largest channel `m`: probability times weight is
that product, also when the probability is 0 (then the product is 0). -/
theorem diffuse_contribution (Fi Fo m c : K) (hc0 : 0 ≤ c) (hcm : c ≤ m) :
    (1 - specularProbabilitySpec Fi m) *
      (c * ((1 - Fi) * (1 - Fo) / (1 - specularProbabilitySpec Fi m))) =
      c * (1 - Fi) * (1 - Fo) := by
  by_cases hp : 1 - specularProbabilitySpec Fi m = 0
  · have hp1 : specularProbabilitySpec Fi m = 1 := by linarith [hp]
    unfold specularProbabilitySpec at hp1
    have hden : Fi + (1 - Fi) * m ≠ 0 := by
      intro h0
      rw [h0, div_zero] at hp1
      exact zero_ne_one hp1
    have hprod : (1 - Fi) * m = 0 := by
      have := (div_eq_one_iff_eq hden).mp hp1
      linarith
    rw [hp]
    rcases mul_eq_zero.mp hprod with h | h
    · rw [h]
      simp
    · have hc : c = 0 := le_antisymm (by rw [← h]; exact hcm) hc0
      rw [hc]
      simp
  · field_simp
    ring

/-- C1: for every outgoing direction with `z >= CosEpsilon`, `Sample` takes the
specular branch exactly when the drawn uniform number is less than
`Fi / (Fi + (1 - Fi) * max(baseColor))`, with `Fi = FresnelDielectric(outgoingDir.z, IoR)`,
and the diffuse branch otherwise; the specular branch reports that value as its
PDF and the diffuse branch reports `cos * RT_INV_PI * (1 - value)` for the
direction it drew, so the diffuse probability is one minus the specular one. -/
theorem Sample_branch_selection (e : Externals K R) (ctx : SamplingContext K R)
    (hz : CosEpsilon ≤ ctx.outgoingDir.z) :
    ((Sample e ctx).2.outEventType = SpecularReflectionEvent ↔
      (e.GetFloat ctx.randomGenerator).1 <
        specularProbabilitySpec (e.FresnelDielectric ctx.outgoingDir.z ctx.materialParam.IoR)
          ctx.materialParam.baseColor.Max) ∧
    ((Sample e ctx).2.outEventType = DiffuseReflectionEvent ↔
      ¬ (e.GetFloat ctx.randomGenerator).1 <
        specularProbabilitySpec (e.FresnelDielectric ctx.outgoingDir.z ctx.materialParam.IoR)
          ctx.materialParam.baseColor.Max) ∧
    ((Sample e ctx).2.outEventType = SpecularReflectionEvent →
      (Sample e ctx).2.outPdf =
        specularProbabilitySpec (e.FresnelDielectric ctx.outgoingDir.z ctx.materialParam.IoR)
          ctx.materialParam.baseColor.Max) ∧
    ((Sample e ctx).2.outEventType = DiffuseReflectionEvent →
      (Sample e ctx).2.outIncomingDir =
        (e.GetHemishpereCos (e.GetFloat ctx.randomGenerator).2).1 ∧
      (Sample e ctx).2.outPdf =
        (e.GetHemishpereCos (e.GetFloat ctx.randomGenerator).2).1.z * e.RT_INV_PI *
          (1 - specularProbabilitySpec
            (e.FresnelDielectric ctx.outgoingDir.z ctx.materialParam.IoR)
            ctx.materialParam.baseColor.Max)) := by
  have h : ¬ ctx.outgoingDir.z < CosEpsilon := not_lt.mpr hz
  by_cases hu : (e.GetFloat ctx.randomGenerator).1 <
      specularProbabilitySpec (e.FresnelDielectric ctx.outgoingDir.z ctx.materialParam.IoR)
        ctx.materialParam.baseColor.Max
  · rw [Sample_of_specular e ctx h hu]
    simp [hu, SpecularReflectionEvent, DiffuseReflectionEvent]
  · rw [Sample_of_diffuse e ctx h hu]
    simp [hu, SpecularReflectionEvent, DiffuseReflectionEvent]

/-- C1, at a concrete input: grey plastic seen along the normal, Fresnel reflectance
1/2, so the specular probability is 2/3; the drawn number 1/4 selects the specular
branch. -/
theorem Sample_branch_selection_witness :
    (CosEpsilon : ℚ) ≤ Examples.up.z ∧
    (Sample (Examples.scripted (1 / 2) (1 / 4) Examples.up)
      (SamplingContext.fresh (Examples.grey (3 / 2)) Examples.up 0)).2.outEventType =
        SpecularReflectionEvent ∧
    (Sample (Examples.scripted (1 / 2) (1 / 4) Examples.up)
      (SamplingContext.fresh (Examples.grey (3 / 2)) Examples.up 0)).2.outPdf = 2 / 3 := by
  have hz : (CosEpsilon : ℚ) ≤
      (SamplingContext.fresh (Examples.grey (3 / 2)) Examples.up (0 : ℕ)).outgoingDir.z := by
    norm_num [CosEpsilon, SamplingContext.fresh, Examples.up]
  have key := Sample_branch_selection (Examples.scripted (1 / 2) (1 / 4) Examples.up)
    (SamplingContext.fresh (Examples.grey (3 / 2)) Examples.up 0) hz
  have hu : (1 / 4 : ℚ) < specularProbabilitySpec (1 / 2) (Examples.grey (3 / 2)).baseColor.Max := by
    norm_num [specularProbabilitySpec, Examples.grey, Color.Max]
  have hs := key.1.mpr hu
  refine ⟨hz, hs, ?_⟩
  rw [key.2.2.1 hs]
  norm_num [specularProbabilitySpec, Examples.scripted, SamplingContext.fresh, Examples.grey,
    Color.Max]

/-- C5: `Sample` returns false exactly when `outgoingDir.z < CosEpsilon`; in that
case the context after the call is the context before it (no output is written
and the random generator has not been advanced), so a freshly built context still
holds the zero colour, the zero direction, PDF 0 and `NullEvent`; for every other
input `Sample` returns true. -/
theorem Sample_false_iff_grazing (e : Externals K R) (ctx : SamplingContext K R) :
    ((Sample e ctx).1 = false ↔ ctx.outgoingDir.z < CosEpsilon) ∧
    (ctx.outgoingDir.z < CosEpsilon → (Sample e ctx).2 = ctx) ∧
    (∀ (mp : SampledMaterialParameters K) (wo : Vector4 K) (rng : R),
      wo.z < CosEpsilon →
        (Sample e (SamplingContext.fresh mp wo rng)).2.outColor = Color.Zero ∧
        (Sample e (SamplingContext.fresh mp wo rng)).2.outIncomingDir = Vector4.Zero ∧
        (Sample e (SamplingContext.fresh mp wo rng)).2.outPdf = 0 ∧
        (Sample e (SamplingContext.fresh mp wo rng)).2.outEventType = NullEvent ∧
        (Sample e (SamplingContext.fresh mp wo rng)).2.randomGenerator = rng) ∧
    (¬ ctx.outgoingDir.z < CosEpsilon → (Sample e ctx).1 = true) := by
  have htrue : ¬ ctx.outgoingDir.z < CosEpsilon → (Sample e ctx).1 = true := by
    intro h
    by_cases hu : (e.GetFloat ctx.randomGenerator).1 <
        specularProbabilitySpec (e.FresnelDielectric ctx.outgoingDir.z ctx.materialParam.IoR)
          ctx.materialParam.baseColor.Max
    · rw [Sample_of_specular e ctx h hu]
    · rw [Sample_of_diffuse e ctx h hu]
  refine ⟨?_, ?_, ?_, htrue⟩
  · constructor
    · intro hf
      by_contra h
      rw [htrue h] at hf
      exact Bool.noConfusion hf
    · intro h
      rw [Sample_of_grazing e ctx h]
  · intro h
    rw [Sample_of_grazing e ctx h]
  · intro mp wo rng h
    rw [Sample_of_grazing e (SamplingContext.fresh mp wo rng) h]
    exact ⟨rfl, rfl, rfl, rfl, rfl⟩

/-- C6, refuted as stated: with an index of refraction of 0, and with one of -1,
`Sample` does not fail for a direction along the normal; it returns true. -/
theorem Sample_accepts_nonpositive_IoR :
    (Examples.grey 0).IoR ≤ 0 ∧ (Examples.grey (-1)).IoR ≤ 0 ∧
    (Sample (Examples.scripted (1 / 2) (1 / 4) Examples.up)
      (SamplingContext.fresh (Examples.grey 0) Examples.up 0)).1 = true ∧
    (Sample (Examples.scripted (1 / 2) (1 / 4) Examples.up)
      (SamplingContext.fresh (Examples.grey (-1)) Examples.up 0)).1 = true := by
  have hz : ¬ Examples.up.z < (CosEpsilon : ℚ) := by
    norm_num [CosEpsilon, Examples.up]
  refine ⟨by norm_num [Examples.grey], by norm_num [Examples.grey], ?_, ?_⟩
  · exact (Sample_result_of_test _ _).2 hz
  · exact (Sample_result_of_test _ _).2 hz

/-- C6, amended: the index of refraction has no part in the result of `Sample`.
Whatever value `ior` the material carries, `ior <= 0` included, `Sample` returns
false exactly when `outgoingDir.z < CosEpsilon` and true exactly when
`outgoingDir.z >= CosEpsilon`. -/
theorem Sample_result_ignores_IoR (e : Externals K R) (ctx : SamplingContext K R) (ior : K) :
    ((Sample e { ctx with materialParam := { ctx.materialParam with IoR := ior } }).1 = false ↔
      ctx.outgoingDir.z < CosEpsilon) ∧
    ((Sample e { ctx with materialParam := { ctx.materialParam with IoR := ior } }).1 = true ↔
      CosEpsilon ≤ ctx.outgoingDir.z) := by
  have key := Sample_result_of_test e
    { ctx with materialParam := { ctx.materialParam with IoR := ior } }
  refine ⟨?_, ?_⟩
  · constructor
    · intro hf
      by_contra h
      rw [key.2 h] at hf
      exact Bool.noConfusion hf
    · exact key.1
  · constructor
    · intro ht
      by_contra h
      rw [key.1 (not_le.mp h)] at ht
      exact Bool.noConfusion ht
    · intro h
      exact key.2 (not_lt.mpr h)

/-- C8, refuted as stated: a black plastic whose Fresnel reflectance is 0, seen
along the normal, with the drawn number 0.  Every premise of the claim holds
(`z >= CosEpsilon`, `Fi = 0` in `[0,1]`, `max(baseColor) = 0 >= 0`, `u = 0` in
`[0,1)`), yet the first divisor `Sample` uses, `Fi + (1 - Fi) * max(baseColor)`,
is 0. -/
theorem SamplePdfDivisors_zero_for_black :
    (CosEpsilon : ℚ) ≤ Examples.up.z ∧
    (0 : ℚ) ≤ (Examples.scripted 0 0 Examples.up).FresnelDielectric
      Examples.up.z Examples.black.IoR ∧
    (Examples.scripted 0 0 Examples.up).FresnelDielectric
      Examples.up.z Examples.black.IoR ≤ 1 ∧
    0 ≤ Examples.black.baseColor.Max ∧
    0 ≤ ((Examples.scripted 0 0 Examples.up).GetFloat 0).1 ∧
    ((Examples.scripted 0 0 Examples.up).GetFloat 0).1 < 1 ∧
    (SamplePdfDivisors (Examples.scripted 0 0 Examples.up)
      (SamplingContext.fresh Examples.black Examples.up 0)).head? = some 0 ∧
    ¬ (∀ d ∈ SamplePdfDivisors (Examples.scripted 0 0 Examples.up)
      (SamplingContext.fresh Examples.black Examples.up 0), 0 < d) := by
  have hdiv : SamplePdfDivisors (Examples.scripted 0 0 Examples.up)
      (SamplingContext.fresh Examples.black Examples.up 0) = [0, 1] := by
    norm_num [SamplePdfDivisors, Examples.scripted, SamplingContext.fresh, Examples.black,
      Examples.up, CosEpsilon, Color.Max]
  rw [hdiv]
  refine ⟨?_, ?_, ?_, ?_, ?_, ?_, ?_, ?_⟩
  · norm_num [CosEpsilon, Examples.up]
  · norm_num [Examples.scripted]
  · norm_num [Examples.scripted]
  · norm_num [Examples.black, Color.Max]
  · norm_num [Examples.scripted]
  · norm_num [Examples.scripted]
  · rfl
  · intro h
    exact lt_irrefl (0 : ℚ) (h 0 (by simp))

/-- C8, amended: under the premises of the claim and, in addition, `Fi > 0` or
`max(baseColor) > 0`, every divisor of the probability computations of `Sample`
is strictly positive: the shared denominator `Fi + (1 - Fi) * max(baseColor)`,
the specular probability when the specular branch is taken and the diffuse
probability when the diffuse branch is taken. -/
theorem SamplePdfDivisors_pos (e : Externals K R) (ctx : SamplingContext K R)
    (hz : CosEpsilon ≤ ctx.outgoingDir.z)
    (hFi0 : 0 ≤ e.FresnelDielectric ctx.outgoingDir.z ctx.materialParam.IoR)
    (hFi1 : e.FresnelDielectric ctx.outgoingDir.z ctx.materialParam.IoR ≤ 1)
    (hmax : 0 ≤ ctx.materialParam.baseColor.Max)
    (hu0 : 0 ≤ (e.GetFloat ctx.randomGenerator).1)
    (hu1 : (e.GetFloat ctx.randomGenerator).1 < 1)
    (hpos : 0 < e.FresnelDielectric ctx.outgoingDir.z ctx.materialParam.IoR ∨
      0 < ctx.materialParam.baseColor.Max) :
    0 < e.FresnelDielectric ctx.outgoingDir.z ctx.materialParam.IoR +
      (1 - e.FresnelDielectric ctx.outgoingDir.z ctx.materialParam.IoR) *
        ctx.materialParam.baseColor.Max ∧
    ((Sample e ctx).2.outEventType = SpecularReflectionEvent →
      0 < specularProbabilitySpec (e.FresnelDielectric ctx.outgoingDir.z ctx.materialParam.IoR)
        ctx.materialParam.baseColor.Max) ∧
    ((Sample e ctx).2.outEventType = DiffuseReflectionEvent →
      0 < 1 - specularProbabilitySpec
        (e.FresnelDielectric ctx.outgoingDir.z ctx.materialParam.IoR)
        ctx.materialParam.baseColor.Max) ∧
    SamplePdfDivisors e ctx ≠ [] ∧
    (∀ d ∈ SamplePdfDivisors e ctx, 0 < d) := by
  have h : ¬ ctx.outgoingDir.z < CosEpsilon := not_lt.mpr hz
  have hden := shared_denominator_pos
    (e.FresnelDielectric ctx.outgoingDir.z ctx.materialParam.IoR)
    ctx.materialParam.baseColor.Max hFi0 hFi1 hmax hpos
  have hbr := (Sample_event_of_draw e ctx h)
  refine ⟨hden, ?_, ?_, ?_, ?_⟩
  · intro hs
    exact lt_of_le_of_lt hu0 (hbr.1.mp hs)
  · intro hd
    have := not_lt.mp (hbr.2.mp hd)
    linarith
  · by_cases hu : (e.GetFloat ctx.randomGenerator).1 <
        specularProbabilitySpec (e.FresnelDielectric ctx.outgoingDir.z ctx.materialParam.IoR)
          ctx.materialParam.baseColor.Max
    · unfold specularProbabilitySpec at hu
      simp only [SamplePdfDivisors, if_neg h, if_pos hu]
      simp
    · unfold specularProbabilitySpec at hu
      simp only [SamplePdfDivisors, if_neg h, if_neg hu]
      simp
  · by_cases hu : (e.GetFloat ctx.randomGenerator).1 <
        specularProbabilitySpec (e.FresnelDielectric ctx.outgoingDir.z ctx.materialParam.IoR)
          ctx.materialParam.baseColor.Max
    · have hp := lt_of_le_of_lt hu0 hu
      unfold specularProbabilitySpec at hu hp
      simp only [SamplePdfDivisors, if_neg h, if_pos hu]
      intro d hd
      simp only [List.mem_cons, List.mem_singleton, List.not_mem_nil, or_false] at hd
      rcases hd with rfl | rfl
      · exact hden
      · exact hp
    · have hp : specularProbabilitySpec
          (e.FresnelDielectric ctx.outgoingDir.z ctx.materialParam.IoR)
          ctx.materialParam.baseColor.Max < 1 := lt_of_le_of_lt (not_lt.mp hu) hu1
      unfold specularProbabilitySpec at hu hp
      simp only [SamplePdfDivisors, if_neg h, if_neg hu]
      intro d hd
      simp only [List.mem_cons, List.mem_singleton, List.not_mem_nil, or_false] at hd
      rcases hd with rfl | rfl
      · exact hden
      · linarith

/-- C8 amended, at a concrete input: grey plastic, Fresnel reflectance 1/2, seen
along the normal, drawn number 1/4; the divisors are 3/4 and 2/3. -/
theorem SamplePdfDivisors_pos_witness :
    SamplePdfDivisors (Examples.scripted (1 / 2) (1 / 4) Examples.up)
      (SamplingContext.fresh (Examples.grey (3 / 2)) Examples.up 0) = [3 / 4, 2 / 3] ∧
    (∀ d ∈ SamplePdfDivisors (Examples.scripted (1 / 2) (1 / 4) Examples.up)
      (SamplingContext.fresh (Examples.grey (3 / 2)) Examples.up 0), 0 < d) :=
  ⟨by norm_num [SamplePdfDivisors, Examples.scripted, SamplingContext.fresh, Examples.grey,
      Examples.up, CosEpsilon, Color.Max],
    (SamplePdfDivisors_pos (Examples.scripted (1 / 2) (1 / 4) Examples.up)
      (SamplingContext.fresh (Examples.grey (3 / 2)) Examples.up 0)
      (by norm_num [CosEpsilon, SamplingContext.fresh, Examples.up])
      (by norm_num [Examples.scripted])
      (by norm_num [Examples.scripted])
      (by norm_num [SamplingContext.fresh, Examples.grey, Color.Max])
      (by norm_num [Examples.scripted])
      (by norm_num [Examples.scripted])
      (Or.inl (by norm_num [Examples.scripted]))).2.2.2.2⟩

/-- C7, refuted as stated: for grey plastic, with `outgoingDir.z = 1` and
`incomingDir.z = -1` (z components of opposite sign) `Evaluate` returns a non-zero
colour, and with `outgoingDir.z = incomingDir.z = 1` (same sign, neither grazing)
it returns the zero colour. -/
theorem Evaluate_nonzero_for_opposite_signs :
    Examples.up.z = 1 ∧ Examples.down.z = -1 ∧
    (Evaluate (Examples.scripted (1 / 2) 0 Examples.up)
      { materialParam := Examples.grey (3 / 2), outgoingDir := Examples.up,
        incomingDir := Examples.down } none).1 =
      { r := 7 / 176, g := 7 / 176, b := 7 / 176 } ∧
    (Evaluate (Examples.scripted (1 / 2) 0 Examples.up)
      { materialParam := Examples.grey (3 / 2), outgoingDir := Examples.up,
        incomingDir := Examples.down } none).1 ≠ Color.Zero ∧
    (Evaluate (Examples.scripted (1 / 2) 0 Examples.up)
      { materialParam := Examples.grey (3 / 2), outgoingDir := Examples.up,
        incomingDir := Examples.up } none).1 = Color.Zero := by
  have h1 : (Evaluate (Examples.scripted (1 / 2) 0 Examples.up)
      { materialParam := Examples.grey (3 / 2), outgoingDir := Examples.up,
        incomingDir := Examples.down } none).1 =
      { r := 7 / 176, g := 7 / 176, b := 7 / 176 } := by
    norm_num [Evaluate, Examples.scripted, Examples.grey, Examples.up, Examples.down,
      CosEpsilon, Color.mulScalar]
  refine ⟨rfl, rfl, h1, ?_, ?_⟩
  · rw [h1]
    intro h
    have hr := congrArg Color.r h
    norm_num [Color.Zero] at hr
  · norm_num [Evaluate, Examples.scripted, Examples.grey, Examples.up, CosEpsilon]

/-- C7, amended: `Evaluate` returns the zero colour whenever `outgoingDir.z <
CosEpsilon` or `incomingDir.z > -CosEpsilon`; in particular whenever the two z
components have the same sign, and whenever either is grazing (`|z| < CosEpsilon`).
It can return a non-zero colour only when `outgoingDir.z >= CosEpsilon` and
`incomingDir.z <= -CosEpsilon`, that is, when the z components have opposite
signs, the incoming direction pointing towards the surface. -/
theorem Evaluate_zero_unless_opposite_signs (e : Externals K R) (ctx : EvaluationContext K)
    (cell : Option K) :
    ((ctx.outgoingDir.z < CosEpsilon ∨ -CosEpsilon < ctx.incomingDir.z) →
      (Evaluate e ctx cell).1 = Color.Zero) ∧
    ((0 < ctx.outgoingDir.z ∧ 0 < ctx.incomingDir.z ∨
        ctx.outgoingDir.z < 0 ∧ ctx.incomingDir.z < 0) →
      (Evaluate e ctx cell).1 = Color.Zero) ∧
    ((|ctx.outgoingDir.z| < CosEpsilon ∨ |ctx.incomingDir.z| < CosEpsilon) →
      (Evaluate e ctx cell).1 = Color.Zero) ∧
    ((Evaluate e ctx cell).1 ≠ Color.Zero →
      CosEpsilon ≤ ctx.outgoingDir.z ∧ ctx.incomingDir.z ≤ -CosEpsilon ∧
      0 < ctx.outgoingDir.z ∧ ctx.incomingDir.z < 0) := by
  have heps : (0 : K) < CosEpsilon := CosEpsilon_pos
  have hzero : (ctx.outgoingDir.z < CosEpsilon ∨ -CosEpsilon < ctx.incomingDir.z) →
      (Evaluate e ctx cell).1 = Color.Zero := by
    intro h
    have h2 : ctx.outgoingDir.z < CosEpsilon ∨ -ctx.incomingDir.z < CosEpsilon := by
      rcases h with h | h
      · exact Or.inl h
      · exact Or.inr (by linarith)
    rw [Evaluate_of_grazing e ctx cell h2]
  refine ⟨hzero, ?_, ?_, ?_⟩
  · intro h
    apply hzero
    rcases h with ⟨_, hi⟩ | ⟨ho, _⟩
    · exact Or.inr (by linarith)
    · exact Or.inl (by linarith)
  · intro h
    apply hzero
    rcases h with h | h
    · exact Or.inl (lt_of_le_of_lt (le_abs_self _) h)
    · exact Or.inr (by have := (abs_lt.mp h).1; linarith)
  · intro hne
    have h1 : CosEpsilon ≤ ctx.outgoingDir.z := by
      by_contra hc
      exact hne (hzero (Or.inl (not_le.mp hc)))
    have h2 : ctx.incomingDir.z ≤ -CosEpsilon := by
      by_contra hc
      exact hne (hzero (Or.inr (not_le.mp hc)))
    exact ⟨h1, h2, by linarith, by linarith⟩

/-- C2, refuted as stated: grey plastic seen along the normal, Fresnel reflectance
1/2, drawn number 3/4 (diffuse branch), sampled direction `(0, 0, 1)`.  `Sample`
returns the weight 3/8 in every channel.  `Evaluate`, given the direction exactly
as `Sample` returned it, returns the zero colour and leaves the PDF cell at its
old value 0; no PDF `q` makes zero divided by `q` equal 3/8. -/
theorem Sample_weight_ne_Evaluate_of_returned_direction :
    (Sample (Examples.scripted (1 / 2) (3 / 4) Examples.up)
      (SamplingContext.fresh (Examples.grey (3 / 2)) Examples.up 0)).1 = true ∧
    (Sample (Examples.scripted (1 / 2) (3 / 4) Examples.up)
      (SamplingContext.fresh (Examples.grey (3 / 2)) Examples.up 0)).2.outEventType =
        DiffuseReflectionEvent ∧
    (Sample (Examples.scripted (1 / 2) (3 / 4) Examples.up)
      (SamplingContext.fresh (Examples.grey (3 / 2)) Examples.up 0)).2.outIncomingDir =
        Examples.up ∧
    (Sample (Examples.scripted (1 / 2) (3 / 4) Examples.up)
      (SamplingContext.fresh (Examples.grey (3 / 2)) Examples.up 0)).2.outColor =
        { r := 3 / 8, g := 3 / 8, b := 3 / 8 } ∧
    Evaluate (Examples.scripted (1 / 2) (3 / 4) Examples.up)
      { materialParam := Examples.grey (3 / 2), outgoingDir := Examples.up,
        incomingDir := (Sample (Examples.scripted (1 / 2) (3 / 4) Examples.up)
          (SamplingContext.fresh (Examples.grey (3 / 2)) Examples.up 0)).2.outIncomingDir }
      (some 0) = (Color.Zero, some 0) ∧
    (∀ q : ℚ,
      (Sample (Examples.scripted (1 / 2) (3 / 4) Examples.up)
        (SamplingContext.fresh (Examples.grey (3 / 2)) Examples.up 0)).2.outColor.r ≠
      (Evaluate (Examples.scripted (1 / 2) (3 / 4) Examples.up)
        { materialParam := Examples.grey (3 / 2), outgoingDir := Examples.up,
          incomingDir := (Sample (Examples.scripted (1 / 2) (3 / 4) Examples.up)
            (SamplingContext.fresh (Examples.grey (3 / 2)) Examples.up 0)).2.outIncomingDir }
        (some 0)).1.r / q) := by
  have hs : Sample (Examples.scripted (1 / 2) (3 / 4) Examples.up)
      (SamplingContext.fresh (Examples.grey (3 / 2)) Examples.up 0) =
      (true, { materialParam := Examples.grey (3 / 2), outgoingDir := Examples.up,
               randomGenerator := 2, outColor := { r := 3 / 8, g := 3 / 8, b := 3 / 8 },
               outIncomingDir := Examples.up, outPdf := 7 / 66,
               outEventType := DiffuseReflectionEvent }) := by
    norm_num [Sample, Examples.scripted, SamplingContext.fresh, Examples.grey, Examples.up,
      CosEpsilon, Color.Max, Color.mulScalar]
  have hev : Evaluate (Examples.scripted (1 / 2) (3 / 4) Examples.up)
      { materialParam := Examples.grey (3 / 2), outgoingDir := Examples.up,
        incomingDir := Examples.up } (some 0) = (Color.Zero, some 0) := by
    norm_num [Evaluate, Examples.scripted, Examples.grey, Examples.up, CosEpsilon]
  rw [hs]
  refine ⟨rfl, rfl, rfl, rfl, hev, ?_⟩
  intro q
  rw [hev]
  norm_num [Color.Zero]

/-- C2, amended: for every outgoing direction `wo` with `z >= CosEpsilon` and every
material for which the shared denominator `Fi + (1 - Fi) * max(baseColor)` of the
branch probabilities is not zero, when `Sample` takes the diffuse branch on a
uniform number below 1 and returns a direction `wi` with `wi.z >= CosEpsilon`,
then `Evaluate(wo, -wi)`, the returned direction reversed, reports the PDF that
`Sample` reported, that PDF is positive, and the weight returned by `Sample`
equals the colour returned by `Evaluate` divided by that PDF in every channel;
the specular probability is the quotient `Fi / (Fi + (1 - Fi) * max(baseColor))`
of a division by a number that is not zero.  (`RT_INV_PI` is positive.) -/
theorem Sample_weight_eq_Evaluate_div_pdf (e : Externals K R) (ctx : SamplingContext K R)
    (p0 : K)
    (hz : CosEpsilon ≤ ctx.outgoingDir.z)
    (hd : (Sample e ctx).2.outEventType = DiffuseReflectionEvent)
    (hu1 : (e.GetFloat ctx.randomGenerator).1 < 1)
    (hwi : CosEpsilon ≤ (Sample e ctx).2.outIncomingDir.z)
    (hpi : 0 < e.RT_INV_PI)
    (hden : e.FresnelDielectric ctx.outgoingDir.z ctx.materialParam.IoR +
      (1 - e.FresnelDielectric ctx.outgoingDir.z ctx.materialParam.IoR) *
        ctx.materialParam.baseColor.Max ≠ 0) :
    (Evaluate e { materialParam := ctx.materialParam, outgoingDir := ctx.outgoingDir,
                  incomingDir := (Sample e ctx).2.outIncomingDir.neg } (some p0)).2 =
      some (Sample e ctx).2.outPdf ∧
    0 < (Sample e ctx).2.outPdf ∧
    (Sample e ctx).2.outColor.r =
      (Evaluate e { materialParam := ctx.materialParam, outgoingDir := ctx.outgoingDir,
                    incomingDir := (Sample e ctx).2.outIncomingDir.neg } (some p0)).1.r /
        (Sample e ctx).2.outPdf ∧
    (Sample e ctx).2.outColor.g =
      (Evaluate e { materialParam := ctx.materialParam, outgoingDir := ctx.outgoingDir,
                    incomingDir := (Sample e ctx).2.outIncomingDir.neg } (some p0)).1.g /
        (Sample e ctx).2.outPdf ∧
    (Sample e ctx).2.outColor.b =
      (Evaluate e { materialParam := ctx.materialParam, outgoingDir := ctx.outgoingDir,
                    incomingDir := (Sample e ctx).2.outIncomingDir.neg } (some p0)).1.b /
        (Sample e ctx).2.outPdf ∧
    specularProbabilitySpec (e.FresnelDielectric ctx.outgoingDir.z ctx.materialParam.IoR)
        ctx.materialParam.baseColor.Max *
      (e.FresnelDielectric ctx.outgoingDir.z ctx.materialParam.IoR +
        (1 - e.FresnelDielectric ctx.outgoingDir.z ctx.materialParam.IoR) *
          ctx.materialParam.baseColor.Max) =
      e.FresnelDielectric ctx.outgoingDir.z ctx.materialParam.IoR := by
  have hquot : specularProbabilitySpec (e.FresnelDielectric ctx.outgoingDir.z ctx.materialParam.IoR)
        ctx.materialParam.baseColor.Max *
      (e.FresnelDielectric ctx.outgoingDir.z ctx.materialParam.IoR +
        (1 - e.FresnelDielectric ctx.outgoingDir.z ctx.materialParam.IoR) *
          ctx.materialParam.baseColor.Max) =
      e.FresnelDielectric ctx.outgoingDir.z ctx.materialParam.IoR := by
    unfold specularProbabilitySpec
    exact div_mul_cancel₀ _ hden
  have h : ¬ ctx.outgoingDir.z < CosEpsilon := not_lt.mpr hz
  have hu := (Sample_event_of_draw e ctx h).2.mp hd
  have hp1 : specularProbabilitySpec
      (e.FresnelDielectric ctx.outgoingDir.z ctx.materialParam.IoR)
      ctx.materialParam.baseColor.Max < 1 := lt_of_le_of_lt (not_lt.mp hu) hu1
  rw [Sample_of_diffuse e ctx h hu] at hwi ⊢
  simp only at hwi ⊢
  have heps : (0 : K) < CosEpsilon := CosEpsilon_pos
  have hc : 0 < (e.GetHemishpereCos (e.GetFloat ctx.randomGenerator).2).1.z :=
    lt_of_lt_of_le heps hwi
  have hface : ¬ (ctx.outgoingDir.z < CosEpsilon ∨
      -((e.GetHemishpereCos (e.GetFloat ctx.randomGenerator).2).1.neg).z < CosEpsilon) := by
    simp only [Vector4.neg, neg_neg, not_or, not_lt]
    exact ⟨hz, hwi⟩
  rw [Evaluate_of_facing e _ p0 hface]
  simp only [Vector4.neg, neg_neg, Color.mulScalar]
  have hdp : 0 < 1 - specularProbabilitySpec
      (e.FresnelDielectric ctx.outgoingDir.z ctx.materialParam.IoR)
      ctx.materialParam.baseColor.Max := by linarith
  have hpdf : 0 < (e.GetHemishpereCos (e.GetFloat ctx.randomGenerator).2).1.z * e.RT_INV_PI *
      (1 - specularProbabilitySpec
        (e.FresnelDielectric ctx.outgoingDir.z ctx.materialParam.IoR)
        ctx.materialParam.baseColor.Max) := mul_pos (mul_pos hc hpi) hdp
  refine ⟨trivial, hpdf, ?_, ?_, ?_, hquot⟩
  · field_simp
    ring
  · field_simp
    ring
  · field_simp
    ring

/-- C2 amended, at a concrete input: grey plastic seen along the normal, Fresnel
reflectance 1/2, drawn number 3/4, sampled direction `(0, 0, 1)`: the weight is
3/8, and `Evaluate` on the reversed direction reports the PDF 7/66 of `Sample`. -/
theorem Sample_weight_eq_Evaluate_div_pdf_witness :
    (Sample (Examples.scripted (1 / 2) (3 / 4) Examples.up)
      (SamplingContext.fresh (Examples.grey (3 / 2)) Examples.up 0)).2.outPdf = 7 / 66 ∧
    (Evaluate (Examples.scripted (1 / 2) (3 / 4) Examples.up)
      { materialParam := (SamplingContext.fresh (Examples.grey (3 / 2)) Examples.up 0).materialParam,
        outgoingDir := (SamplingContext.fresh (Examples.grey (3 / 2)) Examples.up 0).outgoingDir,
        incomingDir := (Sample (Examples.scripted (1 / 2) (3 / 4) Examples.up)
          (SamplingContext.fresh (Examples.grey (3 / 2)) Examples.up 0)).2.outIncomingDir.neg }
      (some 0)).2 =
      some (Sample (Examples.scripted (1 / 2) (3 / 4) Examples.up)
        (SamplingContext.fresh (Examples.grey (3 / 2)) Examples.up 0)).2.outPdf := by
  have hs : Sample (Examples.scripted (1 / 2) (3 / 4) Examples.up)
      (SamplingContext.fresh (Examples.grey (3 / 2)) Examples.up 0) =
      (true, { materialParam := Examples.grey (3 / 2), outgoingDir := Examples.up,
               randomGenerator := 2, outColor := { r := 3 / 8, g := 3 / 8, b := 3 / 8 },
               outIncomingDir := Examples.up, outPdf := 7 / 66,
               outEventType := DiffuseReflectionEvent }) := by
    norm_num [Sample, Examples.scripted, SamplingContext.fresh, Examples.grey, Examples.up,
      CosEpsilon, Color.Max, Color.mulScalar]
  refine ⟨by rw [hs], ?_⟩
  exact (Sample_weight_eq_Evaluate_div_pdf (Examples.scripted (1 / 2) (3 / 4) Examples.up)
    (SamplingContext.fresh (Examples.grey (3 / 2)) Examples.up 0) 0
    (by norm_num [CosEpsilon, SamplingContext.fresh, Examples.up])
    (by rw [hs])
    (by norm_num [Examples.scripted])
    (by rw [hs]; norm_num [CosEpsilon, Examples.up])
    (by norm_num [Examples.scripted])
    (by norm_num [Examples.scripted, SamplingContext.fresh, Examples.grey, Color.Max])).1

end PlasticBSDF

namespace PointLight

variable {K W C : Type} [LinearOrderedField K]

/-- The squared distance between two different points is positive. -/
theorem SqrLength3_sub_pos (a b : Vector4 K)
    (hne : a.x ≠ b.x ∨ a.y ≠ b.y ∨ a.z ≠ b.z) : 0 < (a.sub b).SqrLength3 := by
  simp only [Vector4.SqrLength3, Vector4.Dot3, Vector4.sub]
  have hx := mul_self_nonneg (a.x - b.x)
  have hy := mul_self_nonneg (a.y - b.y)
  have hz := mul_self_nonneg (a.z - b.z)
  rcases hne with h | h | h
  · have := mul_self_pos.mpr (sub_ne_zero.mpr h)
    linarith
  · have := mul_self_pos.mpr (sub_ne_zero.mpr h)
    linarith
  · have := mul_self_pos.mpr (sub_ne_zero.mpr h)
    linarith

/-- C9: `Illuminate` returns as solid-angle PDF the squared distance between the
light and the shaded point, `|position - shadingData.position|^2` over x, y, z;
with `std::sqrt` returning the non-negative root of that number, the PDF is the
square of the returned distance, and the returned distance is that non-negative
root. -/
theorem Illuminate_pdf_eq_sqr_distance (sqrt : K → K) (SampleRGB : W → C → Color K)
    (self : PointLight K C) (param : IlluminateParam K W)
    (hroot0 : 0 ≤ sqrt (self.position.sub param.shadingData.position).SqrLength3)
    (hroot : sqrt (self.position.sub param.shadingData.position).SqrLength3 *
        sqrt (self.position.sub param.shadingData.position).SqrLength3 =
      (self.position.sub param.shadingData.position).SqrLength3) :
    (Illuminate sqrt SampleRGB self param).2.outDirectPdfW =
      (self.position.x - param.shadingData.position.x) ^ 2 +
      (self.position.y - param.shadingData.position.y) ^ 2 +
      (self.position.z - param.shadingData.position.z) ^ 2 ∧
    (Illuminate sqrt SampleRGB self param).2.outDirectPdfW =
      (Illuminate sqrt SampleRGB self param).2.outDistance ^ 2 ∧
    0 ≤ (Illuminate sqrt SampleRGB self param).2.outDistance ∧
    (Illuminate sqrt SampleRGB self param).2.outDistance =
      sqrt (Illuminate sqrt SampleRGB self param).2.outDirectPdfW := by
  refine ⟨?_, ?_, hroot0, rfl⟩
  · simp only [Illuminate, Vector4.SqrLength3, Vector4.Dot3, Vector4.sub]
    ring
  · simp only [Illuminate]
    rw [pow_two, hroot]

/-- C9, at a concrete input: the light at `(4, 5, 1)` and the shaded point
`(1, 1, 1)` are 5 apart; the PDF is 25. -/
theorem Illuminate_pdf_eq_sqr_distance_witness :
    (Illuminate Examples.exactRoot (fun _ c => c) Examples.lamp
      Examples.request).2.outDirectPdfW = 25 ∧
    (Illuminate Examples.exactRoot (fun _ c => c) Examples.lamp
      Examples.request).2.outDistance = 5 ∧
    (Illuminate Examples.exactRoot (fun _ c => c) Examples.lamp
      Examples.request).2.outDirectPdfW =
    (Illuminate Examples.exactRoot (fun _ c => c) Examples.lamp
      Examples.request).2.outDistance ^ 2 := by
  have hs : (Examples.lamp.position.sub Examples.request.shadingData.position).SqrLength3
      = 25 := by
    norm_num [Examples.lamp, Examples.request, Vector4.sub, Vector4.SqrLength3, Vector4.Dot3]
  have key := Illuminate_pdf_eq_sqr_distance Examples.exactRoot
    (fun (_ : Unit) (c : Color ℚ) => c) Examples.lamp Examples.request
    (by rw [hs]; norm_num [Examples.exactRoot])
    (by rw [hs]; norm_num [Examples.exactRoot])
  refine ⟨?_, ?_, key.2.1⟩
  · exact hs
  · show Examples.exactRoot
      (Examples.lamp.position.sub Examples.request.shadingData.position).SqrLength3 = 5
    rw [hs]
    norm_num [Examples.exactRoot]

end PointLight

namespace PointLight

variable {K C : Type}

/-- C11: a point light is a delta light that no ray can hit: `IsDelta()` is true,
and `TestRayHit` returns false for every ray and leaves the caller's `outDistance`
as it was. -/
theorem TestRayHit_never_hits (self : PointLight K C) :
    IsDelta self = true ∧
    ∀ (ray : Ray K) (outDistance : K),
      (TestRayHit self ray outDistance).1 = false ∧
      (TestRayHit self ray outDistance).2 = outDistance := by
  refine ⟨rfl, ?_⟩
  intro ray outDistance
  exact ⟨rfl, rfl⟩

/-- C12: `GetRadiance` signals the fatal error "Cannot hit point light" for every
context, ray direction, hit point and PDF pointer; no input makes it return a
radiance normally, in keeping with `TestRayHit`, which never reports a hit. -/
theorem GetRadiance_always_fatal {X : Type} (self : PointLight K C) (ColorDefault : Color K)
    (context : X) (rayDirection hitPoint : Vector4 K) (outDirectPdfA : Option K) :
    GetRadiance self ColorDefault context rayDirection hitPoint outDirectPdfA =
      Except.error ("Cannot hit point light") ∧
    (∀ r : Color K × Option K,
      GetRadiance self ColorDefault context rayDirection hitPoint outDirectPdfA ≠
        Except.ok r) ∧
    (∀ (ray : Ray K) (outDistance : K), (TestRayHit self ray outDistance).1 = false) := by
  have h : GetRadiance self ColorDefault context rayDirection hitPoint outDirectPdfA =
      Except.error ("Cannot hit point light") := rfl
  refine ⟨h, ?_, fun _ _ => rfl⟩
  intro r hr
  rw [h] at hr
  exact Except.noConfusion hr

end PointLight

namespace BSDF

/-- C16: the event types are a bitset over six distinct single-bit flags
(`1, 2, 4, 8, 16, 32`); the groups Diffuse, Glossy and Specular are pairwise
disjoint, Reflective and Transmissive are disjoint, and
`Diffuse | Glossy | Specular = Reflective | Transmissive = AnyEvent = 63`, with
`NullEvent = 0`; every basic flag lies in exactly one of Diffuse, Glossy, Specular
and in exactly one of Reflective, Transmissive. -/
theorem EventType_bitset :
    basicEvents = [1, 2, 4, 8, 16, 32] ∧
    basicEvents.Nodup ∧
    NullEvent = 0 ∧
    DiffuseEvent &&& GlossyEvent = 0 ∧
    DiffuseEvent &&& SpecularEvent = 0 ∧
    GlossyEvent &&& SpecularEvent = 0 ∧
    ReflectiveEvent &&& TransmissiveEvent = 0 ∧
    DiffuseEvent ||| GlossyEvent ||| SpecularEvent = 63 ∧
    ReflectiveEvent ||| TransmissiveEvent = 63 ∧
    AnyEvent = 63 ∧
    (∀ f ∈ basicEvents,
      ([DiffuseEvent, GlossyEvent, SpecularEvent].filter (fun g => f &&& g = f)).length = 1 ∧
      ([DiffuseEvent, GlossyEvent, SpecularEvent].filter (fun g => f &&& g = 0)).length = 2) ∧
    (∀ f ∈ basicEvents,
      ([ReflectiveEvent, TransmissiveEvent].filter (fun g => f &&& g = f)).length = 1 ∧
      ([ReflectiveEvent, TransmissiveEvent].filter (fun g => f &&& g = 0)).length = 1) := by
  refine ⟨by decide, by decide, by decide, by decide, by decide, by decide, by decide,
    by decide, by decide, by decide, by decide, by decide⟩

end BSDF

namespace math

variable {K : Type} [LinearOrderedField K]

/-- C19: `Dot2`, `Dot3`, `Dot4` are the sums of products of the first 2, 3 and 4
components, so `Dot3 = Dot2 + a.z * b.z` and `Dot4 = Dot3 + a.w * b.w`; each is
symmetric in its arguments; and `Dot2V`, `Dot3V`, `Dot4V` return the vector whose
four components all equal the corresponding scalar dot product. -/
theorem Dot_products (a b : Vector4 K) :
    Vector4.Dot2 a b = a.x * b.x + a.y * b.y ∧
    Vector4.Dot3 a b = a.x * b.x + a.y * b.y + a.z * b.z ∧
    Vector4.Dot4 a b = a.x * b.x + a.y * b.y + a.z * b.z + a.w * b.w ∧
    Vector4.Dot3 a b = Vector4.Dot2 a b + a.z * b.z ∧
    Vector4.Dot4 a b = Vector4.Dot3 a b + a.w * b.w ∧
    Vector4.Dot2 a b = Vector4.Dot2 b a ∧
    Vector4.Dot3 a b = Vector4.Dot3 b a ∧
    Vector4.Dot4 a b = Vector4.Dot4 b a ∧
    Vector4.Dot2V a b =
      { x := Vector4.Dot2 a b, y := Vector4.Dot2 a b, z := Vector4.Dot2 a b,
        w := Vector4.Dot2 a b } ∧
    Vector4.Dot3V a b =
      { x := Vector4.Dot3 a b, y := Vector4.Dot3 a b, z := Vector4.Dot3 a b,
        w := Vector4.Dot3 a b } ∧
    Vector4.Dot4V a b =
      { x := Vector4.Dot4 a b, y := Vector4.Dot4 a b, z := Vector4.Dot4 a b,
        w := Vector4.Dot4 a b } := by
  refine ⟨rfl, rfl, rfl, rfl, rfl, ?_, ?_, ?_, rfl, rfl, rfl⟩
  · simp only [Vector4.Dot2]
    ring
  · simp only [Vector4.Dot3]
    ring
  · simp only [Vector4.Dot4]
    ring

/-- C20: componentwise, `MulAndAdd(a,b,c) = a*b + c`, `MulAndSub(a,b,c) = a*b - c`,
`NegMulAndAdd(a,b,c) = -(a*b) + c` and `NegMulAndSub(a,b,c) = -(a*b) - c`;
consequently `NegMulAndSub(a,b,c) = -MulAndAdd(a,b,c)` and
`NegMulAndAdd(a,b,c) = -MulAndSub(a,b,c)`. -/
theorem FusedMultiplyAndAdd (a b c : Vector4 K) :
    Vector4.MulAndAdd a b c =
      { x := a.x * b.x + c.x, y := a.y * b.y + c.y, z := a.z * b.z + c.z,
        w := a.w * b.w + c.w } ∧
    Vector4.MulAndSub a b c =
      { x := a.x * b.x - c.x, y := a.y * b.y - c.y, z := a.z * b.z - c.z,
        w := a.w * b.w - c.w } ∧
    Vector4.NegMulAndAdd a b c =
      { x := -(a.x * b.x) + c.x, y := -(a.y * b.y) + c.y, z := -(a.z * b.z) + c.z,
        w := -(a.w * b.w) + c.w } ∧
    Vector4.NegMulAndSub a b c =
      { x := -(a.x * b.x) - c.x, y := -(a.y * b.y) - c.y, z := -(a.z * b.z) - c.z,
        w := -(a.w * b.w) - c.w } ∧
    Vector4.NegMulAndSub a b c = (Vector4.MulAndAdd a b c).neg ∧
    Vector4.NegMulAndAdd a b c = (Vector4.MulAndSub a b c).neg := by
  refine ⟨rfl, rfl, rfl, rfl, ?_, ?_⟩
  · simp only [Vector4.NegMulAndSub, Vector4.MulAndAdd, Vector4.mul, Vector4.add,
      Vector4.sub, Vector4.neg, Vector4.mk.injEq]
    refine ⟨?_, ?_, ?_, ?_⟩ <;> ring
  · simp only [Vector4.NegMulAndAdd, Vector4.MulAndSub, Vector4.mul, Vector4.add,
      Vector4.sub, Vector4.neg, Vector4.mk.injEq]
    refine ⟨?_, ?_, ?_, ?_⟩ <;> ring

end math

namespace PacketTraversalContext

variable {K : Type}

/-- The packed identifier as a sum: the sub-object index fills the bits from 32
up, the object index the bits below. -/
theorem combinedObjectId_eq_add (objectID subObjectID : Nat) (ho : objectID < 2 ^ 32)
    (hs : subObjectID < 2 ^ 32) :
    objectID ||| ((subObjectID <<< 32) % 2 ^ 64) = 2 ^ 32 * subObjectID + objectID := by
  have h1 : (subObjectID <<< 32) % 2 ^ 64 = 2 ^ 32 * subObjectID := by
    rw [Nat.shiftLeft_eq, Nat.mod_eq_of_lt (by omega)]
    omega
  rw [h1, Nat.lor_comm]
  exact (Nat.mul_add_lt_is_or ho subObjectID).symm

/-- Bit `k` of a mask built from eight lanes is lane `k`. -/
theorem mask_bits (b0 b1 b2 b3 b4 b5 b6 b7 : Bool) (k : Fin 8) :
    (((b0.toNat + 2 * b1.toNat + 4 * b2.toNat + 8 * b3.toNat +
      16 * b4.toNat + 32 * b5.toNat + 64 * b6.toNat + 128 * b7.toNat) >>> k.val) &&& 1 ≠ 0) ↔
    ![b0, b1, b2, b3, b4, b5, b6, b7] k = true := by
  revert b0 b1 b2 b3 b4 b5 b6 b7 k
  decide

/-- The test of the loop, `(intMask >> k) & 1`, succeeds exactly for the lanes that
are set in the mask. -/
theorem GetMask_bit (m : VectorBool8) (k : Fin 8) :
    ((m.GetMask >>> k.val) &&& 1 ≠ 0) ↔ m k = true := by
  have key := mask_bits (m 0) (m 1) (m 2) (m 3) (m 4) (m 5) (m 6) (m 7) k
  have hm : ![m 0, m 1, m 2, m 3, m 4, m 5, m 6, m 7] k = m k := by
    fin_cases k <;> rfl
  rw [hm] at key
  exact key

/-- The mask is zero exactly when no lane is set. -/
theorem GetMask_eq_zero (m : VectorBool8) : m.GetMask = 0 ↔ ∀ k, m k = false := by
  constructor
  · intro h k
    by_contra hk
    have hbit := (GetMask_bit m k).mpr (by simpa using hk)
    rw [h] at hbit
    simp at hbit
  · intro h
    simp [VectorBool8.GetMask, h]

/-- A turn of the loop keeps the identifier `id` wherever it already stands. -/
theorem storeLane_keeps_id (rayGroup : RayGroup K) (t u v : Vector8 K) (intMask id : Nat)
    (hitPoints : Nat → HitPoint K) (k : Fin 8) (i : Nat)
    (h : (hitPoints i).combinedObjectId = id) :
    (storeLane rayGroup t u v intMask id hitPoints k i).combinedObjectId = id := by
  unfold storeLane
  split_ifs with hbit
  · by_cases hi : i = rayGroup.rayOffsets k
    · rw [hi, Function.update_same]
    · rw [Function.update_noteq hi]
      exact h
  · exact h

/-- The rest of the loop keeps the identifier `id` wherever it already stands. -/
theorem foldl_storeLane_keeps_id (rayGroup : RayGroup K) (t u v : Vector8 K)
    (intMask id : Nat) (lanes : List (Fin 8)) (hitPoints : Nat → HitPoint K) (i : Nat)
    (h : (hitPoints i).combinedObjectId = id) :
    (lanes.foldl (storeLane rayGroup t u v intMask id) hitPoints i).combinedObjectId = id := by
  induction lanes generalizing hitPoints with
  | nil => exact h
  | cons a rest ih =>
    rw [List.foldl_cons]
    exact ih _ (storeLane_keeps_id rayGroup t u v intMask id hitPoints a i h)

/-- After the loop, the hit point of every lane whose bit is set carries `id`. -/
theorem foldl_storeLane_writes_id (rayGroup : RayGroup K) (t u v : Vector8 K)
    (intMask id : Nat) (lanes : List (Fin 8)) (hitPoints : Nat → HitPoint K) (k : Fin 8)
    (hk : k ∈ lanes) (hbit : (intMask >>> k.val) &&& 1 ≠ 0) :
    (lanes.foldl (storeLane rayGroup t u v intMask id) hitPoints
      (rayGroup.rayOffsets k)).combinedObjectId = id := by
  induction lanes generalizing hitPoints with
  | nil => exact absurd hk (List.not_mem_nil k)
  | cons a rest ih =>
    rw [List.foldl_cons]
    rcases List.mem_cons.mp hk with hka | hkr
    · apply foldl_storeLane_keeps_id
      rw [← hka]
      unfold storeLane
      rw [if_pos hbit, Function.update_same]
    · exact ih _ hkr

/-- C13: for all 32-bit `objectID` and `subObjectID`, the 64-bit identifier that
`StoreIntersection` writes has the object index in its low 32 bits and the
sub-object index in its high 32 bits: `id & 0xFFFFFFFF = objectID` and
`id >> 32 = subObjectID`; it fits in 64 bits, the packing is injective, and the hit
point of every lane set in the mask carries this identifier after the call. -/
theorem StoreIntersection_combinedObjectId (objectID subObjectID : Nat)
    (ho : objectID < 2 ^ 32) (hs : subObjectID < 2 ^ 32) :
    (objectID ||| ((subObjectID <<< 32) % 2 ^ 64)) &&& 0xFFFFFFFF = objectID ∧
    (objectID ||| ((subObjectID <<< 32) % 2 ^ 64)) >>> 32 = subObjectID ∧
    objectID ||| ((subObjectID <<< 32) % 2 ^ 64) < 2 ^ 64 ∧
    (∀ o s : Nat, o < 2 ^ 32 → s < 2 ^ 32 →
      o ||| ((s <<< 32) % 2 ^ 64) = objectID ||| ((subObjectID <<< 32) % 2 ^ 64) →
      o = objectID ∧ s = subObjectID) ∧
    (∀ (hitPoints : Nat → HitPoint K) (rayGroup : RayGroup K) (t u v : Vector8 K)
      (mask : VectorBool8) (k : Fin 8), mask k = true →
      ((StoreIntersection hitPoints rayGroup t u v mask objectID subObjectID).2
        (rayGroup.rayOffsets k)).combinedObjectId =
        objectID ||| ((subObjectID <<< 32) % 2 ^ 64)) := by
  have hid := combinedObjectId_eq_add objectID subObjectID ho hs
  refine ⟨?_, ?_, ?_, ?_, ?_⟩
  · have hmask : (0xFFFFFFFF : Nat) = 2 ^ 32 - 1 := by norm_num
    rw [hid, hmask, Nat.and_pow_two_sub_one_eq_mod]
    omega
  · rw [hid, Nat.shiftRight_eq_div_pow]
    omega
  · rw [hid]
    omega
  · intro o s ho2 hs2 heq
    rw [hid, combinedObjectId_eq_add o s ho2 hs2] at heq
    omega
  · intro hitPoints rayGroup t u v mask k hk
    have hbit := (GetMask_bit mask k).mpr hk
    have hne : mask.GetMask ≠ 0 := by
      intro h0
      have := (GetMask_eq_zero mask).mp h0 k
      rw [hk] at this
      exact Bool.noConfusion this
    simp only [StoreIntersection, if_pos hne]
    exact foldl_storeLane_writes_id rayGroup t u v mask.GetMask _ (List.finRange 8) hitPoints
      k (List.mem_finRange k) hbit

/-- C13, at a concrete input: object 7, sub-object 3, lane 2 alone set; the hit
point of lane 2 (number 12) receives the identifier `3 * 2^32 + 7`, whose low half
is 7 and whose high half is 3. -/
theorem StoreIntersection_combinedObjectId_witness :
    ((StoreIntersection Examples.noHits Examples.group (fun _ => 5) (fun _ => 0)
      (fun _ => 0) Examples.laneTwo 7 3).2 12).combinedObjectId = 12884901895 ∧
    (12884901895 : Nat) &&& 0xFFFFFFFF = 7 ∧ (12884901895 : Nat) >>> 32 = 3 := by
  have key := StoreIntersection_combinedObjectId (K := ℚ) 7 3 (by norm_num) (by norm_num)
  have h := key.2.2.2.2 Examples.noHits Examples.group (fun _ => 5) (fun _ => 0) (fun _ => 0)
    Examples.laneTwo 2 (by decide)
  have hval : (7 : Nat) ||| ((3 <<< 32) % 2 ^ 64) = 12884901895 := by decide
  rw [hval] at h key
  exact ⟨h, key.1, key.2.1⟩

end PacketTraversalContext

namespace Bitmap

variable {K : Type} [LinearOrderedField K]

/-- C14: for every bitmap and pixel `(x, y)`: if the bitmap is not in linear space,
`GetPixel(x, y, false)` is the componentwise square of `GetPixel(x, y, true)`; if
it is in linear space the two calls return the same value.  (For a supported format
and a buffer that is not null, `GetPixel` does return a colour.) -/
theorem GetPixel_forceLinearSpace (L : PixelLoaders K) (self : Bitmap K) (x y : Nat) :
    (self.mLinearSpace = false →
      GetPixel L self x y false = (GetPixel L self x y true).map (fun c => c.mul c)) ∧
    (self.mLinearSpace = true →
      GetPixel L self x y false = GetPixel L self x y true) ∧
    (self.mData ≠ none → self.mFormat ≠ Format.Unknown →
      ∃ c : Vector4 K, GetPixel L self x y true = Except.ok c ∧
        GetPixel L self x y false =
          Except.ok (if self.mLinearSpace then c else c.mul c)) := by
  obtain ⟨mData, mWidth, mHeight, mSize, mFloatSize, mFormat, mLinearSpace⟩ := self
  refine ⟨?_, ?_, ?_⟩
  · intro hlin
    simp only at hlin
    subst hlin
    cases mData with
    | none => rfl
    | some data => cases mFormat <;> rfl
  · intro hlin
    simp only at hlin
    subst hlin
    cases mData with
    | none => rfl
    | some data => cases mFormat <;> rfl
  · intro hdata hfmt
    cases mData with
    | none => exact absurd rfl hdata
    | some data =>
      cases mLinearSpace <;> cases mFormat <;>
        first
        | exact absurd rfl hfmt
        | exact ⟨_, rfl, rfl⟩

/-- C17: whenever `GetDataSize(width, height, format)` is 0 or the maximum `size_t`,
`Init` returns false and leaves the bitmap as it was: data, width, height, sizes,
format and linear-space flag. -/
theorem Init_refuses_invalid_size (alloc : Allocator) (self : Bitmap K) (width height : Nat)
    (format : Format) (data : Option Mem) (linearSpace : Bool)
    (hsize : GetDataSize width height format = 0 ∨
      GetDataSize width height format = sizeMax) :
    Init alloc self width height format data linearSpace = (false, self) := by
  unfold Init
  rcases hsize with h0 | hmax
  · simp only [h0, if_true]
  · simp only [hmax]
    split_ifs <;> rfl

/-- C17, at a concrete input: an `Unknown` format has data size 0, and `Init` with
it leaves the 2 x 2 bitmap untouched. -/
theorem Init_refuses_invalid_size_witness :
    GetDataSize 4 4 Format.Unknown = 0 ∧
    Init Examples.zeroAllocator Examples.smallBitmap 4 4 Format.Unknown none true =
      (false, Examples.smallBitmap) :=
  ⟨by decide,
    Init_refuses_invalid_size Examples.zeroAllocator Examples.smallBitmap 4 4 Format.Unknown
      none true (Or.inl (by decide))⟩

/-- An in-range pixel of a bitmap with 16-bit width and height has an index below
`2^32`. -/
theorem pixel_index_lt (w h x y : Nat) (hw : w < 2 ^ 16) (hh : h < 2 ^ 16) (hx : x < w)
    (hy : y < h) : w * y + x < 2 ^ 32 := by
  have h1 : w * y ≤ 65535 * 65534 := Nat.mul_le_mul (by omega) (by omega)
  omega

/-- The `Uint32` pixel index of `GetPixel`, as an integer. -/
theorem pixel_index_cast (w h x y : Nat) (hw : w < 2 ^ 16) (hh : h < 2 ^ 16) (hx : x < w)
    (hy : y < h) : (((w * y + x) % 2 ^ 32 : Nat) : Int) = (w : Int) * (y : Int) + (x : Int) := by
  rw [Nat.mod_eq_of_lt (pixel_index_lt w h x y hw hh hx hy)]
  push_cast
  rfl

/-- The `int32` lane of `offsets` in `GetPixelBlock`, and its doubles, triples and
quadruples, stand for the same `Uint32` values as the `Uint32` arithmetic of
`GetPixel`; the lane itself is the pixel index when that is below `2^31`. -/
theorem offsets_lane (w x y n : Int) (hn : n = w * y + x) (h0 : 0 ≤ n) (h1 : n < 2 ^ 32) :
    toUint32 (toInt32 (toInt32 (y * w) + x)) = n ∧
    toUint32 (toInt32 (toInt32 (toInt32 (y * w) + x) * 2 ^ 1)) = toUint32 (2 * n) ∧
    toUint32 (toInt32 (toInt32 (toInt32 (y * w) + x) * 2 ^ 2)) = toUint32 (4 * n) ∧
    toUint32 (toInt32 (toInt32 (toInt32 (y * w) + x) +
      toInt32 (toInt32 (toInt32 (y * w) + x) * 2 ^ 1))) = toUint32 (3 * n) ∧
    (n < 2 ^ 31 → toInt32 (toInt32 (y * w) + x) = n) := by
  have hc : y * w = w * y := mul_comm y w
  rw [hc]
  generalize w * y = p at hn
  subst hn
  unfold toInt32 toUint32
  norm_num
  refine ⟨?_, ?_, ?_, ?_, ?_⟩ <;> omega

/-- In-range coordinates pass through the cast to `Uint32` unchanged. -/
theorem toUint32_coord (x w : Nat) (hw : w < 2 ^ 16) (hx : x < w) :
    toUint32 (x : Int) = (x : Int) := by
  unfold toUint32
  norm_num
  omega

/-- `GetPixelBlock` against four calls of `GetPixel`: for a bitmap with 16-bit
width and height and in-range corners `(x0, y0)`, `(x1, y1)`, the block holds
`GetPixel(x0,y0)`, `GetPixel(x1,y0)`, `GetPixel(x0,y1)`, `GetPixel(x1,y1)`, in that
order, in every format; for `R32G32B32A32_Float` this needs the four pixel
indices to be below `2^31`. -/
theorem GetPixelBlock_eq_GetPixel (L : PixelLoaders K) (self : Bitmap K)
    (x0 y0 x1 y1 : Nat) (forceLinearSpace : Bool)
    (hw : self.mWidth < 2 ^ 16) (hh : self.mHeight < 2 ^ 16)
    (hx0 : x0 < self.mWidth) (hy0 : y0 < self.mHeight)
    (hx1 : x1 < self.mWidth) (hy1 : y1 < self.mHeight)
    (hbig : self.mFormat = Format.R32G32B32A32_Float →
      self.mWidth * y1 + x1 < 2 ^ 31 ∧ self.mWidth * y1 + x0 < 2 ^ 31 ∧
      self.mWidth * y0 + x1 < 2 ^ 31 ∧ self.mWidth * y0 + x0 < 2 ^ 31) :
    GetPixelBlock L self { x := x0, y := y0, z := x1, w := y1 } forceLinearSpace =
      (do
        let c0 ← GetPixel L self x0 y0 forceLinearSpace
        let c1 ← GetPixel L self x1 y0 forceLinearSpace
        let c2 ← GetPixel L self x0 y1 forceLinearSpace
        let c3 ← GetPixel L self x1 y1 forceLinearSpace
        pure { c0 := c0, c1 := c1, c2 := c2, c3 := c3 }) := by
  obtain ⟨mData, mWidth, mHeight, mSize, mFloatSize, mFormat, mLinearSpace⟩ := self
  simp only at hw hh hx0 hy0 hx1 hy1 hbig
  cases mData with
  | none => rfl
  | some data =>
    have c00 := pixel_index_cast mWidth mHeight x0 y0 hw hh hx0 hy0
    have c10 := pixel_index_cast mWidth mHeight x1 y0 hw hh hx1 hy0
    have c01 := pixel_index_cast mWidth mHeight x0 y1 hw hh hx0 hy1
    have c11 := pixel_index_cast mWidth mHeight x1 y1 hw hh hx1 hy1
    have b00 := pixel_index_lt mWidth mHeight x0 y0 hw hh hx0 hy0
    have b10 := pixel_index_lt mWidth mHeight x1 y0 hw hh hx1 hy0
    have b01 := pixel_index_lt mWidth mHeight x0 y1 hw hh hx0 hy1
    have b11 := pixel_index_lt mWidth mHeight x1 y1 hw hh hx1 hy1
    have f00 := offsets_lane mWidth x0 y0 _ rfl (by positivity) (by exact_mod_cast b00)
    have f10 := offsets_lane mWidth x1 y0 _ rfl (by positivity) (by exact_mod_cast b10)
    have f01 := offsets_lane mWidth x0 y1 _ rfl (by positivity) (by exact_mod_cast b01)
    have f11 := offsets_lane mWidth x1 y1 _ rfl (by positivity) (by exact_mod_cast b11)
    have ux0 := toUint32_coord x0 mWidth hw hx0
    have ux1 := toUint32_coord x1 mWidth hw hx1
    have uy0 := toUint32_coord y0 mHeight hh hy0
    have uy1 := toUint32_coord y1 mHeight hh hy1
    cases mFormat
    case R32G32B32A32_Float =>
      obtain ⟨g11, g01, g10, g00⟩ := hbig rfl
      have e00 := f00.2.2.2.2 (by exact_mod_cast g00)
      have e10 := f10.2.2.2.2 (by exact_mod_cast g10)
      have e01 := f01.2.2.2.2 (by exact_mod_cast g01)
      have e11 := f11.2.2.2.2 (by exact_mod_cast g11)
      simp only [GetPixelBlock, GetPixel, VectorInt4.Swizzle, VectorInt4.get,
        VectorInt4.mulScalar, VectorInt4.add, c00, c10, c01, c11, e00, e10, e01, e11]
      rfl
    all_goals
      simp only [GetPixelBlock, GetPixel, loadBlock, VectorInt4.Swizzle, VectorInt4.get,
        VectorInt4.mulScalar, VectorInt4.add, VectorInt4.shl, c00, c10, c01, c11,
        f00.1, f10.1, f01.1, f11.1, f00.2.1, f10.2.1, f01.2.1, f11.2.1,
        f00.2.2.1, f10.2.2.1, f01.2.2.1, f11.2.2.1,
        f00.2.2.2.1, f10.2.2.2.1, f01.2.2.2.1, f11.2.2.2.1, ux0, ux1, uy0, uy1, one_mul]
      rfl

/-- C15, at the input where the code departs from the claim: a bitmap of
65535 x 32770 pixels in the format `R32G32B32A32_Float` (a size `Init` accepts) and
the in-range corner `(0, 32769)`, whose pixel index `65535 * 32769 = 2147516415`
is not below `2^31`.  `GetPixel` reads the pixel inside the buffer (zeros).
`GetPixelBlock` indexes the buffer with the signed lane `-2147450881` and returns
what lies in front of the buffer (ones). -/
theorem GetPixelBlock_differs_for_large_float4_bitmap :
    GetDataSize 65535 32770 Format.R32G32B32A32_Float = 34361311200 ∧
    GetDataSize 65535 32770 Format.R32G32B32A32_Float < sizeMax ∧
    (0 : Nat) < Examples.hugeBitmap.mWidth ∧ (32769 : Nat) < Examples.hugeBitmap.mHeight ∧
    toInt32 (toInt32 (32769 * 65535) + 0) = -2147450881 ∧
    GetPixel Examples.byteLoaders Examples.hugeBitmap 0 32769 true =
      Except.ok { x := 0, y := 0, z := 0, w := 0 } ∧
    GetPixelBlock Examples.byteLoaders Examples.hugeBitmap
      { x := 0, y := 32769, z := 0, w := 32769 } true =
      Except.ok { c0 := { x := 1, y := 1, z := 1, w := 1 },
                  c1 := { x := 1, y := 1, z := 1, w := 1 },
                  c2 := { x := 1, y := 1, z := 1, w := 1 },
                  c3 := { x := 1, y := 1, z := 1, w := 1 } } := by
  refine ⟨by decide, by decide, by decide, by decide, by decide, ?_, ?_⟩
  · simp only [GetPixel, Examples.hugeBitmap, Examples.byteLoaders, loadFloat4, toLinear]
    norm_num
    rfl
  · have hlane : toInt32 (toInt32 (32769 * 65535) + 0) = -2147450881 := by decide
    simp only [GetPixelBlock, Examples.hugeBitmap, Examples.byteLoaders, loadFloat4, toLinear,
      VectorInt4.Swizzle, VectorInt4.get, VectorInt4.mulScalar, VectorInt4.add]
    norm_num [hlane]
    rfl

end Bitmap

namespace math

/-- A register built from four booleans has all lanes set exactly when the four
booleans are true. -/
theorem ofBools_All (x y z w : Bool) :
    (VectorBool4.ofBools x y z w).All = (x && y && z && w) := by
  revert x y z w
  decide

/-- Lane `k` of a register built from four booleans reads back the `k`-th
boolean. -/
theorem ofBools_Get (x y z w : Bool) :
    (VectorBool4.ofBools x y z w).Get 0 = x ∧ (VectorBool4.ofBools x y z w).Get 1 = y ∧
    (VectorBool4.ofBools x y z w).Get 2 = z ∧ (VectorBool4.ofBools x y z w).Get 3 = w := by
  revert x y z w
  decide

variable {K : Type} [LinearOrderedField K]

/-- C21: for each of `<`, `<=`, `>`, `>=`, `==` and all vectors `a`, `b`, the
comparison counts as true (`All()`: the four lanes of the resulting `VectorBool4`
set) exactly when each of the four components satisfies the operator, and lane `k`
of the result is set exactly when component `k` satisfies it; so one failing
component makes the comparison false. -/
theorem Vector4_comparisons (a b : Vector4 K) :
    (((a.lt b).All = true ↔ a.x < b.x ∧ a.y < b.y ∧ a.z < b.z ∧ a.w < b.w) ∧
      (∀ k : Fin 4, (a.lt b).Get k = true ↔ a.get k < b.get k) ∧
      ((∃ k : Fin 4, ¬ a.get k < b.get k) → (a.lt b).All = false)) ∧
    (((a.le b).All = true ↔ a.x ≤ b.x ∧ a.y ≤ b.y ∧ a.z ≤ b.z ∧ a.w ≤ b.w) ∧
      (∀ k : Fin 4, (a.le b).Get k = true ↔ a.get k ≤ b.get k) ∧
      ((∃ k : Fin 4, ¬ a.get k ≤ b.get k) → (a.le b).All = false)) ∧
    (((a.gt b).All = true ↔ a.x > b.x ∧ a.y > b.y ∧ a.z > b.z ∧ a.w > b.w) ∧
      (∀ k : Fin 4, (a.gt b).Get k = true ↔ a.get k > b.get k) ∧
      ((∃ k : Fin 4, ¬ a.get k > b.get k) → (a.gt b).All = false)) ∧
    (((a.ge b).All = true ↔ a.x ≥ b.x ∧ a.y ≥ b.y ∧ a.z ≥ b.z ∧ a.w ≥ b.w) ∧
      (∀ k : Fin 4, (a.ge b).Get k = true ↔ a.get k ≥ b.get k) ∧
      ((∃ k : Fin 4, ¬ a.get k ≥ b.get k) → (a.ge b).All = false)) ∧
    (((a.eq b).All = true ↔ a.x = b.x ∧ a.y = b.y ∧ a.z = b.z ∧ a.w = b.w) ∧
      (∀ k : Fin 4, (a.eq b).Get k = true ↔ a.get k = b.get k) ∧
      ((∃ k : Fin 4, ¬ a.get k = b.get k) → (a.eq b).All = false)) := by
  have hall : ∀ (p q r t : Prop) [Decidable p] [Decidable q] [Decidable r] [Decidable t],
      ((VectorBool4.ofBools (decide p) (decide q) (decide r) (decide t)).All = true ↔
        p ∧ q ∧ r ∧ t) := by
    intro p q r t _ _ _ _
    rw [ofBools_All]
    simp [and_assoc]
  have hget : ∀ (p q r t : Prop) [Decidable p] [Decidable q] [Decidable r] [Decidable t],
      ((VectorBool4.ofBools (decide p) (decide q) (decide r) (decide t)).Get 0 = true ↔ p) ∧
      ((VectorBool4.ofBools (decide p) (decide q) (decide r) (decide t)).Get 1 = true ↔ q) ∧
      ((VectorBool4.ofBools (decide p) (decide q) (decide r) (decide t)).Get 2 = true ↔ r) ∧
      ((VectorBool4.ofBools (decide p) (decide q) (decide r) (decide t)).Get 3 = true ↔ t) := by
    intro p q r t _ _ _ _
    have h := ofBools_Get (decide p) (decide q) (decide r) (decide t)
    rw [h.1, h.2.1, h.2.2.1, h.2.2.2]
    simp
  have hfail : ∀ (v : VectorBool4) (p q r t : Prop),
      (v.All = true ↔ p ∧ q ∧ r ∧ t) → (¬ p ∨ ¬ q ∨ ¬ r ∨ ¬ t) → v.All = false := by
    intro v p q r t h hn
    cases hv : v.All
    · rfl
    · have := h.mp hv
      tauto
  have hex : ∀ (P : Fin 4 → Prop), (∃ k, ¬ P k) → (¬ P 0 ∨ ¬ P 1 ∨ ¬ P 2 ∨ ¬ P 3) := by
    intro P hP
    obtain ⟨k, hk⟩ := hP
    fin_cases k
    · exact Or.inl hk
    · exact Or.inr (Or.inl hk)
    · exact Or.inr (Or.inr (Or.inl hk))
    · exact Or.inr (Or.inr (Or.inr hk))
  refine ⟨⟨hall _ _ _ _, ?_, ?_⟩, ⟨hall _ _ _ _, ?_, ?_⟩, ⟨hall _ _ _ _, ?_, ?_⟩,
    ⟨hall _ _ _ _, ?_, ?_⟩, ⟨hall _ _ _ _, ?_, ?_⟩⟩
  · intro k
    have h := hget (a.x < b.x) (a.y < b.y) (a.z < b.z) (a.w < b.w)
    fin_cases k
    · exact h.1
    · exact h.2.1
    · exact h.2.2.1
    · exact h.2.2.2
  · intro hk
    exact hfail _ _ _ _ _ (hall _ _ _ _) (hex (fun k => a.get k < b.get k) hk)
  · intro k
    have h := hget (a.x ≤ b.x) (a.y ≤ b.y) (a.z ≤ b.z) (a.w ≤ b.w)
    fin_cases k
    · exact h.1
    · exact h.2.1
    · exact h.2.2.1
    · exact h.2.2.2
  · intro hk
    exact hfail _ _ _ _ _ (hall _ _ _ _) (hex (fun k => a.get k ≤ b.get k) hk)
  · intro k
    have h := hget (a.x > b.x) (a.y > b.y) (a.z > b.z) (a.w > b.w)
    fin_cases k
    · exact h.1
    · exact h.2.1
    · exact h.2.2.1
    · exact h.2.2.2
  · intro hk
    exact hfail _ _ _ _ _ (hall _ _ _ _) (hex (fun k => a.get k > b.get k) hk)
  · intro k
    have h := hget (a.x ≥ b.x) (a.y ≥ b.y) (a.z ≥ b.z) (a.w ≥ b.w)
    fin_cases k
    · exact h.1
    · exact h.2.1
    · exact h.2.2.1
    · exact h.2.2.2
  · intro hk
    exact hfail _ _ _ _ _ (hall _ _ _ _) (hex (fun k => a.get k ≥ b.get k) hk)
  · intro k
    have h := hget (a.x = b.x) (a.y = b.y) (a.z = b.z) (a.w = b.w)
    fin_cases k
    · exact h.1
    · exact h.2.1
    · exact h.2.2.1
    · exact h.2.2.2
  · intro hk
    exact hfail _ _ _ _ _ (hall _ _ _ _) (hex (fun k => a.get k = b.get k) hk)

/-- C22: `a != b` counts as true (`All()`) exactly when all four components
differ.  It is not the negation of `a == b`: for vectors that agree in one
component and differ in another, both `a == b` and `a != b` are false, as for
`(0,0,0,0)` and `(0,1,0,0)`. -/
theorem Vector4_not_equal (a b : Vector4 K) :
    ((a.ne b).All = true ↔ a.x ≠ b.x ∧ a.y ≠ b.y ∧ a.z ≠ b.z ∧ a.w ≠ b.w) ∧
    ((∃ i : Fin 4, a.get i = b.get i) → (∃ j : Fin 4, a.get j ≠ b.get j) →
      (a.eq b).All = false ∧ (a.ne b).All = false) ∧
    ((Vector4.eq ({ x := 0, y := 0, z := 0, w := 0 } : Vector4 K)
        { x := 0, y := 1, z := 0, w := 0 }).All = false ∧
      (Vector4.ne ({ x := 0, y := 0, z := 0, w := 0 } : Vector4 K)
        { x := 0, y := 1, z := 0, w := 0 }).All = false) := by
  have hne : (a.ne b).All = true ↔ a.x ≠ b.x ∧ a.y ≠ b.y ∧ a.z ≠ b.z ∧ a.w ≠ b.w := by
    unfold Vector4.ne
    rw [ofBools_All]
    simp [and_assoc]
  have heq : (a.eq b).All = true ↔ a.x = b.x ∧ a.y = b.y ∧ a.z = b.z ∧ a.w = b.w := by
    unfold Vector4.eq
    rw [ofBools_All]
    simp [and_assoc]
  refine ⟨hne, ?_, ?_⟩
  · intro hi hj
    obtain ⟨i, hi⟩ := hi
    obtain ⟨j, hj⟩ := hj
    constructor
    · cases h : (a.eq b).All
      · rfl
      · exfalso
        have hall := heq.mp h
        fin_cases j
        · exact hj hall.1
        · exact hj hall.2.1
        · exact hj hall.2.2.1
        · exact hj hall.2.2.2
    · cases h : (a.ne b).All
      · rfl
      · exfalso
        have hall := hne.mp h
        fin_cases i
        · exact hall.1 hi
        · exact hall.2.1 hi
        · exact hall.2.2.1 hi
        · exact hall.2.2.2 hi
  · constructor
    · unfold Vector4.eq
      rw [ofBools_All]
      simp
    · unfold Vector4.ne
      rw [ofBools_All]
      simp

/-- C24: `ChangeSign<fx,fy,fz,fw>()` negates exactly the flagged components and
leaves the others as they are; with all flags false it is the identity; applying
the same flags twice returns `v`; and `ChangeSign(flip)` with a `VectorBool4` built
from the same flags gives the same result as the template form. -/
theorem Vector4_ChangeSign (v : Vector4 K) (fx fy fz fw : Bool) :
    v.ChangeSign fx.toNat fy.toNat fz.toNat fw.toNat =
      { x := if fx then -v.x else v.x, y := if fy then -v.y else v.y,
        z := if fz then -v.z else v.z, w := if fw then -v.w else v.w } ∧
    v.ChangeSign 0 0 0 0 = v ∧
    (v.ChangeSign fx.toNat fy.toNat fz.toNat fw.toNat).ChangeSign
      fx.toNat fy.toNat fz.toNat fw.toNat = v ∧
    v.ChangeSignMask (VectorBool4.ofBools fx fy fz fw) =
      v.ChangeSign fx.toNat fy.toNat fz.toNat fw.toNat ∧
    (∀ flip : VectorBool4,
      v.ChangeSignMask flip =
        v.ChangeSign (flip.Get 0).toNat (flip.Get 1).toNat (flip.Get 2).toNat
          (flip.Get 3).toNat) := by
  have hform : ∀ (u : Vector4 K) (a b c d : Bool),
      u.ChangeSign a.toNat b.toNat c.toNat d.toNat =
        { x := if a then -u.x else u.x, y := if b then -u.y else u.y,
          z := if c then -u.z else u.z, w := if d then -u.w else u.w } := by
    intro u a b c d
    cases a <;> cases b <;> cases c <;> cases d <;> simp [Vector4.ChangeSign]
  have hmask : ∀ flip : VectorBool4,
      v.ChangeSignMask flip =
        v.ChangeSign (flip.Get 0).toNat (flip.Get 1).toNat (flip.Get 2).toNat
          (flip.Get 3).toNat := by
    intro flip
    rw [hform]
    rfl
  refine ⟨hform v fx fy fz fw, ?_, ?_, ?_, hmask⟩
  · simp [Vector4.ChangeSign]
  · rw [hform, hform]
    cases fx <;> cases fy <;> cases fz <;> cases fw <;> simp
  · rw [hmask]
    have h := ofBools_Get fx fy fz fw
    rw [h.1, h.2.1, h.2.2.1, h.2.2.2]

end math

namespace math

variable {K : Type}

/-- C23: for every vector `v` and indices in `0..3`, `Swizzle<ix,iy,iz,iw>()` is
`(v[ix], v[iy], v[iz], v[iw])`, where `v[0..3]` are `x, y, z, w`; `Swizzle<0,1,2,3>`
is the identity, `Swizzle<k,k,k,k>` has component `k` in every lane, and the
run-time `Swizzle(ix, iy, iz, iw)` returns the same vector as the template form. -/
theorem Vector4_Swizzle (v : Vector4 K) :
    (v.get 0 = v.x ∧ v.get 1 = v.y ∧ v.get 2 = v.z ∧ v.get 3 = v.w) ∧
    (∀ ix iy iz iw : Fin 4,
      v.Swizzle ix iy iz iw = { x := v.get ix, y := v.get iy, z := v.get iz, w := v.get iw }) ∧
    v.Swizzle 0 1 2 3 = v ∧
    (∀ k : Fin 4,
      v.Swizzle k k k k = { x := v.get k, y := v.get k, z := v.get k, w := v.get k }) ∧
    (∀ ix iy iz iw : Fin 4,
      v.SwizzleRuntime ix.val iy.val iz.val iw.val = some (v.Swizzle ix iy iz iw)) := by
  refine ⟨⟨rfl, rfl, rfl, rfl⟩, fun _ _ _ _ => rfl, rfl, fun _ => rfl, ?_⟩
  have hat : ∀ i : Fin 4, v.at? i.val = some (v.get i) := by
    intro i
    fin_cases i <;> rfl
  intro ix iy iz iw
  simp only [Vector4.SwizzleRuntime, hat]
  rfl

end math

namespace math

variable {K : Type} [LinearOrderedField K]

/-- A sum of three squares is positive when one of the three numbers is not 0. -/
theorem Dot3_self_pos (v : Vector4 K) (hne : v.x ≠ 0 ∨ v.y ≠ 0 ∨ v.z ≠ 0) :
    0 < Vector4.Dot3 v v := by
  simp only [Vector4.Dot3]
  have hx := mul_self_nonneg v.x
  have hy := mul_self_nonneg v.y
  have hz := mul_self_nonneg v.z
  rcases hne with h | h | h
  · have := mul_self_pos.mpr h
    linarith
  · have := mul_self_pos.mpr h
    linarith
  · have := mul_self_pos.mpr h
    linarith

/-- A sum of four squares is positive when one of the four numbers is not 0. -/
theorem Dot4_self_pos (v : Vector4 K) (hne : v.x ≠ 0 ∨ v.y ≠ 0 ∨ v.z ≠ 0 ∨ v.w ≠ 0) :
    0 < Vector4.Dot4 v v := by
  simp only [Vector4.Dot4]
  have hx := mul_self_nonneg v.x
  have hy := mul_self_nonneg v.y
  have hz := mul_self_nonneg v.z
  have hw := mul_self_nonneg v.w
  rcases hne with h | h | h | h
  · have := mul_self_pos.mpr h
    linarith
  · have := mul_self_pos.mpr h
    linarith
  · have := mul_self_pos.mpr h
    linarith
  · have := mul_self_pos.mpr h
    linarith

end math

namespace PlasticBSDF

variable {K R : Type} [LinearOrderedField K]

/-- C26: `Sample` and `Evaluate` integrate the same integrand.  For an outgoing
direction with `z >= CosEpsilon`, a material whose diffuse probability is positive,
and a diffuse direction `d` with `d.z >= CosEpsilon` returned by `Sample`: in every
channel the weight of `Sample` times its PDF equals `Evaluate(wo, -d)`, which is
`baseColor * (d.z * RT_INV_PI) * (1 - Fi) * (1 - Fo)`, and the PDF that `Evaluate`
reports for `-d` is the PDF of `Sample`. -/
theorem Sample_weight_times_pdf_eq_Evaluate (e : Externals K R) (ctx : SamplingContext K R)
    (p0 : K)
    (hz : CosEpsilon ≤ ctx.outgoingDir.z)
    (hdp : 0 < 1 - specularProbabilitySpec
      (e.FresnelDielectric ctx.outgoingDir.z ctx.materialParam.IoR)
      ctx.materialParam.baseColor.Max)
    (hd : (Sample e ctx).2.outEventType = DiffuseReflectionEvent)
    (hdz : CosEpsilon ≤ (Sample e ctx).2.outIncomingDir.z) :
    ((Sample e ctx).2.outColor.r * (Sample e ctx).2.outPdf =
        (Evaluate e { materialParam := ctx.materialParam, outgoingDir := ctx.outgoingDir,
                      incomingDir := (Sample e ctx).2.outIncomingDir.neg } (some p0)).1.r ∧
      (Sample e ctx).2.outColor.g * (Sample e ctx).2.outPdf =
        (Evaluate e { materialParam := ctx.materialParam, outgoingDir := ctx.outgoingDir,
                      incomingDir := (Sample e ctx).2.outIncomingDir.neg } (some p0)).1.g ∧
      (Sample e ctx).2.outColor.b * (Sample e ctx).2.outPdf =
        (Evaluate e { materialParam := ctx.materialParam, outgoingDir := ctx.outgoingDir,
                      incomingDir := (Sample e ctx).2.outIncomingDir.neg } (some p0)).1.b) ∧
    (Evaluate e { materialParam := ctx.materialParam, outgoingDir := ctx.outgoingDir,
                  incomingDir := (Sample e ctx).2.outIncomingDir.neg } (some p0)).1 =
      { r := ctx.materialParam.baseColor.r *
          ((Sample e ctx).2.outIncomingDir.z * e.RT_INV_PI *
            (1 - e.FresnelDielectric ctx.outgoingDir.z ctx.materialParam.IoR) *
            (1 - e.FresnelDielectric (Sample e ctx).2.outIncomingDir.z ctx.materialParam.IoR)),
        g := ctx.materialParam.baseColor.g *
          ((Sample e ctx).2.outIncomingDir.z * e.RT_INV_PI *
            (1 - e.FresnelDielectric ctx.outgoingDir.z ctx.materialParam.IoR) *
            (1 - e.FresnelDielectric (Sample e ctx).2.outIncomingDir.z ctx.materialParam.IoR)),
        b := ctx.materialParam.baseColor.b *
          ((Sample e ctx).2.outIncomingDir.z * e.RT_INV_PI *
            (1 - e.FresnelDielectric ctx.outgoingDir.z ctx.materialParam.IoR) *
            (1 - e.FresnelDielectric (Sample e ctx).2.outIncomingDir.z
              ctx.materialParam.IoR)) } ∧
    (Evaluate e { materialParam := ctx.materialParam, outgoingDir := ctx.outgoingDir,
                  incomingDir := (Sample e ctx).2.outIncomingDir.neg } (some p0)).2 =
      some (Sample e ctx).2.outPdf := by
  have h : ¬ ctx.outgoingDir.z < CosEpsilon := not_lt.mpr hz
  have hu := (Sample_event_of_draw e ctx h).2.mp hd
  rw [Sample_of_diffuse e ctx h hu] at hdz ⊢
  simp only at hdz ⊢
  have hface : ¬ (ctx.outgoingDir.z < CosEpsilon ∨
      -((e.GetHemishpereCos (e.GetFloat ctx.randomGenerator).2).1.neg).z < CosEpsilon) := by
    simp only [Vector4.neg, neg_neg, not_or, not_lt]
    exact ⟨hz, hdz⟩
  rw [Evaluate_of_facing e _ p0 hface]
  simp only [Vector4.neg, neg_neg, Color.mulScalar]
  have hne : 1 - specularProbabilitySpec
      (e.FresnelDielectric ctx.outgoingDir.z ctx.materialParam.IoR)
      ctx.materialParam.baseColor.Max ≠ 0 := ne_of_gt hdp
  refine ⟨⟨?_, ?_, ?_⟩, trivial, trivial⟩
  · field_simp
    ring
  · field_simp
    ring
  · field_simp
    ring

/-- C26, at a concrete input: grey plastic seen along the normal, Fresnel reflectance
1/2, drawn number 3/4, sampled direction `(0, 0, 1)`: weight 3/8 times PDF 7/66 is
7/176, the value of `Evaluate` for the reversed direction. -/
theorem Sample_weight_times_pdf_eq_Evaluate_witness :
    (Sample (Examples.scripted (1 / 2) (3 / 4) Examples.up)
      (SamplingContext.fresh (Examples.grey (3 / 2)) Examples.up 0)).2.outColor.r *
    (Sample (Examples.scripted (1 / 2) (3 / 4) Examples.up)
      (SamplingContext.fresh (Examples.grey (3 / 2)) Examples.up 0)).2.outPdf = 7 / 176 ∧
    (Evaluate (Examples.scripted (1 / 2) (3 / 4) Examples.up)
      { materialParam := (SamplingContext.fresh (Examples.grey (3 / 2)) Examples.up 0).materialParam,
        outgoingDir := (SamplingContext.fresh (Examples.grey (3 / 2)) Examples.up 0).outgoingDir,
        incomingDir := (Sample (Examples.scripted (1 / 2) (3 / 4) Examples.up)
          (SamplingContext.fresh (Examples.grey (3 / 2)) Examples.up 0)).2.outIncomingDir.neg }
      (some 0)).1.r = 7 / 176 := by
  have hs : Sample (Examples.scripted (1 / 2) (3 / 4) Examples.up)
      (SamplingContext.fresh (Examples.grey (3 / 2)) Examples.up 0) =
      (true, { materialParam := Examples.grey (3 / 2), outgoingDir := Examples.up,
               randomGenerator := 2, outColor := { r := 3 / 8, g := 3 / 8, b := 3 / 8 },
               outIncomingDir := Examples.up, outPdf := 7 / 66,
               outEventType := DiffuseReflectionEvent }) := by
    norm_num [Sample, Examples.scripted, SamplingContext.fresh, Examples.grey, Examples.up,
      CosEpsilon, Color.Max, Color.mulScalar]
  have key := Sample_weight_times_pdf_eq_Evaluate
    (Examples.scripted (1 / 2) (3 / 4) Examples.up)
    (SamplingContext.fresh (Examples.grey (3 / 2)) Examples.up 0) 0
    (by norm_num [CosEpsilon, SamplingContext.fresh, Examples.up])
    (by norm_num [specularProbabilitySpec, Examples.scripted, SamplingContext.fresh,
      Examples.grey, Color.Max])
    (by rw [hs])
    (by rw [hs]; norm_num [CosEpsilon, Examples.up])
  have hprod : (Sample (Examples.scripted (1 / 2) (3 / 4) Examples.up)
      (SamplingContext.fresh (Examples.grey (3 / 2)) Examples.up 0)).2.outColor.r *
    (Sample (Examples.scripted (1 / 2) (3 / 4) Examples.up)
      (SamplingContext.fresh (Examples.grey (3 / 2)) Examples.up 0)).2.outPdf = 7 / 176 := by
    rw [hs]
    norm_num
  exact ⟨hprod, by rw [← key.1.1]; exact hprod⟩

/-- C28: when `Sample` takes the specular branch (the drawn number, which is not
negative, is below the specular probability), it reports `SpecularReflectionEvent`,
a PDF equal to the specular probability, and the weight `Fi / specularProbability`
in every channel, so weight times PDF is `Fi`; with `Fi` in `(0, 1]` the weight
equals `Fi + (1 - Fi) * max(baseColor)`, which is at most 1 when
`max(baseColor) <= 1`. -/
theorem Sample_specular_branch (e : Externals K R) (ctx : SamplingContext K R)
    (hz : CosEpsilon ≤ ctx.outgoingDir.z)
    (hu0 : 0 ≤ (e.GetFloat ctx.randomGenerator).1)
    (hu : (e.GetFloat ctx.randomGenerator).1 <
      specularProbabilitySpec (e.FresnelDielectric ctx.outgoingDir.z ctx.materialParam.IoR)
        ctx.materialParam.baseColor.Max) :
    (Sample e ctx).1 = true ∧
    (Sample e ctx).2.outEventType = SpecularReflectionEvent ∧
    (Sample e ctx).2.outPdf =
      specularProbabilitySpec (e.FresnelDielectric ctx.outgoingDir.z ctx.materialParam.IoR)
        ctx.materialParam.baseColor.Max ∧
    (Sample e ctx).2.outColor =
      Color.ofScalar (e.FresnelDielectric ctx.outgoingDir.z ctx.materialParam.IoR /
        specularProbabilitySpec (e.FresnelDielectric ctx.outgoingDir.z ctx.materialParam.IoR)
          ctx.materialParam.baseColor.Max) ∧
    ((Sample e ctx).2.outColor.r * (Sample e ctx).2.outPdf =
        e.FresnelDielectric ctx.outgoingDir.z ctx.materialParam.IoR ∧
      (Sample e ctx).2.outColor.g * (Sample e ctx).2.outPdf =
        e.FresnelDielectric ctx.outgoingDir.z ctx.materialParam.IoR ∧
      (Sample e ctx).2.outColor.b * (Sample e ctx).2.outPdf =
        e.FresnelDielectric ctx.outgoingDir.z ctx.materialParam.IoR) ∧
    (0 < e.FresnelDielectric ctx.outgoingDir.z ctx.materialParam.IoR →
      e.FresnelDielectric ctx.outgoingDir.z ctx.materialParam.IoR ≤ 1 →
      (Sample e ctx).2.outColor =
        Color.ofScalar (e.FresnelDielectric ctx.outgoingDir.z ctx.materialParam.IoR +
          (1 - e.FresnelDielectric ctx.outgoingDir.z ctx.materialParam.IoR) *
            ctx.materialParam.baseColor.Max) ∧
      (ctx.materialParam.baseColor.Max ≤ 1 →
        (Sample e ctx).2.outColor.r ≤ 1 ∧ (Sample e ctx).2.outColor.g ≤ 1 ∧
        (Sample e ctx).2.outColor.b ≤ 1)) := by
  have h : ¬ ctx.outgoingDir.z < CosEpsilon := not_lt.mpr hz
  have hp : 0 < specularProbabilitySpec
      (e.FresnelDielectric ctx.outgoingDir.z ctx.materialParam.IoR)
      ctx.materialParam.baseColor.Max := lt_of_le_of_lt hu0 hu
  have hp0 := ne_of_gt hp
  rw [Sample_of_specular e ctx h hu]
  simp only [Color.ofScalar]
  refine ⟨trivial, trivial, trivial, trivial, ⟨?_, ?_, ?_⟩, ?_⟩
  · exact div_mul_cancel₀ _ hp0
  · exact div_mul_cancel₀ _ hp0
  · exact div_mul_cancel₀ _ hp0
  · intro hFi0 hFi1
    have hFi := ne_of_gt hFi0
    have hw : e.FresnelDielectric ctx.outgoingDir.z ctx.materialParam.IoR /
        specularProbabilitySpec (e.FresnelDielectric ctx.outgoingDir.z ctx.materialParam.IoR)
          ctx.materialParam.baseColor.Max =
        e.FresnelDielectric ctx.outgoingDir.z ctx.materialParam.IoR +
          (1 - e.FresnelDielectric ctx.outgoingDir.z ctx.materialParam.IoR) *
            ctx.materialParam.baseColor.Max := by
      unfold specularProbabilitySpec
      rw [div_div_eq_mul_div, mul_div_assoc, mul_comm]
      exact div_mul_cancel₀ _ hFi
    rw [hw]
    refine ⟨rfl, ?_⟩
    intro hm
    have h1 : (1 - e.FresnelDielectric ctx.outgoingDir.z ctx.materialParam.IoR) *
        ctx.materialParam.baseColor.Max ≤
        (1 - e.FresnelDielectric ctx.outgoingDir.z ctx.materialParam.IoR) * 1 :=
      mul_le_mul_of_nonneg_left hm (sub_nonneg.mpr hFi1)
    have h2 : e.FresnelDielectric ctx.outgoingDir.z ctx.materialParam.IoR +
        (1 - e.FresnelDielectric ctx.outgoingDir.z ctx.materialParam.IoR) *
          ctx.materialParam.baseColor.Max ≤ 1 := by linarith
    exact ⟨h2, h2, h2⟩

/-- C28, at a concrete input: grey plastic seen along the normal, Fresnel reflectance
1/2, drawn number 1/4: the specular branch, with PDF 2/3 and weight 3/4. -/
theorem Sample_specular_branch_witness :
    (Sample (Examples.scripted (1 / 2) (1 / 4) Examples.up)
      (SamplingContext.fresh (Examples.grey (3 / 2)) Examples.up 0)).2.outEventType =
        SpecularReflectionEvent ∧
    (Sample (Examples.scripted (1 / 2) (1 / 4) Examples.up)
      (SamplingContext.fresh (Examples.grey (3 / 2)) Examples.up 0)).2.outColor =
        { r := 3 / 4, g := 3 / 4, b := 3 / 4 } := by
  have key := Sample_specular_branch (Examples.scripted (1 / 2) (1 / 4) Examples.up)
    (SamplingContext.fresh (Examples.grey (3 / 2)) Examples.up 0)
    (by norm_num [CosEpsilon, SamplingContext.fresh, Examples.up])
    (by norm_num [Examples.scripted])
    (by norm_num [specularProbabilitySpec, Examples.scripted, SamplingContext.fresh,
      Examples.grey, Color.Max])
  refine ⟨key.2.1, ?_⟩
  rw [(key.2.2.2.2.2 (by norm_num [Examples.scripted]) (by norm_num [Examples.scripted])).1]
  norm_num [Color.ofScalar, Examples.scripted, SamplingContext.fresh, Examples.grey, Color.Max]

end PlasticBSDF

namespace PointLight

variable {K W C : Type} [LinearOrderedField K]

/-- C27, amended: the PDF returned by `Illuminate` is the squared distance as
computed, so it is strictly positive if and only if the computed square of the
difference in x, y or z is positive; a positive PDF implies that the shaded point
differs from the light's position in x, y or z.  When the two coincide (and
`std::sqrt(0)` is 0) the PDF and the distance are 0, and the returned direction is
`position - shadingData.position`, whose x, y, z are 0, divided by the distance
0: it is not a unit vector.  (In exact arithmetic `0 / 0` is 0, so the 3-length of
that direction is 0.) -/
theorem Illuminate_pdf_pos_iff (sqrt : K → K) (SampleRGB : W → C → Color K)
    (self : PointLight K C) (param : IlluminateParam K W) (hsqrt0 : sqrt 0 = 0) :
    (0 < (Illuminate sqrt SampleRGB self param).2.outDirectPdfW ↔
      (0 < (self.position.x - param.shadingData.position.x) *
          (self.position.x - param.shadingData.position.x) ∨
        0 < (self.position.y - param.shadingData.position.y) *
          (self.position.y - param.shadingData.position.y) ∨
        0 < (self.position.z - param.shadingData.position.z) *
          (self.position.z - param.shadingData.position.z))) ∧
    (0 < (Illuminate sqrt SampleRGB self param).2.outDirectPdfW →
      (self.position.x ≠ param.shadingData.position.x ∨
        self.position.y ≠ param.shadingData.position.y ∨
        self.position.z ≠ param.shadingData.position.z)) ∧
    ((self.position.x = param.shadingData.position.x ∧
        self.position.y = param.shadingData.position.y ∧
        self.position.z = param.shadingData.position.z) →
      (Illuminate sqrt SampleRGB self param).2.outDirectPdfW = 0 ∧
      (Illuminate sqrt SampleRGB self param).2.outDistance = 0 ∧
      (Illuminate sqrt SampleRGB self param).2.outDirectionToLight =
        (self.position.sub param.shadingData.position).divScalar 0 ∧
      (self.position.sub param.shadingData.position).x = 0 ∧
      (self.position.sub param.shadingData.position).y = 0 ∧
      (self.position.sub param.shadingData.position).z = 0 ∧
      Vector4.Dot3 (Illuminate sqrt SampleRGB self param).2.outDirectionToLight
        (Illuminate sqrt SampleRGB self param).2.outDirectionToLight ≠ 1) := by
  have hsame : (self.position.x = param.shadingData.position.x ∧
      self.position.y = param.shadingData.position.y ∧
      self.position.z = param.shadingData.position.z) →
      (self.position.sub param.shadingData.position).SqrLength3 = 0 := by
    intro h
    simp only [Vector4.SqrLength3, Vector4.Dot3, Vector4.sub, h.1, h.2.1, h.2.2, sub_self,
      mul_zero, add_zero]
  have hpdf : (Illuminate sqrt SampleRGB self param).2.outDirectPdfW =
      (self.position.x - param.shadingData.position.x) *
          (self.position.x - param.shadingData.position.x) +
        (self.position.y - param.shadingData.position.y) *
          (self.position.y - param.shadingData.position.y) +
        (self.position.z - param.shadingData.position.z) *
          (self.position.z - param.shadingData.position.z) := rfl
  have hx := mul_self_nonneg (self.position.x - param.shadingData.position.x)
  have hy := mul_self_nonneg (self.position.y - param.shadingData.position.y)
  have hz := mul_self_nonneg (self.position.z - param.shadingData.position.z)
  refine ⟨⟨?_, ?_⟩, ?_, ?_⟩
  · intro hpos
    rw [hpdf] at hpos
    by_contra hnone
    simp only [not_or, not_lt] at hnone
    linarith [hnone.1, hnone.2.1, hnone.2.2]
  · intro hsome
    rw [hpdf]
    rcases hsome with h | h | h <;> linarith
  · intro hpos
    by_contra hall
    have h3 : self.position.x = param.shadingData.position.x ∧
        self.position.y = param.shadingData.position.y ∧
        self.position.z = param.shadingData.position.z := by
      refine ⟨?_, ?_, ?_⟩
      · by_contra hx
        exact hall (Or.inl hx)
      · by_contra hy
        exact hall (Or.inr (Or.inl hy))
      · by_contra hz
        exact hall (Or.inr (Or.inr hz))
    have h0 := hsame h3
    have hp : 0 < (self.position.sub param.shadingData.position).SqrLength3 := hpos
    rw [h0] at hp
    exact lt_irrefl _ hp
  · intro h
    have h0 := hsame h
    have hdist : (Illuminate sqrt SampleRGB self param).2.outDistance = 0 := by
      show sqrt (self.position.sub param.shadingData.position).SqrLength3 = 0
      rw [h0, hsqrt0]
    have hdir : (Illuminate sqrt SampleRGB self param).2.outDirectionToLight =
        (self.position.sub param.shadingData.position).divScalar 0 := by
      show (self.position.sub param.shadingData.position).divScalar
        (sqrt (self.position.sub param.shadingData.position).SqrLength3) = _
      rw [h0, hsqrt0]
    refine ⟨h0, hdist, hdir, ?_, ?_, ?_, ?_⟩
    · simp only [Vector4.sub, h.1, sub_self]
    · simp only [Vector4.sub, h.2.1, sub_self]
    · simp only [Vector4.sub, h.2.2, sub_self]
    · rw [hdir]
      simp [Vector4.Dot3, Vector4.divScalar]

/-- C27, amended, at a concrete input: a request at the lamp's own position gets
PDF 0 and distance 0, and a request at `(1, 1, 1)` gets a positive PDF. -/
theorem Illuminate_pdf_pos_iff_witness :
    (Illuminate Examples.exactRoot (fun _ c => c) Examples.lamp
      Examples.requestAtLamp).2.outDirectPdfW = 0 ∧
    (Illuminate Examples.exactRoot (fun _ c => c) Examples.lamp
      Examples.requestAtLamp).2.outDistance = 0 ∧
    0 < (Illuminate Examples.exactRoot (fun _ c => c) Examples.lamp
      Examples.request).2.outDirectPdfW := by
  have hroot : Examples.exactRoot 0 = 0 := by norm_num [Examples.exactRoot]
  have k1 := Illuminate_pdf_pos_iff Examples.exactRoot (fun (_ : Unit) (c : Color ℚ) => c)
    Examples.lamp Examples.requestAtLamp hroot
  have k2 := Illuminate_pdf_pos_iff Examples.exactRoot (fun (_ : Unit) (c : Color ℚ) => c)
    Examples.lamp Examples.request hroot
  have hsame := k1.2.2 ⟨rfl, rfl, rfl⟩
  exact ⟨hsame.1, hsame.2.1,
    k2.1.mpr (Or.inl (by norm_num [Examples.lamp, Examples.request]))⟩

end PointLight

namespace PacketTraversalContext

variable {K : Type}

/-- A turn of the loop leaves every hit point other than the one it writes as it
was; a lane whose bit is clear writes nothing. -/
theorem storeLane_other (rayGroup : RayGroup K) (t u v : Vector8 K) (intMask id : Nat)
    (hitPoints : Nat → HitPoint K) (k : Fin 8) (i : Nat)
    (h : (intMask >>> k.val) &&& 1 ≠ 0 → rayGroup.rayOffsets k ≠ i) :
    storeLane rayGroup t u v intMask id hitPoints k i = hitPoints i := by
  unfold storeLane
  split_ifs with hbit
  · exact Function.update_noteq (Ne.symm (h hbit)) _ _
  · rfl

/-- The loop leaves a hit point as it was when no lane with its bit set owns it. -/
theorem foldl_storeLane_untouched (rayGroup : RayGroup K) (t u v : Vector8 K)
    (intMask id : Nat) (lanes : List (Fin 8)) (hitPoints : Nat → HitPoint K) (i : Nat)
    (h : ∀ j ∈ lanes, (intMask >>> j.val) &&& 1 ≠ 0 → rayGroup.rayOffsets j ≠ i) :
    lanes.foldl (storeLane rayGroup t u v intMask id) hitPoints i = hitPoints i := by
  induction lanes generalizing hitPoints with
  | nil => rfl
  | cons a rest ih =>
    rw [List.foldl_cons,
      ih _ (fun j hj => h j (List.mem_cons_of_mem a hj)),
      storeLane_other rayGroup t u v intMask id hitPoints a i
        (h a (List.mem_cons_self a rest))]

/-- After the loop over lanes in increasing order, the hit point of a lane whose bit
is set holds what that lane wrote, provided no later lane with its bit set owns
the same hit point. -/
theorem foldl_storeLane_last (rayGroup : RayGroup K) (t u v : Vector8 K)
    (intMask id : Nat) (lanes : List (Fin 8)) (hsorted : lanes.Pairwise (· < ·))
    (hitPoints : Nat → HitPoint K) (k : Fin 8) (hk : k ∈ lanes)
    (hbit : (intMask >>> k.val) &&& 1 ≠ 0)
    (hlast : ∀ j ∈ lanes, k < j → (intMask >>> j.val) &&& 1 ≠ 0 →
      rayGroup.rayOffsets j ≠ rayGroup.rayOffsets k) :
    lanes.foldl (storeLane rayGroup t u v intMask id) hitPoints (rayGroup.rayOffsets k) =
      { distance := t k, u := u k, v := v k, combinedObjectId := id } := by
  induction lanes generalizing hitPoints with
  | nil => exact absurd hk (List.not_mem_nil k)
  | cons a rest ih =>
    rw [List.foldl_cons]
    have hp := List.pairwise_cons.mp hsorted
    rcases List.mem_cons.mp hk with hka | hkr
    · subst hka
      rw [foldl_storeLane_untouched rayGroup t u v intMask id rest _ _
        (fun j hj hjbit => hlast j (List.mem_cons_of_mem k hj) (hp.1 j hj) hjbit)]
      unfold storeLane
      rw [if_pos hbit, Function.update_same]
    · exact ih hp.2 _ hkr (fun j hj => hlast j (List.mem_cons_of_mem a hj))

/-- C29: after `StoreIntersection` with lane mask `m`, for every lane `k` set in
`m` whose ray offset is not repeated by a later lane set in `m`, the hit point at
`rayOffsets[k]` has `distance = t[k]`, `u = u[k]`, `v = v[k]` and the packed object
identifier, and `maxDistances[k] = t[k]`. -/
theorem StoreIntersection_active_lane (hitPoints : Nat → HitPoint K) (rayGroup : RayGroup K)
    (t u v : Vector8 K) (mask : VectorBool8) (objectID subObjectID : Nat) (k : Fin 8)
    (hk : mask k = true)
    (hlast : ∀ j : Fin 8, k < j → mask j = true →
      rayGroup.rayOffsets j ≠ rayGroup.rayOffsets k) :
    (StoreIntersection hitPoints rayGroup t u v mask objectID subObjectID).2
        (rayGroup.rayOffsets k) =
      { distance := t k, u := u k, v := v k,
        combinedObjectId := objectID ||| ((subObjectID <<< 32) % 2 ^ 64) } ∧
    (StoreIntersection hitPoints rayGroup t u v mask objectID subObjectID).1.maxDistances k =
      t k ∧
    (StoreIntersection hitPoints rayGroup t u v mask objectID subObjectID).1.rayOffsets =
      rayGroup.rayOffsets := by
  have hbit := (GetMask_bit mask k).mpr hk
  have hne : mask.GetMask ≠ 0 := by
    intro h0
    have := (GetMask_eq_zero mask).mp h0 k
    rw [hk] at this
    exact Bool.noConfusion this
  simp only [StoreIntersection, if_pos hne]
  refine ⟨?_, ?_, trivial⟩
  · exact foldl_storeLane_last rayGroup t u v mask.GetMask _ (List.finRange 8)
      (List.pairwise_lt_finRange 8) hitPoints k (List.mem_finRange k) hbit
      (fun j _ hkj hjbit => hlast j hkj ((GetMask_bit mask j).mp hjbit))
  · simp only [Vector8.Select, hk, if_true]

/-- C29, at a concrete input: the lanes 2 and 5 are set and share the hit point
number 12; the later lane 5 has no later rival, so the hit point holds what lane 5
wrote (distance 6), and `maxDistances[5]` is 6. -/
theorem StoreIntersection_active_lane_witness :
    (StoreIntersection Examples.noHits Examples.sharedGroup Examples.laneDistances
      (fun _ => 0) (fun _ => 0) Examples.lanesTwoFive 7 3).2 12 =
      { distance := 6, u := 0, v := 0, combinedObjectId := 12884901895 } ∧
    (StoreIntersection Examples.noHits Examples.sharedGroup Examples.laneDistances
      (fun _ => 0) (fun _ => 0) Examples.lanesTwoFive 7 3).1.maxDistances 5 = 6 := by
  have key := StoreIntersection_active_lane Examples.noHits Examples.sharedGroup
    Examples.laneDistances (fun _ => 0) (fun _ => 0) Examples.lanesTwoFive 7 3 5
    (by decide) (by decide)
  have hid : (7 : Nat) ||| ((3 <<< 32) % 2 ^ 64) = 12884901895 := by decide
  have hd : Examples.laneDistances 5 = 6 := by
    have h5 : (5 : Fin 8).val = 5 := rfl
    unfold Examples.laneDistances
    rw [h5]
    norm_num
  have hoff : Examples.sharedGroup.rayOffsets 5 = 12 := by decide
  rw [hid, hd, hoff] at key
  exact ⟨key.1, key.2.1⟩

/-- C30: `StoreIntersection` changes nothing outside the active lanes: a hit point
whose index is not `rayOffsets[k]` for any lane `k` set in the mask is unchanged;
`maxDistances` keeps its old value in every lane that is not set; the ray offsets
are never changed; and with an all-zero mask the ray group and the whole hit-point
buffer are unchanged. -/
theorem StoreIntersection_frame (hitPoints : Nat → HitPoint K) (rayGroup : RayGroup K)
    (t u v : Vector8 K) (mask : VectorBool8) (objectID subObjectID : Nat) :
    (∀ i : Nat, (∀ k : Fin 8, mask k = true → rayGroup.rayOffsets k ≠ i) →
      (StoreIntersection hitPoints rayGroup t u v mask objectID subObjectID).2 i =
        hitPoints i) ∧
    (∀ k : Fin 8, mask k = false →
      (StoreIntersection hitPoints rayGroup t u v mask objectID subObjectID).1.maxDistances k =
        rayGroup.maxDistances k) ∧
    (StoreIntersection hitPoints rayGroup t u v mask objectID subObjectID).1.rayOffsets =
      rayGroup.rayOffsets ∧
    ((∀ k : Fin 8, mask k = false) →
      StoreIntersection hitPoints rayGroup t u v mask objectID subObjectID =
        (rayGroup, hitPoints)) := by
  by_cases hne : mask.GetMask ≠ 0
  · simp only [StoreIntersection, if_pos hne]
    refine ⟨?_, ?_, trivial, ?_⟩
    · intro i hi
      exact foldl_storeLane_untouched rayGroup t u v mask.GetMask _ (List.finRange 8)
        hitPoints i (fun j _ hjbit => hi j ((GetMask_bit mask j).mp hjbit))
    · intro k hk
      simp only [Vector8.Select, hk]
      rfl
    · intro hall
      exact absurd ((GetMask_eq_zero mask).mpr hall) hne
  · simp only [StoreIntersection, if_neg hne]
    exact ⟨fun _ _ => trivial, fun _ _ => trivial, trivial, fun _ => trivial⟩

end PacketTraversalContext

namespace Bitmap

variable {K : Type} [LinearOrderedField K]

/-- While the bit count `width * height * BitsPerPixel(format)` fits in 64 bits,
`GetDataSize` is that count divided by 8, rounded down. -/
theorem GetDataSize_exact (width height : Nat) (format : Format)
    (hfit : width * height * BitsPerPixel format < 2 ^ 64) :
    GetDataSize width height format = width * height * BitsPerPixel format / 8 := by
  unfold GetDataSize
  by_cases hz : BitsPerPixel format = 0
  · simp [hz, sizeMax]
  · have hp : width * height ≤ width * height * BitsPerPixel format :=
      Nat.le_mul_of_pos_right _ (Nat.pos_of_ne_zero hz)
    simp only []
    rw [Nat.mod_eq_of_lt (lt_of_le_of_lt hp hfit), Nat.mod_eq_of_lt hfit]
    generalize width * height * BitsPerPixel format = q at hfit
    have hq : ¬ (q / 8 ≥ sizeMax) := by
      unfold sizeMax
      omega
    rw [if_neg hq]

/-- The value `GetDataSize` returns is never the maximum `size_t`: it is a 64-bit
value divided by 8. -/
theorem GetDataSize_lt_sizeMax (width height : Nat) (format : Format) :
    GetDataSize width height format < sizeMax := by
  unfold GetDataSize
  simp only []
  generalize (width * height) % 2 ^ 64 * BitsPerPixel format = q
  have hq : ¬ (q % 2 ^ 64 / 8 ≥ sizeMax) := by
    unfold sizeMax
    omega
  rw [if_neg hq]
  unfold sizeMax
  omega

/-- A data size of 0 makes `Init` return false with the bitmap as it was. -/
theorem Init_of_zero_size (alloc : Allocator) (self : Bitmap K) (width height : Nat)
    (format : Format) (data : Option Mem) (linearSpace : Bool)
    (h0 : GetDataSize width height format = 0) :
    Init alloc self width height format data linearSpace = (false, self) := by
  unfold Init
  simp only [h0, if_true]

/-- C31, evaluated where the code departs from it: for `width = height = 2^31` and
one byte per pixel the exact size `2^62` is below the maximum `size_t`, yet
`GetDataSize` returns 0, because the 64-bit product of the bit count wraps before
the division by 8; and for `width = height = 2^32 - 1` with 16 bytes per pixel the
exact size is above the maximum `size_t`, yet `GetDataSize` returns a smaller
number instead of the maximum, so `Init` is not told that the image is too big. -/
theorem GetDataSize_wraps_before_division :
    2147483648 * 2147483648 * BitsPerPixel Format.R8_UNorm / 8 = 4611686018427387904 ∧
    4611686018427387904 < sizeMax ∧
    GetDataSize 2147483648 2147483648 Format.R8_UNorm = 0 ∧
    sizeMax ≤ 4294967295 * 4294967295 * BitsPerPixel Format.R32G32B32A32_Float / 8 ∧
    GetDataSize 4294967295 4294967295 Format.R32G32B32A32_Float = 2305842871774740496 ∧
    2305842871774740496 ≠ sizeMax := by
  decide

/-- C32, as stated, fails for a width of 65536: `Init` succeeds for a 65536 x 1
bitmap of one-byte pixels and stores the width 0, the requested width cut to 16
bits. -/
theorem Init_truncates_wide_bitmap :
    (Init Examples.zeroAllocator Examples.smallBitmap 65536 1 Format.R8_UNorm none
      true).1 = true ∧
    (Init Examples.zeroAllocator Examples.smallBitmap 65536 1 Format.R8_UNorm none
      true).2.mWidth = 0 ∧
    (Init Examples.zeroAllocator Examples.smallBitmap 65536 1 Format.R8_UNorm none
      true).2.mSize.x = 65536 := by
  decide

/-- C32, amended: after every successful `Init` the stored width and height are the
requested ones cut to 16 bits, so they equal the requested ones whenever these are
below 65536; the stored format and linear-space flag equal the requested ones; and
when `data` is not null the first `GetDataSize(width, height, format)` bytes of the
bitmap's buffer equal the supplied data. -/
theorem Init_stores_request (alloc : Allocator) (self : Bitmap K) (width height : Nat)
    (format : Format) (data : Option Mem) (linearSpace : Bool)
    (hok : (Init alloc self width height format data linearSpace).1 = true) :
    (Init alloc self width height format data linearSpace).2.mWidth = width % 2 ^ 16 ∧
    (Init alloc self width height format data linearSpace).2.mHeight = height % 2 ^ 16 ∧
    (width < 2 ^ 16 →
      (Init alloc self width height format data linearSpace).2.mWidth = width) ∧
    (height < 2 ^ 16 →
      (Init alloc self width height format data linearSpace).2.mHeight = height) ∧
    (Init alloc self width height format data linearSpace).2.mFormat = format ∧
    (Init alloc self width height format data linearSpace).2.mLinearSpace = linearSpace ∧
    (∀ source : Mem, data = some source →
      ∃ buffer : Mem,
        (Init alloc self width height format data linearSpace).2.mData = some buffer ∧
        ∀ a : Int, 0 ≤ a → a < (GetDataSize width height format : Nat) →
          buffer a = source a) := by
  unfold Init at hok ⊢
  simp only [] at hok ⊢
  by_cases h0 : GetDataSize width height format = 0
  · simp [h0] at hok
  · by_cases hmax : GetDataSize width height format = sizeMax
    · simp [h0, hmax] at hok
    · rw [if_neg h0, if_neg hmax] at hok ⊢
      generalize alloc.AlignedMalloc
          ((GetDataSize width height format + alloc.RT_CACHE_LINE_SIZE) % 2 ^ 64)
          alloc.RT_CACHE_LINE_SIZE = allocated at hok ⊢
      cases allocated with
      | none => simp at hok
      | some buffer =>
        refine ⟨rfl, rfl, fun hw => Nat.mod_eq_of_lt hw, fun hh => Nat.mod_eq_of_lt hh,
          rfl, rfl, ?_⟩
        intro source hsource
        subst hsource
        refine ⟨_, rfl, ?_⟩
        intro a ha0 ha1
        simp only [memcpy, ha0, ha1, and_self, if_true]

/-- C32, amended, at a concrete input: a 3 x 2 bitmap of one-byte pixels built from
a buffer of sevens. -/
theorem Init_stores_request_witness :
    (Init Examples.zeroAllocator Examples.smallBitmap 3 2 Format.R8_UNorm
      (some (fun _ => 7)) true).1 = true ∧
    (Init Examples.zeroAllocator Examples.smallBitmap 3 2 Format.R8_UNorm
      (some (fun _ => 7)) true).2.mWidth = 3 ∧
    (Init Examples.zeroAllocator Examples.smallBitmap 3 2 Format.R8_UNorm
      (some (fun _ => 7)) true).2.mHeight = 2 :=
  ⟨by decide,
    (Init_stores_request Examples.zeroAllocator Examples.smallBitmap 3 2 Format.R8_UNorm
      (some (fun _ => 7)) true (by decide)).2.2.1 (by decide),
    (Init_stores_request Examples.zeroAllocator Examples.smallBitmap 3 2 Format.R8_UNorm
      (some (fun _ => 7)) true (by decide)).2.2.2.1 (by decide)⟩

/-- C33, as stated, fails for a single pixel of a 4-bit format: `BC1` is a known
format and width and height are 1, yet the data size is `1 * 1 * 4 / 8 = 0` and
`Init` rejects the request, leaving the bitmap as it was. -/
theorem Init_rejects_one_pixel_BC1 :
    GetDataSize 1 1 Format.BC1 = 0 ∧
    Init Examples.zeroAllocator Examples.smallBitmap 1 1 Format.BC1 none true =
      (false, Examples.smallBitmap) :=
  ⟨by decide,
    Init_of_zero_size Examples.zeroAllocator Examples.smallBitmap 1 1 Format.BC1 none true
      (by decide)⟩

/-- C33, amended: while the bit count `width * height * BitsPerPixel(format)` fits
in 64 bits, the data size is 0 exactly when the format is `Unknown`, or width or
height is zero, or the image is one pixel (width and height 1) of a 4-bit format
(`BC1`, `BC4`).  In these cases `Init` rejects the request: it returns false and
leaves the bitmap as it was.  In every other case `Init` does not take that
rejection: it returns true exactly when the allocation succeeds, and when it
returns false it has released the bitmap first. -/
theorem Init_zero_size_iff (alloc : Allocator) (self : Bitmap K) (width height : Nat)
    (format : Format) (data : Option Mem) (linearSpace : Bool)
    (hfit : width * height * BitsPerPixel format < 2 ^ 64) :
    (GetDataSize width height format = 0 ↔
      format = Format.Unknown ∨ width = 0 ∨ height = 0 ∨
        ((format = Format.BC1 ∨ format = Format.BC4) ∧ width = 1 ∧ height = 1)) ∧
    ((format = Format.Unknown ∨ width = 0 ∨ height = 0 ∨
        ((format = Format.BC1 ∨ format = Format.BC4) ∧ width = 1 ∧ height = 1)) →
      Init alloc self width height format data linearSpace = (false, self)) ∧
    (¬ (format = Format.Unknown ∨ width = 0 ∨ height = 0 ∨
        ((format = Format.BC1 ∨ format = Format.BC4) ∧ width = 1 ∧ height = 1)) →
      ((Init alloc self width height format data linearSpace).1 = true ↔
        alloc.AlignedMalloc
          ((GetDataSize width height format + alloc.RT_CACHE_LINE_SIZE) % 2 ^ 64)
          alloc.RT_CACHE_LINE_SIZE ≠ none) ∧
      ((Init alloc self width height format data linearSpace).1 = false →
        Init alloc self width height format data linearSpace = (false, Release self))) := by
  have hiff : GetDataSize width height format = 0 ↔
      format = Format.Unknown ∨ width = 0 ∨ height = 0 ∨
        ((format = Format.BC1 ∨ format = Format.BC4) ∧ width = 1 ∧ height = 1) := by
    rw [GetDataSize_exact width height format hfit]
    have hzero : width * height = 0 ↔ width = 0 ∨ height = 0 := Nat.mul_eq_zero
    have hone : width * height = 1 ↔ width = 1 ∧ height = 1 := mul_eq_one
    generalize width * height = p at hzero hone hfit
    cases format <;> simp only [BitsPerPixel, reduceCtorEq, false_or, true_or, or_false,
      false_and, true_and, iff_true, or_true] <;> omega
  refine ⟨hiff, ?_, ?_⟩
  · intro hcond
    exact Init_of_zero_size alloc self width height format data linearSpace (hiff.mpr hcond)
  · intro hcond
    have h0 : ¬ GetDataSize width height format = 0 := fun h => hcond (hiff.mp h)
    have hmax : ¬ GetDataSize width height format = sizeMax :=
      ne_of_lt (GetDataSize_lt_sizeMax width height format)
    unfold Init
    simp only []
    rw [if_neg h0, if_neg hmax]
    generalize alloc.AlignedMalloc
        ((GetDataSize width height format + alloc.RT_CACHE_LINE_SIZE) % 2 ^ 64)
        alloc.RT_CACHE_LINE_SIZE = allocated
    cases allocated with
    | none => simp
    | some buffer => simp

/-- C33, amended, at concrete inputs: a 2 x 2 `BC1` image has 2 bytes and `Init`
accepts it; a 1 x 1 `BC4` image has no byte and `Init` rejects it, leaving the
bitmap as it was. -/
theorem Init_zero_size_iff_witness :
    (Init Examples.zeroAllocator Examples.smallBitmap 2 2 Format.BC1 none true).1 = true ∧
    Init Examples.zeroAllocator Examples.smallBitmap 1 1 Format.BC4 none true =
      (false, Examples.smallBitmap) :=
  ⟨((Init_zero_size_iff Examples.zeroAllocator Examples.smallBitmap 2 2 Format.BC1 none true
      (by decide)).2.2 (by decide)).1.mpr (by simp [Examples.zeroAllocator]),
   (Init_zero_size_iff Examples.zeroAllocator Examples.smallBitmap 1 1 Format.BC4 none true
      (by decide)).2.1 (by decide)⟩

end Bitmap

namespace Bitmap

variable {K : Type}

/-- When width, height or format differ, `Copy` returns false and the target is as
it was. -/
theorem Copy_of_differ (target source : Bitmap K)
    (hdiffer : target.mWidth ≠ source.mWidth ∨ target.mHeight ≠ source.mHeight ∨
      target.mFormat ≠ source.mFormat) :
    Copy target source = Except.ok (false, target) := by
  unfold Copy
  by_cases hdim : target.mWidth ≠ source.mWidth ∨ target.mHeight ≠ source.mHeight
  · rw [if_pos hdim]
    rfl
  · rw [if_neg hdim]
    have hfmt : target.mFormat ≠ source.mFormat := by
      rcases hdiffer with h | h | h
      · exact absurd (Or.inl h) hdim
      · exact absurd (Or.inr h) hdim
      · exact h
    rw [if_pos hfmt]
    rfl

/-- When width, height and format agree, `Copy` is the `memcpy` of the data size of
the target. -/
theorem Copy_of_same (target source : Bitmap K)
    (hsame : ¬ (target.mWidth ≠ source.mWidth ∨ target.mHeight ≠ source.mHeight ∨
      target.mFormat ≠ source.mFormat)) :
    Copy target source =
      (memcpyData target.mData source.mData
        (GetDataSize target.mWidth target.mHeight target.mFormat)).map
        (fun data => (true, { target with mData := data })) := by
  unfold Copy
  have hdim : ¬ (target.mWidth ≠ source.mWidth ∨ target.mHeight ≠ source.mHeight) :=
    fun h => hsame (h.elim Or.inl (fun h2 => Or.inr (Or.inl h2)))
  have hfmt : ¬ (target.mFormat ≠ source.mFormat) :=
    fun h => hsame (Or.inr (Or.inr h))
  rw [if_neg hdim, if_neg hfmt]
  cases memcpyData target.mData source.mData
    (GetDataSize target.mWidth target.mHeight target.mFormat) <;> rfl

/-- C34: for bitmaps whose buffer is null only when their data size is 0, `Copy`
returns false exactly when target and source differ in width, height or format,
and then the target is as it was; otherwise it returns true, the first
`GetDataSize` bytes of the target's buffer equal those of the source's buffer, and
the target's width, height and format are as they were. -/
theorem Copy_spec (target source : Bitmap K)
    (htarget : target.mData ≠ none ∨
      GetDataSize target.mWidth target.mHeight target.mFormat = 0)
    (hsource : source.mData ≠ none ∨
      GetDataSize source.mWidth source.mHeight source.mFormat = 0) :
    ((Copy target source).map Prod.fst = Except.ok false ↔
      (target.mWidth ≠ source.mWidth ∨ target.mHeight ≠ source.mHeight ∨
        target.mFormat ≠ source.mFormat)) ∧
    ((target.mWidth ≠ source.mWidth ∨ target.mHeight ≠ source.mHeight ∨
        target.mFormat ≠ source.mFormat) →
      Copy target source = Except.ok (false, target)) ∧
    (¬ (target.mWidth ≠ source.mWidth ∨ target.mHeight ≠ source.mHeight ∨
        target.mFormat ≠ source.mFormat) →
      ∃ after : Bitmap K, Copy target source = Except.ok (true, after) ∧
        after.mWidth = target.mWidth ∧ after.mHeight = target.mHeight ∧
        after.mFormat = target.mFormat ∧
        ∀ old new : Mem, target.mData = some old → source.mData = some new →
          ∃ copied : Mem, after.mData = some copied ∧
            ∀ a : Int, 0 ≤ a →
              a < (GetDataSize target.mWidth target.mHeight target.mFormat : Nat) →
              copied a = new a) := by
  have hthird : ¬ (target.mWidth ≠ source.mWidth ∨ target.mHeight ≠ source.mHeight ∨
        target.mFormat ≠ source.mFormat) →
      ∃ after : Bitmap K, Copy target source = Except.ok (true, after) ∧
        after.mWidth = target.mWidth ∧ after.mHeight = target.mHeight ∧
        after.mFormat = target.mFormat ∧
        ∀ old new : Mem, target.mData = some old → source.mData = some new →
          ∃ copied : Mem, after.mData = some copied ∧
            ∀ a : Int, 0 ≤ a →
              a < (GetDataSize target.mWidth target.mHeight target.mFormat : Nat) →
              copied a = new a := by
    intro hsame
    rw [Copy_of_same target source hsame]
    have hw : target.mWidth = source.mWidth := by
      by_contra h
      exact hsame (Or.inl h)
    have hh : target.mHeight = source.mHeight := by
      by_contra h
      exact hsame (Or.inr (Or.inl h))
    have hf : target.mFormat = source.mFormat := by
      by_contra h
      exact hsame (Or.inr (Or.inr h))
    rw [← hw, ← hh, ← hf] at hsource
    unfold memcpyData
    by_cases hn : GetDataSize target.mWidth target.mHeight target.mFormat = 0
    · rw [if_pos hn]
      refine ⟨{ target with mData := target.mData }, rfl, rfl, rfl, rfl, ?_⟩
      intro old new hold _
      refine ⟨old, hold, ?_⟩
      intro a ha0 ha1
      rw [hn] at ha1
      exact absurd ha1 (not_lt.mpr ha0)
    · rw [if_neg hn]
      have ht : target.mData ≠ none := htarget.resolve_right hn
      have hs : source.mData ≠ none := hsource.resolve_right hn
      cases htd : target.mData with
      | none => exact absurd htd ht
      | some old =>
        cases hsd : source.mData with
        | none => exact absurd hsd hs
        | some new =>
          refine ⟨{ target with mData := some (memcpy old new
            (GetDataSize target.mWidth target.mHeight target.mFormat)) }, rfl, rfl, rfl,
            rfl, ?_⟩
          intro old2 new2 hold hnew
          cases hold
          cases hnew
          refine ⟨_, rfl, ?_⟩
          intro a ha0 ha1
          simp only [memcpy, ha0, ha1, and_self, if_true]
  refine ⟨⟨?_, ?_⟩, Copy_of_differ target source, hthird⟩
  · intro hfalse
    by_contra hsame
    obtain ⟨after, hafter, _⟩ := hthird hsame
    rw [hafter] at hfalse
    cases hfalse
  · intro hdiffer
    rw [Copy_of_differ target source hdiffer]
    rfl

/-- C34, at concrete inputs: copying the 2 x 2 bitmap holding 1, 2, 3, 4 onto the
2 x 2 bitmap holding 10, 20, 30, 40 returns true and does not change the width. -/
theorem Copy_spec_witness :
    ∃ after : Bitmap ℚ,
      Copy Examples.smallBitmap Examples.otherBitmap = Except.ok (true, after) ∧
      after.mWidth = 2 := by
  obtain ⟨after, hcopy, hw, _⟩ :=
    (Copy_spec Examples.smallBitmap Examples.otherBitmap
      (Or.inl (by simp [Examples.smallBitmap]))
      (Or.inl (by simp [Examples.otherBitmap]))).2.2 (by decide)
  exact ⟨after, hcopy, hw⟩

/-- For every format read at an address (every format but `Unknown` and the
block-compressed ones) the bits per pixel are a positive multiple of 8 and, for a
pixel `x < width`, `y < height` of a bitmap with 16-bit width and height whose byte
offset does not overflow 32 bits, the address of `GetPixelAddress` is
`stride * (width * y + x)` with `stride = BitsPerPixel / 8`, and the `stride` bytes
from there lie inside the `GetDataSize(width, height, format)` bytes of the
buffer. -/
theorem GetPixelAddress_in_bounds (self : Bitmap K) (x y : Nat)
    (hw : self.mWidth < 2 ^ 16) (hh : self.mHeight < 2 ^ 16)
    (hx : x < self.mWidth) (hy : y < self.mHeight)
    (hfmt : self.mFormat ≠ Format.Unknown ∧ self.mFormat ≠ Format.BC1 ∧
      self.mFormat ≠ Format.BC4 ∧ self.mFormat ≠ Format.BC5)
    (hov : BitsPerPixel self.mFormat / 8 * (self.mWidth * y + x) < 2 ^ 32) :
    BitsPerPixel self.mFormat = 8 * (BitsPerPixel self.mFormat / 8) ∧
    0 < BitsPerPixel self.mFormat / 8 ∧
    GetPixelAddress self x y =
      some ((BitsPerPixel self.mFormat / 8 * (self.mWidth * y + x) : Nat) : Int) ∧
    BitsPerPixel self.mFormat / 8 * (self.mWidth * y + x) + BitsPerPixel self.mFormat / 8 ≤
      GetDataSize self.mWidth self.mHeight self.mFormat := by
  obtain ⟨mData, mWidth, mHeight, mSize, mFloatSize, mFormat, mLinearSpace⟩ := self
  simp only at hw hh hx hy hfmt hov ⊢
  have harea : mWidth * mHeight < 2 ^ 32 := by
    calc mWidth * mHeight < 2 ^ 16 * 2 ^ 16 := Nat.mul_lt_mul'' hw hh
      _ = 2 ^ 32 := by norm_num
  have hbpp : BitsPerPixel mFormat ≤ 128 := by
    cases mFormat <;> decide
  have hfit : mWidth * mHeight * BitsPerPixel mFormat < 2 ^ 64 := by
    calc mWidth * mHeight * BitsPerPixel mFormat ≤ mWidth * mHeight * 128 :=
          Nat.mul_le_mul_left _ hbpp
      _ < 2 ^ 32 * 128 := Nat.mul_lt_mul_of_pos_right harea (by norm_num)
      _ < 2 ^ 64 := by norm_num
  have hrow : mWidth * y + mWidth ≤ mWidth * mHeight := by
    calc mWidth * y + mWidth = mWidth * (y + 1) := by ring
      _ ≤ mWidth * mHeight := Nat.mul_le_mul_left _ hy
  rw [GetDataSize_exact mWidth mHeight mFormat hfit]
  have hindex : mWidth * y + x < 2 ^ 32 := by omega
  simp only [GetPixelAddress]
  rw [Nat.mod_eq_of_lt hindex]
  have hlast : mWidth * y + x + 1 ≤ mWidth * mHeight := by omega
  generalize mWidth * mHeight = area at hlast hfit
  generalize mWidth * y + x = p at hlast hov
  obtain ⟨hU, hB1, hB4, hB5⟩ := hfmt
  cases mFormat <;>
    first
    | exact absurd rfl hU
    | exact absurd rfl hB1
    | exact absurd rfl hB4
    | exact absurd rfl hB5
    | (simp only [BitsPerPixel, toUint32, Option.some.injEq] at hov ⊢
       push_cast
       refine ⟨trivial, trivial, ?_, ?_⟩ <;> omega)

end Bitmap

namespace Bitmap

variable {K : Type} [LinearOrderedField K]

/-- For a format read at an address, `GetPixel` is the load of `LoadPixel` at the
address of `GetPixelAddress`, followed by the conversion to linear space. -/
theorem GetPixel_reads_at (L : PixelLoaders K) (self : Bitmap K) (x y : Nat)
    (forceLinearSpace : Bool) (mData : Mem) (address : Int)
    (hdata : self.mData = some mData) (haddress : GetPixelAddress self x y = some address) :
    GetPixel L self x y forceLinearSpace =
      Except.ok (toLinear self.mLinearSpace forceLinearSpace
        (LoadPixel L self.mFormat mData address)) := by
  obtain ⟨data, mWidth, mHeight, mSize, mFloatSize, mFormat, mLinearSpace⟩ := self
  simp only at hdata
  subst hdata
  cases mFormat <;> simp only [GetPixelAddress, reduceCtorEq, Option.some.injEq] at haddress <;>
    subst haddress <;> rfl

/-- C35: for every format read at an address (every format but `Unknown` and the
block-compressed ones) the bits per pixel are a positive multiple of 8, and for a
pixel `x < width`, `y < height` of a bitmap with 16-bit width and height whose byte
offset does not overflow 32 bits, `GetPixel` returns the value loaded at the byte
address `stride * (width * y + x)` with `stride = BitsPerPixel / 8` (converted to
linear space as asked), and the `stride` bytes from that address lie inside the
`GetDataSize(width, height, format)` bytes of the buffer. -/
theorem GetPixel_stride_in_bounds (L : PixelLoaders K) (self : Bitmap K) (x y : Nat)
    (forceLinearSpace : Bool) (mData : Mem)
    (hdata : self.mData = some mData)
    (hw : self.mWidth < 2 ^ 16) (hh : self.mHeight < 2 ^ 16)
    (hx : x < self.mWidth) (hy : y < self.mHeight)
    (hfmt : self.mFormat ≠ Format.Unknown ∧ self.mFormat ≠ Format.BC1 ∧
      self.mFormat ≠ Format.BC4 ∧ self.mFormat ≠ Format.BC5)
    (hov : BitsPerPixel self.mFormat / 8 * (self.mWidth * y + x) < 2 ^ 32) :
    BitsPerPixel self.mFormat = 8 * (BitsPerPixel self.mFormat / 8) ∧
    0 < BitsPerPixel self.mFormat / 8 ∧
    GetPixel L self x y forceLinearSpace =
      Except.ok (toLinear self.mLinearSpace forceLinearSpace
        (LoadPixel L self.mFormat mData
          ((BitsPerPixel self.mFormat / 8 * (self.mWidth * y + x) : Nat) : Int))) ∧
    BitsPerPixel self.mFormat / 8 * (self.mWidth * y + x) + BitsPerPixel self.mFormat / 8 ≤
      GetDataSize self.mWidth self.mHeight self.mFormat := by
  have key := GetPixelAddress_in_bounds self x y hw hh hx hy hfmt hov
  exact ⟨key.1, key.2.1,
    GetPixel_reads_at L self x y forceLinearSpace mData _ hdata key.2.2.1, key.2.2.2⟩

/-- C35, at a concrete input: the last pixel of the 2 x 2 bitmap of one-byte pixels
holding 10, 20, 30, 40 is read at byte 3, inside the 4 bytes of the buffer, and
`GetPixel` returns 40/255 in every component. -/
theorem GetPixel_stride_in_bounds_witness :
    GetPixel Examples.byteLoaders Examples.smallBitmap 1 1 true =
      Except.ok { x := 40 / 255, y := 40 / 255, z := 40 / 255, w := 40 / 255 } ∧
    BitsPerPixel Examples.smallBitmap.mFormat / 8 * (Examples.smallBitmap.mWidth * 1 + 1) +
      BitsPerPixel Examples.smallBitmap.mFormat / 8 ≤
      GetDataSize Examples.smallBitmap.mWidth Examples.smallBitmap.mHeight
        Examples.smallBitmap.mFormat := by
  have key := GetPixel_stride_in_bounds Examples.byteLoaders Examples.smallBitmap 1 1 true
    (fun a => if a = 0 then 10 else if a = 1 then 20 else if a = 2 then 30
      else if a = 3 then 40 else 0)
    rfl (by decide) (by decide) (by decide) (by decide) (by decide) (by decide)
  refine ⟨?_, key.2.2.2⟩
  rw [key.2.2.1]
  simp [LoadPixel, toLinear, Examples.smallBitmap, BitsPerPixel, Vector4.FromInteger,
    Vector4.mulScalar, Vector4.ofScalar, toInt32]
  norm_num

end Bitmap

namespace math

/-- C36: for a `VectorBool4` built from four booleans `(x, y, z, w)`: `Get<k>()`
returns the `k`-th argument; `GetMask()` is `x + 2y + 4z + 8w`; `All()` holds
exactly when all four are true, `None()` exactly when all four are false, and
`Any()` is the negation of `None()`; `&`, `|` and `^` act lane by lane, so that
`GetMask(a op b)` is `GetMask(a) op GetMask(b)`; and in a `VectorBool4` built from
four integers a lane is true exactly when its integer is strictly positive. -/
theorem VectorBool4_of_booleans (x y z w x2 y2 z2 w2 : Bool) (ix iy iz iw : Int) :
    ((VectorBool4.ofBools x y z w).Get 0 = x ∧ (VectorBool4.ofBools x y z w).Get 1 = y ∧
      (VectorBool4.ofBools x y z w).Get 2 = z ∧ (VectorBool4.ofBools x y z w).Get 3 = w) ∧
    (VectorBool4.ofBools x y z w).GetMask =
      x.toNat + 2 * y.toNat + 4 * z.toNat + 8 * w.toNat ∧
    ((VectorBool4.ofBools x y z w).All = true ↔
      x = true ∧ y = true ∧ z = true ∧ w = true) ∧
    ((VectorBool4.ofBools x y z w).None = true ↔
      x = false ∧ y = false ∧ z = false ∧ w = false) ∧
    (VectorBool4.ofBools x y z w).Any = !(VectorBool4.ofBools x y z w).None ∧
    ((VectorBool4.ofBools x y z w).and (VectorBool4.ofBools x2 y2 z2 w2) =
        VectorBool4.ofBools (x && x2) (y && y2) (z && z2) (w && w2) ∧
      (VectorBool4.ofBools x y z w).or (VectorBool4.ofBools x2 y2 z2 w2) =
        VectorBool4.ofBools (x || x2) (y || y2) (z || z2) (w || w2) ∧
      (VectorBool4.ofBools x y z w).xor (VectorBool4.ofBools x2 y2 z2 w2) =
        VectorBool4.ofBools (x != x2) (y != y2) (z != z2) (w != w2)) ∧
    (((VectorBool4.ofBools x y z w).and (VectorBool4.ofBools x2 y2 z2 w2)).GetMask =
        (VectorBool4.ofBools x y z w).GetMask &&&
          (VectorBool4.ofBools x2 y2 z2 w2).GetMask ∧
      ((VectorBool4.ofBools x y z w).or (VectorBool4.ofBools x2 y2 z2 w2)).GetMask =
        (VectorBool4.ofBools x y z w).GetMask |||
          (VectorBool4.ofBools x2 y2 z2 w2).GetMask ∧
      ((VectorBool4.ofBools x y z w).xor (VectorBool4.ofBools x2 y2 z2 w2)).GetMask =
        (VectorBool4.ofBools x y z w).GetMask ^^^
          (VectorBool4.ofBools x2 y2 z2 w2).GetMask) ∧
    ((VectorBool4.ofInts ix iy iz iw).Get 0 = decide (ix > 0) ∧
      (VectorBool4.ofInts ix iy iz iw).Get 1 = decide (iy > 0) ∧
      (VectorBool4.ofInts ix iy iz iw).Get 2 = decide (iz > 0) ∧
      (VectorBool4.ofInts ix iy iz iw).Get 3 = decide (iw > 0)) := by
  refine ⟨?_, ?_, ?_, ?_, ?_, ?_, ?_, ?_⟩
  · revert x y z w
    decide
  · revert x y z w
    decide
  · revert x y z w
    decide
  · revert x y z w
    decide
  · revert x y z w
    decide
  · revert x y z w x2 y2 z2 w2
    decide
  · revert x y z w x2 y2 z2 w2
    decide
  · refine ⟨?_, ?_, ?_, ?_⟩
    · by_cases h : ix > 0 <;> simp [VectorBool4.ofInts, VectorBool4.Get, VectorBool4.lane, h]
    · by_cases h : iy > 0 <;> simp [VectorBool4.ofInts, VectorBool4.Get, VectorBool4.lane, h]
    · by_cases h : iz > 0 <;> simp [VectorBool4.ofInts, VectorBool4.Get, VectorBool4.lane, h]
    · by_cases h : iw > 0 <;> simp [VectorBool4.ofInts, VectorBool4.Get, VectorBool4.lane, h]

/-- C39: for every register and every index tuple in `0..3`, `Swizzle<ix, iy, iz,
iw>()` equals the general shuffle `_mm_shuffle_ps(v, v, _MM_SHUFFLE(iw, iz, iy,
ix))`, also for the six patterns that take an instruction of their own, and lane
`j` of the result is lane `i_j` of the input. -/
theorem VectorBool4_Swizzle_refines (v : VectorBool4) (ix iy iz iw : Fin 4) :
    v.Swizzle ix iy iz iw = _mm_shuffle_ps v v (_MM_SHUFFLE iw iz iy ix) ∧
    v.Swizzle ix iy iz iw = v.SwizzleSpec ix iy iz iw ∧
    (v.Swizzle ix iy iz iw).lane 0 = v.lane ix ∧
    (v.Swizzle ix iy iz iw).lane 1 = v.lane iy ∧
    (v.Swizzle ix iy iz iw).lane 2 = v.lane iz ∧
    (v.Swizzle ix iy iz iw).lane 3 = v.lane iw ∧
    _mm_unpacklo_ps v v = _mm_shuffle_ps v v (_MM_SHUFFLE 1 1 0 0) ∧
    _mm_unpackhi_ps v v = _mm_shuffle_ps v v (_MM_SHUFFLE 3 3 2 2) ∧
    _mm_movelh_ps v v = _mm_shuffle_ps v v (_MM_SHUFFLE 1 0 1 0) ∧
    _mm_movehl_ps v v = _mm_shuffle_ps v v (_MM_SHUFFLE 3 2 3 2) ∧
    _mm_moveldup_ps v = _mm_shuffle_ps v v (_MM_SHUFFLE 2 2 0 0) ∧
    _mm_movehdup_ps v = _mm_shuffle_ps v v (_MM_SHUFFLE 3 3 1 1) := by
  refine ⟨?_, ?_, ?_, ?_, ?_, ?_, rfl, rfl, rfl, rfl, rfl, rfl⟩ <;>
    fin_cases ix <;> fin_cases iy <;> fin_cases iz <;> fin_cases iw <;> rfl

end math

namespace math

variable {K : Type} [LinearOrderedField K]

end math

namespace math

/-- Three bytes combined with `|` after shifts by 8 and 16 bits are their sum with
weights `2^8` and `2^16`. -/
theorem pack_bytes (b g r : Nat) (hb : b < 2 ^ 8) (hg : g < 2 ^ 8) :
    b ||| (2 ^ 8 * g) ||| (2 ^ 16 * r) = b + 2 ^ 8 * g + 2 ^ 16 * r := by
  have h1 : b ||| (2 ^ 8 * g) = 2 ^ 8 * g + b := by
    rw [Nat.lor_comm]
    exact (Nat.mul_add_lt_is_or hb g).symm
  have h2 : 2 ^ 8 * g + b < 2 ^ 16 := by omega
  rw [h1, Nat.lor_comm, ← Nat.mul_add_lt_is_or h2 r]
  omega

/-- The value `Clamp(x, 0, 255)` lies between 0 and 255. -/
theorem Clamp_byte (x : Int) : 0 ≤ Clamp x 0 255 ∧ Clamp x 0 255 ≤ 255 := by
  unfold Clamp
  omega

/-- The three clamped channels, converted and shifted as in `ToBGR`, combine to
their weighted sum. -/
theorem pack_channels (b g r : Int) (hb0 : 0 ≤ b) (hb : b ≤ 255) (hg0 : 0 ≤ g)
    (hg : g ≤ 255) (hr0 : 0 ≤ r) (hr : r ≤ 255) :
    (toUint32 b).toNat ||| (toUint32 (toInt32 (g * 2 ^ 8))).toNat |||
      (toUint32 (toInt32 (r * 2 ^ 16))).toNat =
      b.toNat + 2 ^ 8 * g.toNat + 2 ^ 16 * r.toNat := by
  have e1 : toUint32 b = b := by
    unfold toUint32
    omega
  have e2 : toUint32 (toInt32 (g * 2 ^ 8)) = ((2 ^ 8 * g.toNat : Nat) : Int) := by
    unfold toUint32 toInt32
    omega
  have e3 : toUint32 (toInt32 (r * 2 ^ 16)) = ((2 ^ 16 * r.toNat : Nat) : Int) := by
    unfold toUint32 toInt32
    omega
  rw [e1, e2, e3, Int.toNat_ofNat, Int.toNat_ofNat]
  exact pack_bytes b.toNat g.toNat r.toNat (by omega) (by omega)

end math

namespace math

variable {K : Type} [LinearOrderedField K] [FloorRing K]

/-- A value strictly between `-2^31` and `2^31` converts to its truncation. -/
theorem castInt32_of_range (value : K) (hlower : -(2 ^ 31) < value)
    (hupper : value < 2 ^ 31) : castInt32 value = truncate value := by
  have hrange : -2 ^ 31 ≤ truncate value ∧ truncate value < 2 ^ 31 := by
    unfold truncate
    by_cases h0 : 0 ≤ value
    · rw [if_pos h0]
      constructor
      · exact le_trans (by norm_num) (Int.floor_nonneg.mpr h0)
      · rw [Int.floor_lt]
        push_cast
        norm_num at hupper ⊢
        exact hupper
    · rw [if_neg h0]
      constructor
      · rw [Int.le_ceil_iff]
        push_cast
        linarith
      · have hceil : Int.ceil value ≤ 0 :=
          Int.ceil_le.mpr (by push_cast; exact le_of_lt (not_le.mp h0))
        exact lt_of_le_of_lt hceil (by norm_num)
  unfold castInt32
  rw [if_pos hrange]

/-- A value that is not positive truncates to an integer that is not positive. -/
theorem truncate_nonpos (value : K) (h : value ≤ 0) : truncate value ≤ 0 := by
  unfold truncate
  by_cases h0 : 0 ≤ value
  · rw [if_pos h0]
    have hzero : value = 0 := le_antisymm h h0
    rw [hzero, Int.floor_zero]
  · rw [if_neg h0]
    exact Int.ceil_le.mpr (by push_cast; exact h)

/-- A value of at least 255 truncates to an integer of at least 255. -/
theorem truncate_ge_255 (value : K) (h : 255 ≤ value) : 255 ≤ truncate value := by
  unfold truncate
  have h0 : (0 : K) ≤ value := le_trans (by norm_num) h
  rw [if_pos h0]
  exact Int.le_floor.mpr (by push_cast; exact h)

/-- With the three conversions in range, `ToBGR` is the weighted sum of the three
clamped channels. -/
theorem ToBGR_of_range (v : Vector4 K)
    (hx : -(2 ^ 31) < v.x * 255 ∧ v.x * 255 < 2 ^ 31)
    (hy : -(2 ^ 31) < v.y * 255 ∧ v.y * 255 < 2 ^ 31)
    (hz : -(2 ^ 31) < v.z * 255 ∧ v.z * 255 < 2 ^ 31) :
    v.ToBGR = (Clamp (truncate (v.z * 255)) 0 255).toNat +
      2 ^ 8 * (Clamp (truncate (v.y * 255)) 0 255).toNat +
      2 ^ 16 * (Clamp (truncate (v.x * 255)) 0 255).toNat := by
  have cx := castInt32_of_range (v.x * 255) hx.1 hx.2
  have cy := castInt32_of_range (v.y * 255) hy.1 hy.2
  have cz := castInt32_of_range (v.z * 255) hz.1 hz.2
  have hb := Clamp_byte (truncate (v.z * 255))
  have hg := Clamp_byte (truncate (v.y * 255))
  have hr := Clamp_byte (truncate (v.x * 255))
  simp only [Vector4.ToBGR, Vector4.mul, VECTOR_255, Vector4.ofScalar, cx, cy, cz]
  rw [pack_channels _ _ _ hb.1 hb.2 hg.1 hg.2 hr.1 hr.2]

/-- A channel of `ToBGR` is 0 for a component that is not positive and 255 for a
component of at least 1. -/
theorem channel_ends (c : K) :
    (c ≤ 0 → (Clamp (truncate (c * 255)) 0 255).toNat = 0) ∧
    (1 ≤ c → (Clamp (truncate (c * 255)) 0 255).toNat = 255) := by
  constructor
  · intro h
    have ht := truncate_nonpos (c * 255) (by nlinarith)
    unfold Clamp
    omega
  · intro h
    have ht := truncate_ge_255 (c * 255) (by nlinarith)
    unfold Clamp
    omega

/-- C37, evaluated where the code departs from it: with red ten million the
product with 255 is `2550000000`, above the largest `int32`; the conversion to
`int32`, made before the clamp, gives `-2^31`, the clamp brings that to 0, and
`ToBGR` returns 0: the red channel is 0, where a component of at least 1 should
give 255. -/
theorem ToBGR_overbright_red_zero :
    1 ≤ Examples.overbright.x ∧
    truncate (Examples.overbright.x * 255) = 2550000000 ∧
    castInt32 (Examples.overbright.x * 255) = -2147483648 ∧
    Clamp (castInt32 (Examples.overbright.x * 255)) 0 255 = 0 ∧
    Examples.overbright.ToBGR = 0 ∧
    Examples.overbright.ToBGR / 2 ^ 16 % 2 ^ 8 ≠ 255 := by
  have ht : truncate ((10000000 : ℚ) * 255) = 2550000000 := by
    norm_num [truncate]
  have hc : castInt32 ((10000000 : ℚ) * 255) = -2147483648 := by
    unfold castInt32
    rw [ht]
    decide
  have h0 : castInt32 ((0 : ℚ) * 255) = 0 := by
    norm_num [castInt32, truncate]
  have hret : Examples.overbright.ToBGR = 0 := by
    simp only [Vector4.ToBGR, Vector4.mul, VECTOR_255, Vector4.ofScalar, Examples.overbright,
      hc, h0]
    decide
  refine ⟨by norm_num [Examples.overbright], ht, hc, ?_, hret, ?_⟩
  · show Clamp (castInt32 ((10000000 : ℚ) * 255)) 0 255 = 0
    rw [hc]
    decide
  · rw [hret]
    decide

/-- Where the three products with 255 lie strictly between `-2^31` and `2^31`,
`ToBGR` packs blue (from `z`) into bits 0-7, green (from `y`) into bits 8-15 and
red (from `x`) into bits 16-23, each channel being the component times 255,
truncated to an integer and clamped to `[0, 255]`; the result is below `2^24`,
does not depend on `w`, and a component `<= 0` gives the channel 0, a component
`>= 1` the channel 255. -/
theorem ToBGR_packs (v : Vector4 K)
    (hx : -(2 ^ 31) < v.x * 255 ∧ v.x * 255 < 2 ^ 31)
    (hy : -(2 ^ 31) < v.y * 255 ∧ v.y * 255 < 2 ^ 31)
    (hz : -(2 ^ 31) < v.z * 255 ∧ v.z * 255 < 2 ^ 31) :
    ∃ blue green red : Nat,
      v.ToBGR = blue + 2 ^ 8 * green + 2 ^ 16 * red ∧
      (blue : Int) = Clamp (truncate (v.z * 255)) 0 255 ∧
      (green : Int) = Clamp (truncate (v.y * 255)) 0 255 ∧
      (red : Int) = Clamp (truncate (v.x * 255)) 0 255 ∧
      blue ≤ 255 ∧ green ≤ 255 ∧ red ≤ 255 ∧
      blue + 2 ^ 8 * green + 2 ^ 16 * red < 2 ^ 24 ∧
      (blue + 2 ^ 8 * green + 2 ^ 16 * red) % 2 ^ 8 = blue ∧
      (blue + 2 ^ 8 * green + 2 ^ 16 * red) / 2 ^ 8 % 2 ^ 8 = green ∧
      (blue + 2 ^ 8 * green + 2 ^ 16 * red) / 2 ^ 16 % 2 ^ 8 = red ∧
      (v.z ≤ 0 → blue = 0) ∧ (1 ≤ v.z → blue = 255) ∧
      (v.y ≤ 0 → green = 0) ∧ (1 ≤ v.y → green = 255) ∧
      (v.x ≤ 0 → red = 0) ∧ (1 ≤ v.x → red = 255) ∧
      ∀ w : K, ({ v with w := w } : Vector4 K).ToBGR = v.ToBGR := by
  have hb := Clamp_byte (truncate (v.z * 255))
  have hg := Clamp_byte (truncate (v.y * 255))
  have hr := Clamp_byte (truncate (v.x * 255))
  refine ⟨(Clamp (truncate (v.z * 255)) 0 255).toNat,
    (Clamp (truncate (v.y * 255)) 0 255).toNat,
    (Clamp (truncate (v.x * 255)) 0 255).toNat,
    ToBGR_of_range v hx hy hz, Int.toNat_of_nonneg hb.1, Int.toNat_of_nonneg hg.1,
    Int.toNat_of_nonneg hr.1, by omega, by omega, by omega, by omega, by omega, by omega,
    by omega, (channel_ends v.z).1, (channel_ends v.z).2, (channel_ends v.y).1,
    (channel_ends v.y).2, (channel_ends v.x).1, (channel_ends v.x).2, fun _ => rfl⟩

/-- At a concrete input in range: red one half, green one quarter and blue 2 give
the channels 127, 63 and 255, whatever `w` is. -/
theorem ToBGR_halfTone :
    Examples.halfTone.ToBGR = 255 + 2 ^ 8 * 63 + 2 ^ 16 * 127 := by
  obtain ⟨blue, green, red, hret, hblue, hgreen, hred, _⟩ :=
    ToBGR_packs Examples.halfTone (by norm_num [Examples.halfTone])
      (by norm_num [Examples.halfTone]) (by norm_num [Examples.halfTone])
  have h1 : (blue : Int) = 255 := by
    rw [hblue]
    norm_num [Examples.halfTone, truncate, Clamp]
  have h2 : (green : Int) = 63 := by
    rw [hgreen]
    norm_num [Examples.halfTone, truncate, Clamp]
  have h3 : (red : Int) = 127 := by
    rw [hred]
    norm_num [Examples.halfTone, truncate, Clamp]
  have e1 : blue = 255 := by omega
  have e2 : green = 63 := by omega
  have e3 : red = 127 := by omega
  rw [hret, e1, e2, e3]

end math

namespace Single

/-- The zero of `Single` is the finite number 0. -/
theorem zero_eq : (0 : Single) = finite 0 := rfl

/-- The difference of two finite values is the stored exact difference. -/
theorem finite_sub (a b : ℚ) : finite a - finite b = round (a - b) := by
  show add (finite a) (neg (finite b)) = round (a - b)
  simp only [neg, add, sub_eq_add_neg]

/-- The sum of two finite values is the stored exact sum. -/
theorem finite_add (a b : ℚ) : finite a + finite b = round (a + b) := rfl

/-- The product of two finite values is the stored exact product. -/
theorem finite_mul (a b : ℚ) : finite a * finite b = round (a * b) := rfl

/-- A finite value that is not zero, divided by zero, is an infinity; zero divided
by zero is NaN. -/
theorem finite_div_zero (a : ℚ) :
    finite a / finite 0 = if a = 0 then nan else infinite (decide (a < 0)) := by
  show div (finite a) (finite 0) = _
  simp only [div, if_true]

/-- Every sum with NaN is NaN. -/
theorem add_nan (a : Single) : a + nan = nan := by
  cases a <;> rfl

/-- The number `2^-80` is stored as it is, its square is stored as 0. -/
theorem round_faint :
    round (1 / 2 ^ 80 - 0) = finite (1 / 2 ^ 80) ∧
    round (1 / 2 ^ 80 * (1 / 2 ^ 80)) = finite 0 ∧ round (0 - 0) = finite 0 ∧
    round (0 * 0) = finite 0 ∧ round (0 + 0) = finite 0 := by
  refine ⟨?_, ?_, ?_, ?_, ?_⟩ <;> norm_num [round, abs_of_nonneg]

end Single

namespace PointLight

/-- The light at `(2^-80, 0, 0)` seen from the origin, in single precision: the
difference of the positions, its squared length, and the result of `Illuminate`. -/
theorem Illuminate_nearLamp :
    Examples.nearLamp.position.sub Examples.requestAtOrigin.shadingData.position =
      { x := Single.finite (1 / 2 ^ 80), y := Single.finite 0, z := Single.finite 0,
        w := Single.finite 0 } ∧
    (Examples.nearLamp.position.sub
      Examples.requestAtOrigin.shadingData.position).SqrLength3 = Single.finite 0 ∧
    (Illuminate Examples.rootSingle (fun _ c => c) Examples.nearLamp
      Examples.requestAtOrigin).2 =
      { Examples.requestAtOrigin with
        outDirectPdfW := Single.finite 0
        outDistance := Single.finite 0
        outDirectionToLight := { x := Single.infinite false, y := Single.nan,
                                 z := Single.nan, w := Single.nan } } := by
  have hsub : Examples.nearLamp.position.sub Examples.requestAtOrigin.shadingData.position =
      { x := Single.finite (1 / 2 ^ 80), y := Single.finite 0, z := Single.finite 0,
        w := Single.finite 0 } := by
    simp only [Examples.nearLamp, Examples.faint, Examples.requestAtOrigin, Vector4.sub,
      Single.zero_eq, Single.finite_sub, Single.round_faint.1, Single.round_faint.2.2.1]
  have hsqr : (Examples.nearLamp.position.sub
      Examples.requestAtOrigin.shadingData.position).SqrLength3 = Single.finite 0 := by
    rw [hsub]
    simp only [Vector4.SqrLength3, Vector4.Dot3, Single.finite_mul, Single.finite_add,
      Single.round_faint.2.1, Single.round_faint.2.2.2.1, Single.round_faint.2.2.2.2]
  refine ⟨hsub, hsqr, ?_⟩
  simp only [Illuminate]
  rw [hsqr, hsub]
  simp only [Examples.rootSingle, Vector4.divScalar, Single.finite_div_zero]
  norm_num

end PointLight

namespace PointLight

/-- C27, as stated, fails where the squared distance underflows: in single
precision, with the light at `(2^-80, 0, 0)` and the shaded point at the origin,
the positions differ in x, yet the PDF, the squared distance `2^-160` stored as a
`float`, is 0 and so is not strictly positive. -/
theorem Illuminate_pdf_zero_on_underflow :
    Examples.nearLamp.position.x ≠ Examples.requestAtOrigin.shadingData.position.x ∧
    (Illuminate Examples.rootSingle (fun _ c => c) Examples.nearLamp
      Examples.requestAtOrigin).2.outDirectPdfW = 0 ∧
    ¬ ((0 : Single) < (Illuminate Examples.rootSingle (fun _ c => c) Examples.nearLamp
      Examples.requestAtOrigin).2.outDirectPdfW) := by
  rw [Illuminate_nearLamp.2.2]
  refine ⟨?_, rfl, ?_⟩
  · simp only [Examples.nearLamp, Examples.faint, Examples.requestAtOrigin, Single.zero_eq,
      ne_eq, Single.finite.injEq]
    norm_num
  · show ¬ Single.lt (Single.finite 0) (Single.finite 0)
    simp only [Single.lt, lt_self_iff_false, not_false_eq_true]

end PointLight

namespace math

end math

namespace PlasticBSDF

end PlasticBSDF

end rt
